import Mathlib

/-!
# Clock-tree bring-up of the STM32G0 Mcu driver (Mcu_Arch.c)

A shallow embedding of `Mcu_Arch.c`, `Mcu_Arch.h` and `Mcu_Types.h`.

* 32-bit register words and the `uint32` fields of the request records are natural
  numbers; the bit operations are the ones of `Nat`, and the 32-bit complement and the
  32-bit left shift are written out explicitly.
* The RCC register block and the PLL status stored in `HwUnit->Config->PllStatus` form
  the machine state `Mcu_Hw`.  Every register write performed through one of the `Bfx`
  write primitives is also appended to a write log (the register written, the register
  block at the moment of the write and the word stored), so that ordering properties can
  be stated.
-/

set_option maxRecDepth 4096

/-! ## Std_Types.h -/

/-- Modelled from the spec: `Std_Types.h` is not part of the sources; `E_OK` is 0. -/
abbrev E_OK : Nat := 0

/-- Modelled from the spec: `Std_Types.h` is not part of the sources; `E_NOT_OK` is 1. -/
abbrev E_NOT_OK : Nat := 1

/-- Modelled from the spec: `Std_Types.h` is not part of the sources; `STD_ACTIVE` is 1. -/
abbrev STD_ACTIVE : Nat := 1

/-- Modelled from the spec: `Std_Types.h` is not part of the sources; `STD_IDLE` is 0. -/
abbrev STD_IDLE : Nat := 0

/-! ## Mcu_Arch.h : bit positions -/

abbrev RCC_CR_HSION : Nat := 8
abbrev RCC_CR_HSIRDY : Nat := 10
abbrev RCC_CR_HSEON : Nat := 16
abbrev RCC_CR_HSERDY : Nat := 17
abbrev RCC_CR_HSEBYP : Nat := 18
abbrev RCC_CR_HSI48ON : Nat := 22
abbrev RCC_CR_HSI48RDY : Nat := 23
abbrev RCC_CR_PLLON : Nat := 24
abbrev RCC_CR_PLLRDY : Nat := 25
abbrev RCC_CFGR_SWS_LSB : Nat := 3
abbrev RCC_CFGR_SWS_BITS : Nat := 3
abbrev RCC_PLLCFGR_PLLPEN : Nat := 16
abbrev RCC_PLLCFGR_PLLQEN : Nat := 24
abbrev RCC_PLLCFGR_PLLREN : Nat := 28
abbrev RCC_BDCR_LSEON : Nat := 0
abbrev RCC_BDCR_LSERDY : Nat := 1
abbrev RCC_BDCR_LSEBYP : Nat := 2
abbrev RCC_CSR_LSION : Nat := 0
abbrev RCC_CSR_LSIRDY : Nat := 1

/-! ## Mcu_Types.h : encodings -/

abbrev MCU_PLL_SOURCE_MASK : Nat := 0x03
abbrev MCU_PLL_SOURCE_NONE : Nat := 0x00000000
abbrev MCU_PLL_SOURCE_NOT_VALID : Nat := 0x00000001
abbrev MCU_PLL_SOURCE_HSI : Nat := 0x00000002
abbrev MCU_PLL_SOURCE_HSE : Nat := 0x00000003

abbrev MCU_PLLM_OFFSET : Nat := 4
abbrev MCU_PLLM_MASK : Nat := 0x70
abbrev MCU_PLLM_DIV1 : Nat := 0x00000000 <<< MCU_PLLM_OFFSET
abbrev MCU_PLLM_DIV2 : Nat := 0x00000001 <<< MCU_PLLM_OFFSET
abbrev MCU_PLLM_DIV3 : Nat := 0x00000002 <<< MCU_PLLM_OFFSET
abbrev MCU_PLLM_DIV4 : Nat := 0x00000003 <<< MCU_PLLM_OFFSET
abbrev MCU_PLLM_DIV5 : Nat := 0x00000004 <<< MCU_PLLM_OFFSET
abbrev MCU_PLLM_DIV6 : Nat := 0x00000005 <<< MCU_PLLM_OFFSET
abbrev MCU_PLLM_DIV7 : Nat := 0x00000006 <<< MCU_PLLM_OFFSET
abbrev MCU_PLLM_DIV8 : Nat := 0x00000007 <<< MCU_PLLM_OFFSET

abbrev MCU_PLLN_OFFSET : Nat := 8
abbrev MCU_PLLN_MASK : Nat := 0x7F00
abbrev MCU_PLLN_MIN_VALUE : Nat := 8
abbrev MCU_PLLN_MAX_VALUE : Nat := 86

abbrev MCU_PLLP_OFFSET : Nat := 17
abbrev MCU_PLLP_MASK : Nat := 0x003E0000
abbrev MCU_PLLP_DIV2 : Nat := 1 <<< MCU_PLLP_OFFSET
abbrev MCU_PLLP_DIV3 : Nat := 2 <<< MCU_PLLP_OFFSET
abbrev MCU_PLLP_DIV4 : Nat := 3 <<< MCU_PLLP_OFFSET
abbrev MCU_PLLP_DIV5 : Nat := 4 <<< MCU_PLLP_OFFSET
abbrev MCU_PLLP_DIV6 : Nat := 5 <<< MCU_PLLP_OFFSET
abbrev MCU_PLLP_DIV7 : Nat := 6 <<< MCU_PLLP_OFFSET
abbrev MCU_PLLP_DIV8 : Nat := 7 <<< MCU_PLLP_OFFSET
abbrev MCU_PLLP_DIV9 : Nat := 8 <<< MCU_PLLP_OFFSET
abbrev MCU_PLLP_DIV10 : Nat := 9 <<< MCU_PLLP_OFFSET
abbrev MCU_PLLP_DIV11 : Nat := 10 <<< MCU_PLLP_OFFSET
abbrev MCU_PLLP_DIV12 : Nat := 11 <<< MCU_PLLP_OFFSET
abbrev MCU_PLLP_DIV13 : Nat := 12 <<< MCU_PLLP_OFFSET
abbrev MCU_PLLP_DIV14 : Nat := 13 <<< MCU_PLLP_OFFSET
abbrev MCU_PLLP_DIV15 : Nat := 14 <<< MCU_PLLP_OFFSET
abbrev MCU_PLLP_DIV16 : Nat := 15 <<< MCU_PLLP_OFFSET
abbrev MCU_PLLP_DIV17 : Nat := 16 <<< MCU_PLLP_OFFSET
abbrev MCU_PLLP_DIV18 : Nat := 17 <<< MCU_PLLP_OFFSET
abbrev MCU_PLLP_DIV19 : Nat := 18 <<< MCU_PLLP_OFFSET
abbrev MCU_PLLP_DIV20 : Nat := 19 <<< MCU_PLLP_OFFSET
abbrev MCU_PLLP_DIV21 : Nat := 20 <<< MCU_PLLP_OFFSET
abbrev MCU_PLLP_DIV22 : Nat := 21 <<< MCU_PLLP_OFFSET
abbrev MCU_PLLP_DIV23 : Nat := 22 <<< MCU_PLLP_OFFSET
abbrev MCU_PLLP_DIV24 : Nat := 23 <<< MCU_PLLP_OFFSET
abbrev MCU_PLLP_DIV25 : Nat := 24 <<< MCU_PLLP_OFFSET
abbrev MCU_PLLP_DIV26 : Nat := 25 <<< MCU_PLLP_OFFSET
abbrev MCU_PLLP_DIV27 : Nat := 26 <<< MCU_PLLP_OFFSET
abbrev MCU_PLLP_DIV28 : Nat := 27 <<< MCU_PLLP_OFFSET
abbrev MCU_PLLP_DIV29 : Nat := 28 <<< MCU_PLLP_OFFSET
abbrev MCU_PLLP_DIV30 : Nat := 29 <<< MCU_PLLP_OFFSET
abbrev MCU_PLLP_DIV31 : Nat := 30 <<< MCU_PLLP_OFFSET
abbrev MCU_PLLP_DIV32 : Nat := 31 <<< MCU_PLLP_OFFSET

abbrev MCU_PLLQ_OFFSET : Nat := 25
abbrev MCU_PLLQ_MASK : Nat := 0x0E000000
abbrev MCU_PLLQ_DIV2 : Nat := 1 <<< MCU_PLLQ_OFFSET
abbrev MCU_PLLQ_DIV3 : Nat := 2 <<< MCU_PLLQ_OFFSET
abbrev MCU_PLLQ_DIV4 : Nat := 3 <<< MCU_PLLQ_OFFSET
abbrev MCU_PLLQ_DIV5 : Nat := 4 <<< MCU_PLLQ_OFFSET
abbrev MCU_PLLQ_DIV6 : Nat := 5 <<< MCU_PLLQ_OFFSET
abbrev MCU_PLLQ_DIV7 : Nat := 6 <<< MCU_PLLQ_OFFSET
abbrev MCU_PLLQ_DIV8 : Nat := 7 <<< MCU_PLLQ_OFFSET

abbrev MCU_PLLR_OFFSET : Nat := 9
abbrev MCU_PLLR_MASK : Nat := 0xE0000000
abbrev MCU_PLLR_DIV2 : Nat := 1 <<< MCU_PLLR_OFFSET
abbrev MCU_PLLR_DIV3 : Nat := 2 <<< MCU_PLLR_OFFSET
abbrev MCU_PLLR_DIV4 : Nat := 3 <<< MCU_PLLR_OFFSET
abbrev MCU_PLLR_DIV5 : Nat := 4 <<< MCU_PLLR_OFFSET
abbrev MCU_PLLR_DIV6 : Nat := 5 <<< MCU_PLLR_OFFSET
abbrev MCU_PLLR_DIV7 : Nat := 6 <<< MCU_PLLR_OFFSET
abbrev MCU_PLLR_DIV8 : Nat := 7 <<< MCU_PLLR_OFFSET

abbrev MCU_OSCILLATORTYPE_NONE : Nat := 0
abbrev MCU_OSCILLATORTYPE_HSE : Nat := 1
abbrev MCU_OSCILLATORTYPE_HSI : Nat := 2
abbrev MCU_OSCILLATORTYPE_LSE : Nat := 3
abbrev MCU_OSCILLATORTYPE_LSI : Nat := 4
abbrev MCU_OSCILLATORTYPE_HSI48 : Nat := 5

abbrev MCU_HSE_OFF : Nat := 0
abbrev MCU_HSE_ON : Nat := 1
abbrev MCU_HSE_BYPASS : Nat := 2
abbrev MCU_LSE_OFF : Nat := 0
abbrev MCU_LSE_ON : Nat := 1
abbrev MCU_LSE_BYPASS : Nat := 2
abbrev MCU_HSI_OFF : Nat := 0
abbrev MCU_HSI_ON : Nat := 1
abbrev MCU_HSICALIBRATION_DEFAULT : Nat := 64
abbrev MCU_LSI_OFF : Nat := 0
abbrev MCU_LSI_ON : Nat := 1
abbrev MCU_HSI48_OFF : Nat := 0
abbrev MCU_HSI48_ON : Nat := 1

abbrev MCU_HSI_DIV_OFFSET : Nat := 11
abbrev MCU_HSI_DIV_MASK : Nat := 0x3800
abbrev MCU_HSI_DIV1 : Nat := 0 <<< MCU_HSI_DIV_OFFSET
abbrev MCU_HSI_DIV2 : Nat := 1 <<< MCU_HSI_DIV_OFFSET
abbrev MCU_HSI_DIV4 : Nat := 2 <<< MCU_HSI_DIV_OFFSET
abbrev MCU_HSI_DIV8 : Nat := 3 <<< MCU_HSI_DIV_OFFSET
abbrev MCU_HSI_DIV16 : Nat := 4 <<< MCU_HSI_DIV_OFFSET
abbrev MCU_HSI_DIV32 : Nat := 5 <<< MCU_HSI_DIV_OFFSET
abbrev MCU_HSI_DIV64 : Nat := 6 <<< MCU_HSI_DIV_OFFSET
abbrev MCU_HSI_DIV128 : Nat := 7 <<< MCU_HSI_DIV_OFFSET

abbrev MCU_HSICALIBRATION_OFFSET : Nat := 8
abbrev MCU_HSICALIBRATION_MASK : Nat := 0x7F00
abbrev MCU_HSICALIBRATION_MIN_VALUE : Nat := 0
abbrev MCU_HSICALIBRATION_MAX_VALUE : Nat := 127

abbrev MCU_SYSCLKSOURCE_MASK : Nat := 0x07
abbrev MCU_SYSCLKSOURCE_OFFSET : Nat := 0
abbrev MCU_SYSCLKSOURCE_HSI : Nat := 0 <<< MCU_SYSCLKSOURCE_OFFSET
abbrev MCU_SYSCLKSOURCE_HSE : Nat := 1 <<< MCU_SYSCLKSOURCE_OFFSET
abbrev MCU_SYSCLKSOURCE_PLLCLK : Nat := 2 <<< MCU_SYSCLKSOURCE_OFFSET
abbrev MCU_SYSCLKSOURCE_LSI : Nat := 3 <<< MCU_SYSCLKSOURCE_OFFSET
abbrev MCU_SYSCLKSOURCE_LSE : Nat := 4 <<< MCU_SYSCLKSOURCE_OFFSET

abbrev MCU_AHB_DIV_OFFSET : Nat := 8
abbrev MCU_AHB_DIV_MASK : Nat := 0xF00
abbrev MCU_AHB_DIV1 : Nat := 7 <<< MCU_AHB_DIV_OFFSET
abbrev MCU_AHB_DIV2 : Nat := 8 <<< MCU_AHB_DIV_OFFSET
abbrev MCU_AHB_DIV4 : Nat := 9 <<< MCU_AHB_DIV_OFFSET
abbrev MCU_AHB_DIV8 : Nat := 10 <<< MCU_AHB_DIV_OFFSET
abbrev MCU_AHB_DIV16 : Nat := 11 <<< MCU_AHB_DIV_OFFSET
abbrev MCU_AHB_DIV64 : Nat := 12 <<< MCU_AHB_DIV_OFFSET
abbrev MCU_AHB_DIV128 : Nat := 13 <<< MCU_AHB_DIV_OFFSET
abbrev MCU_AHB_DIV256 : Nat := 14 <<< MCU_AHB_DIV_OFFSET
abbrev MCU_AHB_DIV512 : Nat := 15 <<< MCU_AHB_DIV_OFFSET

abbrev MCU_APB1_DIV_OFFSET : Nat := 12
abbrev MCU_APB1_DIV_MASK : Nat := 0x7000
abbrev MCU_APB1_DIV1 : Nat := 3 <<< MCU_APB1_DIV_OFFSET
abbrev MCU_APB1_DIV2 : Nat := 4 <<< MCU_APB1_DIV_OFFSET
abbrev MCU_APB1_DIV4 : Nat := 5 <<< MCU_APB1_DIV_OFFSET
abbrev MCU_APB1_DIV8 : Nat := 6 <<< MCU_APB1_DIV_OFFSET
abbrev MCU_APB1_DIV16 : Nat := 7 <<< MCU_APB1_DIV_OFFSET

abbrev MCU_PLL_STATE_DISABLED : Nat := 0
abbrev MCU_PLL_STATE_ENABLED : Nat := 1

/-- The enumerated encodings `MCU_PLLM_DIV1 .. MCU_PLLM_DIV8`. -/
def MCU_PLLM_DIVS : List Nat :=
  [MCU_PLLM_DIV1, MCU_PLLM_DIV2, MCU_PLLM_DIV3, MCU_PLLM_DIV4,
   MCU_PLLM_DIV5, MCU_PLLM_DIV6, MCU_PLLM_DIV7, MCU_PLLM_DIV8]

/-- The enumerated encodings `MCU_PLLP_DIV2 .. MCU_PLLP_DIV32`. -/
def MCU_PLLP_DIVS : List Nat :=
  [MCU_PLLP_DIV2, MCU_PLLP_DIV3, MCU_PLLP_DIV4, MCU_PLLP_DIV5,
   MCU_PLLP_DIV6, MCU_PLLP_DIV7, MCU_PLLP_DIV8, MCU_PLLP_DIV9,
   MCU_PLLP_DIV10, MCU_PLLP_DIV11, MCU_PLLP_DIV12, MCU_PLLP_DIV13,
   MCU_PLLP_DIV14, MCU_PLLP_DIV15, MCU_PLLP_DIV16, MCU_PLLP_DIV17,
   MCU_PLLP_DIV18, MCU_PLLP_DIV19, MCU_PLLP_DIV20, MCU_PLLP_DIV21,
   MCU_PLLP_DIV22, MCU_PLLP_DIV23, MCU_PLLP_DIV24, MCU_PLLP_DIV25,
   MCU_PLLP_DIV26, MCU_PLLP_DIV27, MCU_PLLP_DIV28, MCU_PLLP_DIV29,
   MCU_PLLP_DIV30, MCU_PLLP_DIV31, MCU_PLLP_DIV32]

/-- The enumerated encodings `MCU_PLLQ_DIV2 .. MCU_PLLQ_DIV8`. -/
def MCU_PLLQ_DIVS : List Nat :=
  [MCU_PLLQ_DIV2, MCU_PLLQ_DIV3, MCU_PLLQ_DIV4, MCU_PLLQ_DIV5,
   MCU_PLLQ_DIV6, MCU_PLLQ_DIV7, MCU_PLLQ_DIV8]

/-- The enumerated encodings `MCU_PLLR_DIV2 .. MCU_PLLR_DIV8`. -/
def MCU_PLLR_DIVS : List Nat :=
  [MCU_PLLR_DIV2, MCU_PLLR_DIV3, MCU_PLLR_DIV4, MCU_PLLR_DIV5,
   MCU_PLLR_DIV6, MCU_PLLR_DIV7, MCU_PLLR_DIV8]

/-- The enumerated encodings `MCU_HSI_DIV1 .. MCU_HSI_DIV128`. -/
def MCU_HSI_DIVS : List Nat :=
  [MCU_HSI_DIV1, MCU_HSI_DIV2, MCU_HSI_DIV4, MCU_HSI_DIV8,
   MCU_HSI_DIV16, MCU_HSI_DIV32, MCU_HSI_DIV64, MCU_HSI_DIV128]

/-- The enumerated encodings `MCU_AHB_DIV1 .. MCU_AHB_DIV512`. -/
def MCU_AHB_DIVS : List Nat :=
  [MCU_AHB_DIV1, MCU_AHB_DIV2, MCU_AHB_DIV4, MCU_AHB_DIV8, MCU_AHB_DIV16,
   MCU_AHB_DIV64, MCU_AHB_DIV128, MCU_AHB_DIV256, MCU_AHB_DIV512]

/-- The enumerated encodings `MCU_APB1_DIV1 .. MCU_APB1_DIV16`. -/
def MCU_APB1_DIVS : List Nat :=
  [MCU_APB1_DIV1, MCU_APB1_DIV2, MCU_APB1_DIV4, MCU_APB1_DIV8, MCU_APB1_DIV16]

/-- Status value stored in the configuration and returned by `Mcu_GetPllStatus`. -/
inductive Mcu_PllStatusType where
  | MCU_PLL_LOCKED
  | MCU_PLL_UNLOCKED
  | MCU_PLL_STATUS_UNDEFINED
  deriving DecidableEq, Repr

open Mcu_PllStatusType

/-- Pll configuration parameters. -/
structure Mcu_PllConfigType where
  PllSource : Nat
  PllState : Nat
  PllM : Nat
  PLLN : Nat
  PllP : Nat
  PllQ : Nat
  PllR : Nat
  deriving DecidableEq, Repr

/-- Oscillator configuration parameters. -/
structure Mcu_OscConfigType where
  OscillatorType : Nat
  HSEState : Nat
  LSEState : Nat
  HSIState : Nat
  HSIDivider : Nat
  HSICalibrationValue : Nat
  LSIState : Nat
  HSI48State : Nat
  PLL : Mcu_PllConfigType
  deriving DecidableEq, Repr

/-- System clock configuration parameters. -/
structure Mcu_SysClkConfigType where
  SysClockSource : Nat
  AHBClockDivider : Nat
  APB1ClockDivider : Nat
  deriving DecidableEq, Repr

/-- General clock configuration parameters. -/
structure Mcu_ClkConfigType where
  OscConfig : Mcu_OscConfigType
  ClkConfig : Mcu_SysClkConfigType
  deriving DecidableEq, Repr

/-- Driver configuration set handed to `Mcu_Arch_Init`. -/
structure Mcu_ConfigType where
  ClockSetting : Nat
  McuMode : Nat
  RamSection : Nat
  PllStatus : Mcu_PllStatusType
  ClockConfig : Mcu_ClkConfigType
  deriving DecidableEq, Repr

/-! ## The RCC register block and the machine state -/

/-- The registers of the RCC block that `Mcu_Arch.c` accesses (`Registers.h` is not part
of the sources; only the accessed words are modelled). -/
structure Rcc_RegisterType where
  CR : Nat
  ICSCR : Nat
  CFGR : Nat
  PLLCFGR : Nat
  BDCR : Nat
  CSR : Nat
  deriving DecidableEq, Repr

/-- Names of the RCC registers, used as the target of a write. -/
inductive Rcc_Reg where
  | CR
  | ICSCR
  | CFGR
  | PLLCFGR
  | BDCR
  | CSR
  deriving DecidableEq, Repr

/-- Read the word of a named register. -/
def Rcc_RegisterType.get (r : Rcc_RegisterType) : Rcc_Reg → Nat
  | .CR => r.CR
  | .ICSCR => r.ICSCR
  | .CFGR => r.CFGR
  | .PLLCFGR => r.PLLCFGR
  | .BDCR => r.BDCR
  | .CSR => r.CSR

/-- Store a word into a named register. -/
def Rcc_RegisterType.set (r : Rcc_RegisterType) (reg : Rcc_Reg) (v : Nat) : Rcc_RegisterType :=
  match reg with
  | .CR => { r with CR := v }
  | .ICSCR => { r with ICSCR := v }
  | .CFGR => { r with CFGR := v }
  | .PLLCFGR => { r with PLLCFGR := v }
  | .BDCR => { r with BDCR := v }
  | .CSR => { r with CSR := v }

/-- One entry of the write log: the register written, the register block at the moment
the write is issued, and the word stored. -/
structure Rcc_Write where
  reg : Rcc_Reg
  pre : Rcc_RegisterType
  value : Nat
  deriving DecidableEq, Repr

/-- Machine state: the RCC block behind the global pointer `Rcc`, the status stored in
`HwUnit->Config->PllStatus`, and the log of register writes in program order. -/
structure Mcu_Hw where
  Rcc : Rcc_RegisterType
  PllStatus : Mcu_PllStatusType
  trace : List Rcc_Write
  deriving DecidableEq, Repr

/-! ## Register access facade (32-bit Bfx primitives) -/

/-- Modelled from the spec: the complement `~Mask` of a `uint32` word
(the 32-bit `Bfx` header is not part of the sources). -/
def not_u32 (Mask : Nat) : Nat := Mask ^^^ 0xFFFFFFFF

/-- Modelled from the spec: `Bfx_SetBit_u32u8` is not part of the sources; it is the
32-bit form of `Bfx_SetBit_u8u8`, `*Data |= ( 1 << BitPn )`. -/
def Bfx_SetBit_u32u8 (Data BitPn : Nat) : Nat := Data ||| (1 <<< BitPn)

/-- Modelled from the spec: `Bfx_ClrBit_u32u8` is not part of the sources; it is the
32-bit form of `Bfx_ClrBit_u8u8`, `*Data &= ~( 1 << BitPn )`. -/
def Bfx_ClrBit_u32u8 (Data BitPn : Nat) : Nat := Data &&& not_u32 (1 <<< BitPn)

/-- Modelled from the spec: `Bfx_GetBit_u32u8_u8` is not part of the sources; it is the
32-bit form of `Bfx_GetBit_u8u8_u8`, `( Data >> BitPn ) & 1u`. -/
def Bfx_GetBit_u32u8_u8 (Data BitPn : Nat) : Nat := (Data >>> BitPn) &&& 1

/-- Modelled from the spec: `Bfx_GetBits_u32u8u8_u32` is not part of the sources; it is
the 32-bit form of `Bfx_GetBits_u8u8u8_u8`, `( Data >> BitStartPn ) & ( ( 1u << BitLn ) - 1u )`. -/
def Bfx_GetBits_u32u8u8_u32 (Data BitStartPn BitLn : Nat) : Nat :=
  (Data >>> BitStartPn) &&& ((1 <<< BitLn) - 1)

/-- Modelled from the spec: `Bfx_SetBitMask_u32u32` is not part of the sources; it is the
32-bit form of `Bfx_SetBitMask_u8u8`, `*Data |= Mask`. -/
def Bfx_SetBitMask_u32u32 (Data Mask : Nat) : Nat := Data ||| Mask

/-- Modelled from the spec: `Bfx_ClrBitMask_u32u32` is not part of the sources; it is the
32-bit form of `Bfx_ClrBitMask_u8u8`, `*Data &= ~Mask`. -/
def Bfx_ClrBitMask_u32u32 (Data Mask : Nat) : Nat := Data &&& not_u32 Mask

/-- A read-modify-write of one register through a `Bfx` write primitive; the write is
logged together with the register block it found. -/
def Mcu_Hw.rmw (s : Mcu_Hw) (reg : Rcc_Reg) (f : Nat → Nat) : Mcu_Hw :=
  { s with Rcc := s.Rcc.set reg (f (s.Rcc.get reg)),
           trace := s.trace ++ [{ reg := reg, pre := s.Rcc, value := f (s.Rcc.get reg) }] }

/-- The call `Bfx_SetBit_u32u8( &Rcc->reg, BitPn )`. -/
def Mcu_Hw.SetBit (s : Mcu_Hw) (reg : Rcc_Reg) (BitPn : Nat) : Mcu_Hw :=
  s.rmw reg (fun Data => Bfx_SetBit_u32u8 Data BitPn)

/-- The call `Bfx_ClrBit_u32u8( &Rcc->reg, BitPn )`. -/
def Mcu_Hw.ClrBit (s : Mcu_Hw) (reg : Rcc_Reg) (BitPn : Nat) : Mcu_Hw :=
  s.rmw reg (fun Data => Bfx_ClrBit_u32u8 Data BitPn)

/-- The call `Bfx_SetBitMask_u32u32( &Rcc->reg, Mask )`. -/
def Mcu_Hw.SetBitMask (s : Mcu_Hw) (reg : Rcc_Reg) (Mask : Nat) : Mcu_Hw :=
  s.rmw reg (fun Data => Bfx_SetBitMask_u32u32 Data Mask)

/-- The call `Bfx_ClrBitMask_u32u32( &Rcc->reg, Mask )`. -/
def Mcu_Hw.ClrBitMask (s : Mcu_Hw) (reg : Rcc_Reg) (Mask : Nat) : Mcu_Hw :=
  s.rmw reg (fun Data => Bfx_ClrBitMask_u32u32 Data Mask)

/-! ## Mcu_Arch.c -/

/-- Validate value inside a range: `E_OK` if the value is valid, `E_NOT_OK` otherwise. -/
def Validate_ValueInRange (Value MinValue MaxValue : Nat) : Nat :=
  if Value ≥ MinValue ∧ Value ≤ MaxValue then E_OK else E_NOT_OK

/-- Validate PLL clock source: `E_OK` if the value is valid, `E_NOT_OK` otherwise. -/
def Validate_PllSource (PllSource : Nat) : Nat :=
  if PllSource ≥ MCU_PLL_SOURCE_NONE ∧ PllSource ≤ MCU_PLL_SOURCE_HSE then
    if PllSource ≠ MCU_PLL_SOURCE_NOT_VALID then E_OK else E_NOT_OK
  else E_NOT_OK

/-- Get the actual clock used by system (RCC_CFGR[5:3]), returned as a `uint8`. -/
def Get_SysClk (s : Mcu_Hw) : Nat :=
  Bfx_GetBits_u32u8u8_u32 s.Rcc.CFGR RCC_CFGR_SWS_LSB RCC_CFGR_SWS_BITS % 2 ^ 8

/-- MCU low level initialization (`Mcu_Arch_Init`, the `HwUnit` argument is unused). -/
def Mcu_Arch_Init (s : Mcu_Hw) (ConfigPtr : Mcu_ConfigType) : Mcu_Hw :=
  let Osc := ConfigPtr.ClockConfig.OscConfig
  -- HSE configuration
  if Osc.OscillatorType = MCU_OSCILLATORTYPE_HSE then
    if Get_SysClk s ≠ MCU_SYSCLKSOURCE_HSE then
      if Osc.HSEState = MCU_HSE_ON then
        ((s.ClrBit .CR RCC_CR_HSEON).ClrBit .CR RCC_CR_HSEBYP).SetBit .CR RCC_CR_HSEON
      else if Osc.HSEState = MCU_HSE_BYPASS then
        ((s.ClrBit .CR RCC_CR_HSEON).SetBit .CR RCC_CR_HSEBYP).SetBit .CR RCC_CR_HSEON
      else
        (s.ClrBit .CR RCC_CR_HSEON).SetBit .CR RCC_CR_HSEBYP
    else s
  -- HSI configuration
  else if Osc.OscillatorType = MCU_OSCILLATORTYPE_HSI then
    if Osc.HSIState = MCU_HSI_ON then
      let s1 :=
        if Validate_ValueInRange Osc.HSIDivider MCU_HSI_DIV1 MCU_HSI_DIV128 = E_OK then
          (s.ClrBitMask .CR MCU_HSI_DIV_MASK).SetBitMask .CR Osc.HSIDivider
        else s
      let s2 :=
        if Validate_ValueInRange Osc.HSICalibrationValue MCU_HSICALIBRATION_MIN_VALUE
            MCU_HSICALIBRATION_MAX_VALUE = E_OK then
          (s1.ClrBitMask .ICSCR MCU_HSICALIBRATION_MASK).SetBitMask .CR
            ((Osc.HSICalibrationValue <<< MCU_HSICALIBRATION_OFFSET) % 2 ^ 32)
        else s1
      s2.SetBit .CR RCC_CR_HSION
    else
      if Get_SysClk s ≠ MCU_SYSCLKSOURCE_HSI then
        s.ClrBit .CR RCC_CR_HSION
      else s
  -- HSI48 configuration
  else if Osc.OscillatorType = MCU_OSCILLATORTYPE_HSI48 then
    if Osc.HSI48State = MCU_HSI48_ON then
      s.SetBit .CR RCC_CR_HSI48ON
    else
      s.ClrBit .CR RCC_CR_HSI48ON
  -- LSE configuration
  else if Osc.OscillatorType = MCU_OSCILLATORTYPE_LSE then
    if Get_SysClk s ≠ MCU_SYSCLKSOURCE_LSE then
      if Osc.LSEState = MCU_LSE_ON then
        ((s.ClrBit .BDCR RCC_BDCR_LSEON).ClrBit .BDCR RCC_BDCR_LSEBYP).SetBit .BDCR RCC_BDCR_LSEON
      else if Osc.LSEState = MCU_LSE_BYPASS then
        ((s.ClrBit .BDCR RCC_BDCR_LSEON).SetBit .BDCR RCC_BDCR_LSEBYP).SetBit .BDCR RCC_BDCR_LSEON
      else
        s.ClrBit .BDCR RCC_BDCR_LSEON
    else s
  -- LSI configuration
  else if Osc.OscillatorType = MCU_OSCILLATORTYPE_LSI then
    if Get_SysClk s ≠ MCU_SYSCLKSOURCE_LSI then
      if Osc.LSEState = MCU_LSI_ON then
        s.SetBit .CSR RCC_CSR_LSION
      else
        s.ClrBit .CSR RCC_CSR_LSION
    else s
  -- Other configuration
  else s

/-- The oscillator part of `Mcu_Arch_InitClock` (from "HSE configuration" to "Other
configuration"): the new machine state and the value of `returnValue`, which enters
this part as `E_NOT_OK`. -/
def Mcu_Arch_InitClock_Osc (s : Mcu_Hw) (ClockSetting : Mcu_ClkConfigType) : Nat × Mcu_Hw :=
  let Osc := ClockSetting.OscConfig
  let returnValue := E_NOT_OK
  -- HSE configuration
  if Osc.OscillatorType = MCU_OSCILLATORTYPE_HSE then
    let s1 :=
      if Get_SysClk s ≠ MCU_SYSCLKSOURCE_HSE then
        if Osc.HSEState = MCU_HSE_ON then
          ((s.ClrBit .CR RCC_CR_HSEON).ClrBit .CR RCC_CR_HSEBYP).SetBit .CR RCC_CR_HSEON
        else if Osc.HSEState = MCU_HSE_BYPASS then
          ((s.ClrBit .CR RCC_CR_HSEON).SetBit .CR RCC_CR_HSEBYP).SetBit .CR RCC_CR_HSEON
        else
          (s.ClrBit .CR RCC_CR_HSEON).SetBit .CR RCC_CR_HSEBYP
      else s
    (E_OK, s1)
  -- HSI configuration
  else if Osc.OscillatorType = MCU_OSCILLATORTYPE_HSI then
    let s3 :=
      if Osc.HSIState = MCU_HSI_ON then
        let s1 :=
          if Validate_ValueInRange Osc.HSIDivider MCU_HSI_DIV1 MCU_HSI_DIV128 = E_OK then
            (s.ClrBitMask .CR MCU_HSI_DIV_MASK).SetBitMask .CR Osc.HSIDivider
          else s
        let s2 :=
          if Validate_ValueInRange Osc.HSICalibrationValue MCU_HSICALIBRATION_MIN_VALUE
              MCU_HSICALIBRATION_MAX_VALUE = E_OK then
            (s1.ClrBitMask .ICSCR MCU_HSICALIBRATION_MASK).SetBitMask .CR
              ((Osc.HSICalibrationValue <<< MCU_HSICALIBRATION_OFFSET) % 2 ^ 32)
          else s1
        s2.SetBit .CR RCC_CR_HSION
      else
        if Get_SysClk s ≠ MCU_SYSCLKSOURCE_HSI then
          s.ClrBit .CR RCC_CR_HSION
        else s
    (E_OK, s3)
  -- HSI48 configuration
  else if Osc.OscillatorType = MCU_OSCILLATORTYPE_HSI48 then
    let s1 :=
      if Osc.HSIState = MCU_HSI48_ON then
        s.SetBit .CR RCC_CR_HSI48ON
      else
        s.ClrBit .CR RCC_CR_HSI48ON
    (E_OK, s1)
  -- LSE configuration
  else if Osc.OscillatorType = MCU_OSCILLATORTYPE_LSE then
    if Get_SysClk s ≠ MCU_SYSCLKSOURCE_LSE then
      let s1 :=
        if Osc.HSIState = MCU_LSE_ON then
          ((s.ClrBit .BDCR RCC_BDCR_LSEON).ClrBit .BDCR RCC_BDCR_LSEBYP).SetBit .BDCR RCC_BDCR_LSEON
        else if Osc.HSIState = MCU_HSE_BYPASS then
          ((s.ClrBit .BDCR RCC_BDCR_LSEON).SetBit .BDCR RCC_BDCR_LSEBYP).SetBit .BDCR RCC_BDCR_LSEON
        else
          s.ClrBit .BDCR RCC_BDCR_LSEON
      (E_OK, s1)
    else (returnValue, s)
  -- LSI configuration
  else if Osc.OscillatorType = MCU_OSCILLATORTYPE_LSI then
    if Get_SysClk s ≠ MCU_SYSCLKSOURCE_LSI then
      let s1 :=
        if Osc.HSIState = MCU_LSI_ON then
          s.SetBit .CSR RCC_CSR_LSION
        else
          s.ClrBit .CSR RCC_CSR_LSION
      (E_OK, s1)
    else (returnValue, s)
  -- Other configuration
  else (returnValue, s)

/-- The PLL part of `Mcu_Arch_InitClock` ("PLL configuration"): the new machine state and
the new value of `returnValue`. -/
def Mcu_Arch_InitClock_Pll (s : Mcu_Hw) (ClockSetting : Mcu_ClkConfigType)
    (returnValue : Nat) : Nat × Mcu_Hw :=
  let PLL := ClockSetting.OscConfig.PLL
  -- If new PLL status is enabled
  if PLL.PllState = MCU_PLL_STATE_ENABLED then
    -- Clear bit to disable PLL
    let s0 := s.ClrBit .CR RCC_CR_PLLON
    -- Setting PLL Source
    let s1 :=
      if Validate_PllSource PLL.PllSource = E_OK then
        (s0.ClrBitMask .PLLCFGR MCU_PLL_SOURCE_MASK).SetBitMask .PLLCFGR PLL.PllSource
      else s0
    -- Setting PLLM
    let s2 :=
      if Validate_ValueInRange PLL.PllM MCU_PLLM_DIV1 MCU_PLLM_DIV8 = E_OK then
        (s1.ClrBitMask .PLLCFGR MCU_PLLM_MASK).SetBitMask .PLLCFGR PLL.PllM
      else s1
    -- Setting PLLN
    let s3 :=
      if Validate_ValueInRange PLL.PLLN MCU_PLLN_MIN_VALUE MCU_PLLN_MAX_VALUE = E_OK then
        (s2.ClrBitMask .PLLCFGR MCU_PLLN_MASK).SetBitMask .PLLCFGR
          ((PLL.PLLN <<< MCU_PLLN_OFFSET) % 2 ^ 32)
      else s2
    -- PLL P
    let s4 :=
      if Validate_ValueInRange PLL.PllP MCU_PLLP_DIV2 MCU_PLLP_DIV32 = E_OK then
        ((s3.ClrBitMask .PLLCFGR MCU_PLLP_MASK).SetBitMask .PLLCFGR PLL.PllP).SetBit
          .PLLCFGR RCC_PLLCFGR_PLLPEN
      else s3
    -- PLL Q
    let s5 :=
      if Validate_ValueInRange PLL.PllQ MCU_PLLQ_DIV2 MCU_PLLQ_DIV8 = E_OK then
        ((s4.ClrBitMask .PLLCFGR MCU_PLLQ_MASK).SetBitMask .PLLCFGR PLL.PllQ).SetBit
          .PLLCFGR RCC_PLLCFGR_PLLQEN
      else s4
    -- PLL R
    let s6 :=
      if Validate_ValueInRange PLL.PllR MCU_PLLR_DIV2 MCU_PLLR_DIV8 = E_OK then
        ((s5.ClrBitMask .PLLCFGR MCU_PLLR_MASK).SetBitMask .PLLCFGR PLL.PllR).SetBit
          .PLLCFGR RCC_PLLCFGR_PLLREN
      else s5
    -- Set bit to enable PLL
    let s7 := s6.SetBit .CR RCC_CR_PLLON
    (returnValue ||| E_OK, { s7 with PllStatus := MCU_PLL_UNLOCKED })
  else
    -- Clear bit to disable PLL
    let s1 := s.ClrBit .CR RCC_CR_PLLON
    (E_OK, { s1 with PllStatus := MCU_PLL_STATUS_UNDEFINED })

/-- The switch over the requested system clock source in `Mcu_Arch_InitClock`: the value
of `applySettingFlag` ("Verify that selected clock is ready"). -/
def Mcu_Arch_InitClock_applySettingFlag (s : Mcu_Hw) (setting : Nat) : Nat :=
  if setting = MCU_SYSCLKSOURCE_HSI then
    if Bfx_GetBit_u32u8_u8 s.Rcc.CR RCC_CR_HSIRDY = STD_ACTIVE then STD_ACTIVE else STD_IDLE
  else if setting = MCU_SYSCLKSOURCE_HSE then
    if Bfx_GetBit_u32u8_u8 s.Rcc.CR RCC_CR_HSERDY = STD_ACTIVE then STD_ACTIVE else STD_IDLE
  else if setting = MCU_SYSCLKSOURCE_PLLCLK then
    if Bfx_GetBit_u32u8_u8 s.Rcc.CR RCC_CR_PLLRDY = STD_ACTIVE then STD_ACTIVE else STD_IDLE
  else if setting = MCU_SYSCLKSOURCE_LSI then
    if Bfx_GetBit_u32u8_u8 s.Rcc.CSR RCC_CSR_LSIRDY = STD_ACTIVE then STD_ACTIVE else STD_IDLE
  else if setting = MCU_SYSCLKSOURCE_LSE then
    if Bfx_GetBit_u32u8_u8 s.Rcc.BDCR RCC_BDCR_LSERDY = STD_ACTIVE then STD_ACTIVE else STD_IDLE
  else STD_IDLE

/-- The clock part of `Mcu_Arch_InitClock` ("Clock configuration"): system clock source,
AHB divider and APB1 divider. -/
def Mcu_Arch_InitClock_Clk (s : Mcu_Hw) (ClockSetting : Mcu_ClkConfigType)
    (returnValue : Nat) : Nat × Mcu_Hw :=
  let Clk := ClockSetting.ClkConfig
  let applySettingFlag := Mcu_Arch_InitClock_applySettingFlag s Clk.SysClockSource
  -- Apply new Clock source only if is detected as ready
  let a : Nat × Mcu_Hw :=
    if applySettingFlag = STD_ACTIVE then
      (E_OK, (s.ClrBitMask .CFGR MCU_SYSCLKSOURCE_MASK).SetBitMask .CFGR Clk.SysClockSource)
    else (returnValue, s)
  let b : Nat × Mcu_Hw :=
    if Validate_ValueInRange Clk.AHBClockDivider MCU_AHB_DIV128 MCU_AHB_DIV512 = E_OK then
      (E_OK, (a.2.ClrBitMask .CFGR MCU_AHB_DIV_MASK).SetBitMask .CFGR Clk.AHBClockDivider)
    else a
  if Validate_ValueInRange Clk.APB1ClockDivider MCU_APB1_DIV1 MCU_APB1_DIV16 = E_OK then
    (E_OK, (b.2.ClrBitMask .CFGR MCU_APB1_DIV_MASK).SetBitMask .CFGR Clk.APB1ClockDivider)
  else b

/-- MCU low level clock initialization (`Mcu_Arch_InitClock`): the returned
`Std_ReturnType` and the machine state after the call. -/
def Mcu_Arch_InitClock (s : Mcu_Hw) (ClockSetting : Mcu_ClkConfigType) : Nat × Mcu_Hw :=
  let a := Mcu_Arch_InitClock_Osc s ClockSetting
  let b := Mcu_Arch_InitClock_Pll a.2 ClockSetting a.1
  Mcu_Arch_InitClock_Clk b.2 ClockSetting b.1

/-- Low level PLL to MCU clock distribution (`Mcu_Arch_DistributePllClock`): the returned
`Std_ReturnType` and the machine state after the call. -/
def Mcu_Arch_DistributePllClock (s : Mcu_Hw) : Nat × Mcu_Hw :=
  -- Verify that PLL is ready
  if Bfx_GetBit_u32u8_u8 s.Rcc.CR RCC_CR_PLLRDY = STD_ACTIVE then
    -- Verify that PLL R output is enabled
    let a : Nat × Mcu_Hw :=
      if Bfx_GetBit_u32u8_u8 s.Rcc.PLLCFGR RCC_PLLCFGR_PLLREN = STD_ACTIVE then
        (E_OK, (s.ClrBitMask .CFGR MCU_SYSCLKSOURCE_MASK).SetBitMask .CFGR MCU_SYSCLKSOURCE_PLLCLK)
      else (E_NOT_OK, s)
    (a.1, { a.2 with PllStatus := MCU_PLL_LOCKED })
  else (E_NOT_OK, s)

/-- Get PLL low level lock status (`Mcu_Arch_GetPllStatus`): the returned status and the
machine state after the call. -/
def Mcu_Arch_GetPllStatus (s : Mcu_Hw) : Mcu_PllStatusType × Mcu_Hw :=
  let bitState := Bfx_GetBit_u32u8_u8 s.Rcc.CR RCC_CR_PLLRDY
  let s1 : Mcu_Hw :=
    if bitState = STD_ACTIVE then { s with PllStatus := MCU_PLL_LOCKED }
    else { s with PllStatus := MCU_PLL_UNLOCKED }
  (s1.PllStatus, s1)

/-! ## Auxiliary definitions used by the proofs -/

/-- The register writes issued by one call of `Mcu_Arch_Init`, in program order. -/
def Mcu_Arch_Init_writes (s : Mcu_Hw) (ConfigPtr : Mcu_ConfigType) : List Rcc_Write :=
  (Mcu_Arch_Init { s with trace := [] } ConfigPtr).trace

/-- The register writes issued by one call of `Mcu_Arch_InitClock`, in program order. -/
def Mcu_Arch_InitClock_writes (s : Mcu_Hw) (ClockSetting : Mcu_ClkConfigType) : List Rcc_Write :=
  (Mcu_Arch_InitClock { s with trace := [] } ClockSetting).2.trace

/-- The register writes issued by one call of `Mcu_Arch_DistributePllClock`. -/
def Mcu_Arch_DistributePllClock_writes (s : Mcu_Hw) : List Rcc_Write :=
  (Mcu_Arch_DistributePllClock { s with trace := [] }).2.trace

/-- The register writes issued by one call of `Mcu_Arch_GetPllStatus`. -/
def Mcu_Arch_GetPllStatus_writes (s : Mcu_Hw) : List Rcc_Write :=
  (Mcu_Arch_GetPllStatus { s with trace := [] }).2.trace

/-- The word left in PLLCFGR by the PLL part of `Mcu_Arch_InitClock`, as a function of the
word found there (shown equal to the program by `InitClock_Pll_PLLCFGR`). -/
def Pll_PLLCFGR (PLL : Mcu_PllConfigType) (x : Nat) : Nat :=
  if PLL.PllState = MCU_PLL_STATE_ENABLED then
    let x1 :=
      if Validate_PllSource PLL.PllSource = E_OK then
        Bfx_SetBitMask_u32u32 (Bfx_ClrBitMask_u32u32 x MCU_PLL_SOURCE_MASK) PLL.PllSource
      else x
    let x2 :=
      if Validate_ValueInRange PLL.PllM MCU_PLLM_DIV1 MCU_PLLM_DIV8 = E_OK then
        Bfx_SetBitMask_u32u32 (Bfx_ClrBitMask_u32u32 x1 MCU_PLLM_MASK) PLL.PllM
      else x1
    let x3 :=
      if Validate_ValueInRange PLL.PLLN MCU_PLLN_MIN_VALUE MCU_PLLN_MAX_VALUE = E_OK then
        Bfx_SetBitMask_u32u32 (Bfx_ClrBitMask_u32u32 x2 MCU_PLLN_MASK)
          ((PLL.PLLN <<< MCU_PLLN_OFFSET) % 2 ^ 32)
      else x2
    let x4 :=
      if Validate_ValueInRange PLL.PllP MCU_PLLP_DIV2 MCU_PLLP_DIV32 = E_OK then
        Bfx_SetBit_u32u8 (Bfx_SetBitMask_u32u32 (Bfx_ClrBitMask_u32u32 x3 MCU_PLLP_MASK) PLL.PllP)
          RCC_PLLCFGR_PLLPEN
      else x3
    let x5 :=
      if Validate_ValueInRange PLL.PllQ MCU_PLLQ_DIV2 MCU_PLLQ_DIV8 = E_OK then
        Bfx_SetBit_u32u8 (Bfx_SetBitMask_u32u32 (Bfx_ClrBitMask_u32u32 x4 MCU_PLLQ_MASK) PLL.PllQ)
          RCC_PLLCFGR_PLLQEN
      else x4
    if Validate_ValueInRange PLL.PllR MCU_PLLR_DIV2 MCU_PLLR_DIV8 = E_OK then
      Bfx_SetBit_u32u8 (Bfx_SetBitMask_u32u32 (Bfx_ClrBitMask_u32u32 x5 MCU_PLLR_MASK) PLL.PllR)
        RCC_PLLCFGR_PLLREN
    else x5
  else x

/-- The word left in CFGR by the clock part of `Mcu_Arch_InitClock`, as a function of the
word found there and of `applySettingFlag` (shown equal to the program by
`InitClock_Clk_CFGR`). -/
def Clk_CFGR (applySettingFlag : Nat) (Clk : Mcu_SysClkConfigType) (x : Nat) : Nat :=
  let x1 :=
    if applySettingFlag = STD_ACTIVE then
      Bfx_SetBitMask_u32u32 (Bfx_ClrBitMask_u32u32 x MCU_SYSCLKSOURCE_MASK) Clk.SysClockSource
    else x
  let x2 :=
    if Validate_ValueInRange Clk.AHBClockDivider MCU_AHB_DIV128 MCU_AHB_DIV512 = E_OK then
      Bfx_SetBitMask_u32u32 (Bfx_ClrBitMask_u32u32 x1 MCU_AHB_DIV_MASK) Clk.AHBClockDivider
    else x1
  if Validate_ValueInRange Clk.APB1ClockDivider MCU_APB1_DIV1 MCU_APB1_DIV16 = E_OK then
    Bfx_SetBitMask_u32u32 (Bfx_ClrBitMask_u32u32 x2 MCU_APB1_DIV_MASK) Clk.APB1ClockDivider
  else x2

/-- The ready flag of the requested system clock source, read from a register block:
CR bit 10 for HSI, CR bit 17 for HSE, CR bit 25 for PLLCLK, CSR bit 1 for LSI, BDCR bit 1
for LSE; no other source value has a ready flag. -/
def SysClockSource_ready (r : Rcc_RegisterType) (SysClockSource : Nat) : Bool :=
  (SysClockSource == 0 && r.CR.testBit 10) || (SysClockSource == 1 && r.CR.testBit 17) ||
  (SysClockSource == 2 && r.CR.testBit 25) || (SysClockSource == 3 && r.CSR.testBit 1) ||
  (SysClockSource == 4 && r.BDCR.testBit 1)

/-- An AHB divider value that is one of the enumerated encodings, or that the range
validation of `Mcu_Arch_InitClock` rejects. -/
def AHB_enum_or_rejected (v : Nat) : Prop :=
  v ∈ MCU_AHB_DIVS ∨ Validate_ValueInRange v MCU_AHB_DIV128 MCU_AHB_DIV512 ≠ E_OK

/-- An APB1 divider value that is one of the enumerated encodings, or that the range
validation of `Mcu_Arch_InitClock` rejects. -/
def APB1_enum_or_rejected (v : Nat) : Prop :=
  v ∈ MCU_APB1_DIVS ∨ Validate_ValueInRange v MCU_APB1_DIV1 MCU_APB1_DIV16 ≠ E_OK

/-- A PLLM value that is one of the enumerated encodings, or that the range validation of
`Mcu_Arch_InitClock` rejects. -/
def PLLM_enum_or_rejected (v : Nat) : Prop :=
  v ∈ MCU_PLLM_DIVS ∨ Validate_ValueInRange v MCU_PLLM_DIV1 MCU_PLLM_DIV8 ≠ E_OK

/-- A PLLP value that is one of the enumerated encodings, or that the range validation of
`Mcu_Arch_InitClock` rejects. -/
def PLLP_enum_or_rejected (v : Nat) : Prop :=
  v ∈ MCU_PLLP_DIVS ∨ Validate_ValueInRange v MCU_PLLP_DIV2 MCU_PLLP_DIV32 ≠ E_OK

/-- A PLLQ value that is one of the enumerated encodings, or that the range validation of
`Mcu_Arch_InitClock` rejects. -/
def PLLQ_enum_or_rejected (v : Nat) : Prop :=
  v ∈ MCU_PLLQ_DIVS ∨ Validate_ValueInRange v MCU_PLLQ_DIV2 MCU_PLLQ_DIV8 ≠ E_OK

/-- A PLLR value that is one of the enumerated encodings, or that the range validation of
`Mcu_Arch_InitClock` rejects. -/
def PLLR_enum_or_rejected (v : Nat) : Prop :=
  v ∈ MCU_PLLR_DIVS ∨ Validate_ValueInRange v MCU_PLLR_DIV2 MCU_PLLR_DIV8 ≠ E_OK

/-- The state `t` is reached from the state `s` by appending register writes that all
satisfy `P`. -/
def Mcu_Hw.extends_by (P : Rcc_Write → Prop) (s t : Mcu_Hw) : Prop :=
  ∃ w, t.trace = s.trace ++ w ∧ ∀ e ∈ w, P e

/-- A write to PLLCFGR issued while CR bit 24 (PLLON) is 0. -/
def PLLCFGR_write_while_off (e : Rcc_Write) : Prop :=
  e.reg = Rcc_Reg.PLLCFGR ∧ e.pre.CR.testBit 24 = false

/-- A write to a register other than PLLCFGR. -/
def not_PLLCFGR_write (e : Rcc_Write) : Prop :=
  e.reg ≠ Rcc_Reg.PLLCFGR

/-! ## Concrete inputs used to instantiate the theorems -/

/-- A register block after reset: HSI on and ready, PLLN at 16, everything else 0. -/
def rcc_reset : Rcc_RegisterType :=
  { CR := 0x00000500, ICSCR := 0, CFGR := 0, PLLCFGR := 0x00001000, BDCR := 0, CSR := 0 }

/-- A machine state after reset, with an empty write log. -/
def hw_reset : Mcu_Hw :=
  { Rcc := rcc_reset, PllStatus := MCU_PLL_STATUS_UNDEFINED, trace := [] }

/-- A machine state running from HSI in which HSE is on and ready, and in which the PLL has
been programmed before: source HSI, N = 16, Q and R fields 2 with both outputs enabled. -/
def hw_hse_ready : Mcu_Hw :=
  { Rcc := { rcc_reset with CR := 0x00030500, PLLCFGR := 0x55001002 },
    PllStatus := MCU_PLL_LOCKED, trace := [] }

/-- A machine state whose current system-clock source (CFGR bits 5:3) is `sws`, with HSE,
HSI, LSE and LSI all on. -/
def hw_running_from (sws : Nat) : Mcu_Hw :=
  { Rcc := { CR := 0x00030500, ICSCR := 0, CFGR := (sws <<< 3) ||| sws,
             PLLCFGR := 0x00001000, BDCR := 0x3, CSR := 0x3 },
    PllStatus := MCU_PLL_STATUS_UNDEFINED, trace := [] }

/-- A request that configures nothing: oscillator type None, PLL Disabled, unknown system
clock source, rejected bus dividers. -/
def request_none : Mcu_ClkConfigType :=
  { OscConfig :=
      { OscillatorType := MCU_OSCILLATORTYPE_NONE, HSEState := MCU_HSE_OFF,
        LSEState := MCU_LSE_OFF, HSIState := MCU_HSI_OFF, HSIDivider := 0,
        HSICalibrationValue := 0, LSIState := MCU_LSI_OFF, HSI48State := MCU_HSI48_OFF,
        PLL := { PllSource := MCU_PLL_SOURCE_NONE, PllState := MCU_PLL_STATE_DISABLED,
                 PllM := 0xFFFFFFFF, PLLN := 0, PllP := 0, PllQ := 0, PllR := 0 } },
    ClkConfig := { SysClockSource := 7, AHBClockDivider := 0, APB1ClockDivider := 0 } }

/-- A request that only names an oscillator and asks it to be switched off. -/
def request_osc_off (OscillatorType : Nat) : Mcu_ClkConfigType :=
  { request_none with OscConfig := { request_none.OscConfig with OscillatorType := OscillatorType } }

/-- The driver configuration set carrying a clock request. -/
def config_of (c : Mcu_ClkConfigType) : Mcu_ConfigType :=
  { ClockSetting := 0, McuMode := 0, RamSection := 0, PllStatus := MCU_PLL_STATUS_UNDEFINED,
    ClockConfig := c }

/-- Switch HSE on and select it as system clock, with bus dividers AHB/1 and APB1/1. -/
def request_hse_sysclk : Mcu_ClkConfigType :=
  { OscConfig := { request_none.OscConfig with
      OscillatorType := MCU_OSCILLATORTYPE_HSE, HSEState := MCU_HSE_ON },
    ClkConfig := { SysClockSource := MCU_SYSCLKSOURCE_HSE, AHBClockDivider := MCU_AHB_DIV1,
                   APB1ClockDivider := MCU_APB1_DIV1 } }

/-- The PLL request of Scenario B: Enabled, source HSE, M = DIV4, N = 40, P = DIV8,
Q = R = 0. -/
def request_scenario_B : Mcu_ClkConfigType :=
  { request_none with OscConfig := { request_none.OscConfig with
      PLL := { PllSource := MCU_PLL_SOURCE_HSE, PllState := MCU_PLL_STATE_ENABLED,
               PllM := MCU_PLLM_DIV4, PLLN := 40, PllP := MCU_PLLP_DIV8, PllQ := 0,
               PllR := 0 } } }

/-- A PLL request with an out-of-range multiplier (200) and the valid R divider
`MCU_PLLR_DIV2`; source HSI, M = DIV1, P and Q out of range. -/
def request_N200_R2 : Mcu_ClkConfigType :=
  { request_none with OscConfig := { request_none.OscConfig with
      PLL := { PllSource := MCU_PLL_SOURCE_HSI, PllState := MCU_PLL_STATE_ENABLED,
               PllM := MCU_PLLM_DIV1, PLLN := 200, PllP := 0, PllQ := 0,
               PllR := MCU_PLLR_DIV2 } } }

/-- A request that only programs the PLL: no oscillator, unknown system clock source,
rejected bus dividers. -/
def request_pll (PLL : Mcu_PllConfigType) : Mcu_ClkConfigType :=
  { request_none with OscConfig := { request_none.OscConfig with PLL := PLL } }

/-- A PLL request with the valid R divider `MCU_PLLR_DIV4` (divide by 4, code 3); source HSI,
M = DIV1, N = 16, P and Q out of range. -/
def request_R_div4 : Mcu_ClkConfigType :=
  request_pll { PllSource := MCU_PLL_SOURCE_HSI, PllState := MCU_PLL_STATE_ENABLED,
                PllM := MCU_PLLM_DIV1, PLLN := 16, PllP := 0, PllQ := 0,
                PllR := MCU_PLLR_DIV4 }

/-- A PLL request whose M value 0x04 passes the range validation (it lies between
`MCU_PLLM_DIV1` and `MCU_PLLM_DIV8`) without being an encoding; source HSI, N = 16, and the
encodings `MCU_PLLP_DIV2`, `MCU_PLLQ_DIV2` and `MCU_PLLR_DIV2` for P, Q and R. -/
def request_M_raw4 : Mcu_ClkConfigType :=
  request_pll { PllSource := MCU_PLL_SOURCE_HSI, PllState := MCU_PLL_STATE_ENABLED,
                PllM := 0x04, PLLN := 16, PllP := MCU_PLLP_DIV2, PllQ := MCU_PLLQ_DIV2,
                PllR := MCU_PLLR_DIV2 }

/-- A PLL request with source `MCU_PLL_SOURCE_NONE`; M = DIV1, N = 16, P, Q and R out of
range. -/
def request_source_none : Mcu_ClkConfigType :=
  request_pll { PllSource := MCU_PLL_SOURCE_NONE, PllState := MCU_PLL_STATE_ENABLED,
                PllM := MCU_PLLM_DIV1, PLLN := 16, PllP := 0, PllQ := 0, PllR := 0 }

/-- A request for HSE in the given state, nothing else. -/
def request_hse (HSEState : Nat) : Mcu_ClkConfigType :=
  { request_none with OscConfig := { request_none.OscConfig with
      OscillatorType := MCU_OSCILLATORTYPE_HSE, HSEState := HSEState } }

/-- A request for LSE in the given state, nothing else. -/
def request_lse (LSEState : Nat) : Mcu_ClkConfigType :=
  { request_none with OscConfig := { request_none.OscConfig with
      OscillatorType := MCU_OSCILLATORTYPE_LSE, LSEState := LSEState } }

/-- A request that switches HSI on with the given divider and calibration trim. -/
def request_hsi_on (HSIDivider HSICalibrationValue : Nat) : Mcu_ClkConfigType :=
  { request_none with OscConfig := { request_none.OscConfig with
      OscillatorType := MCU_OSCILLATORTYPE_HSI, HSIState := MCU_HSI_ON,
      HSIDivider := HSIDivider, HSICalibrationValue := HSICalibrationValue } }

/-- A request that switches HSI48 on; every other state field is Off. -/
def request_hsi48_on : Mcu_ClkConfigType :=
  { request_none with OscConfig := { request_none.OscConfig with
      OscillatorType := MCU_OSCILLATORTYPE_HSI48, HSI48State := MCU_HSI48_ON } }

/-- A request that switches LSI on; every other state field is Off. -/
def request_lsi_on : Mcu_ClkConfigType :=
  { request_none with OscConfig := { request_none.OscConfig with
      OscillatorType := MCU_OSCILLATORTYPE_LSI, LSIState := MCU_LSI_ON } }

/-- A request that only sets the AHB divider. -/
def request_ahb (AHBClockDivider : Nat) : Mcu_ClkConfigType :=
  { request_none with ClkConfig := { request_none.ClkConfig with
      AHBClockDivider := AHBClockDivider } }

/-- A machine state after reset in which the HSI trim of ICSCR is at its reset value 64. -/
def hw_trimmed : Mcu_Hw :=
  { Rcc := { rcc_reset with ICSCR := 0x00004000 },
    PllStatus := MCU_PLL_STATUS_UNDEFINED, trace := [] }

/-- The PLLCFGR bits outside every field that the PLL part programs: outside the source,
M, N, P, Q and R masks and the enable bits 16, 24 and 28 (bits 2, 3, 7, 15, 22 and 23). -/
def PLLCFGR_unprogrammed_bits : Nat :=
  not_u32 (MCU_PLL_SOURCE_MASK ||| MCU_PLLM_MASK ||| MCU_PLLN_MASK ||| MCU_PLLP_MASK |||
    MCU_PLLQ_MASK ||| MCU_PLLR_MASK ||| (1 <<< RCC_PLLCFGR_PLLPEN) |||
    (1 <<< RCC_PLLCFGR_PLLQEN) ||| (1 <<< RCC_PLLCFGR_PLLREN))

/-! ## Services of Mcu_Arch.c that are declared but not implemented -/

/-- Value `MCU_WATCHDOG_RESET` of the enumeration `Mcu_ResetType` (the second enumerator). -/
abbrev MCU_WATCHDOG_RESET : Nat := 1
/-- Value `MCU_RAMSTATE_VALID` of the enumeration `Mcu_RamStateType` (the second
enumerator). -/
abbrev MCU_RAMSTATE_VALID : Nat := 1

/-- MCU low level RAM initialization (`Mcu_Arch_InitRamSection`): both arguments are
discarded and `E_NOT_OK` is returned. -/
def Mcu_Arch_InitRamSection (s : Mcu_Hw) (RamSection : Nat) : Nat × Mcu_Hw :=
  let _ := RamSection
  (E_NOT_OK, s)

/-- Get the reset reason (`Mcu_Arch_GetResetReason`): `return E_NOT_OK;` in a function of
type `Mcu_ResetType`; the result is the integer value of the enumeration. -/
def Mcu_Arch_GetResetReason (s : Mcu_Hw) : Nat × Mcu_Hw :=
  (E_NOT_OK, s)

/-- Get the raw reset value (`Mcu_Arch_GetResetRawValue`): `return E_NOT_OK;` in a
function of type `Mcu_RawResetType` (`uint32`). -/
def Mcu_Arch_GetResetRawValue (s : Mcu_Hw) : Nat × Mcu_Hw :=
  (E_NOT_OK, s)

/-- Reset the MCU (`Mcu_Arch_PerformReset`): the body only discards its argument. -/
def Mcu_Arch_PerformReset (s : Mcu_Hw) : Mcu_Hw :=
  s

/-- Set the MCU power mode (`Mcu_Arch_SetMode`): the body only discards its arguments. -/
def Mcu_Arch_SetMode (s : Mcu_Hw) (McuMode : Nat) : Mcu_Hw :=
  let _ := McuMode
  s

/-- Get the status of the MCU RAM (`Mcu_Arch_GetRamState`): `return E_NOT_OK;` in a
function of type `Mcu_RamStateType`; the result is the integer value of the enumeration. -/
def Mcu_Arch_GetRamState (s : Mcu_Hw) : Nat × Mcu_Hw :=
  (E_NOT_OK, s)

/-! ## Bfx_8bits.h -/

/-- The complement `~x` of an operand promoted to `int`, as a 32-bit pattern in twos
complement. -/
def not_int (x : Nat) : Nat := x ^^^ 0xFFFFFFFF

/-- Sets a single bit: `*Data |= ( 0x01 << BitPn );`, stored into a `uint8`. -/
def Bfx_SetBit_u8u8 (Data BitPn : Nat) : Nat := (Data ||| (0x01 <<< BitPn)) % 2 ^ 8

/-- Clears a single bit: `*Data &= ~( 0x01 << BitPn );`, stored into a `uint8`. -/
def Bfx_ClrBit_u8u8 (Data BitPn : Nat) : Nat := (Data &&& not_int (0x01 <<< BitPn)) % 2 ^ 8

/-- Obtains one bit: `Result = ( *Data >> BitPn ) & 1u;`, returned as a `boolean`. -/
def Bfx_GetBit_u8u8_u8 (Data BitPn : Nat) : Nat := ((Data >>> BitPn) &&& 1) % 2 ^ 8

/-- Sets the bits of a mask: `*Data |= Mask;`, stored into a `uint8`. -/
def Bfx_SetBitMask_u8u8 (Data Mask : Nat) : Nat := (Data ||| Mask) % 2 ^ 8

/-- Clears the bits of a mask: `*Data &= ~Mask;`, stored into a `uint8`. -/
def Bfx_ClrBitMask_u8u8 (Data Mask : Nat) : Nat := (Data &&& not_int Mask) % 2 ^ 8

/-! ## Crc.h -/

/-- Body of the inner loop `for( uint8 bit = 0; bit < 8; bit++ )` of the 8-bit CRC
services: `if( crcValue & 0x80 ) crcValue = ( crcValue << 1 ) ^ Crc_Polynomial;` else
`crcValue <<= 1;`, stored into a `uint8`. -/
def Crc8_bit (Crc_Polynomial crcValue : Nat) : Nat :=
  if crcValue &&& 0x80 ≠ 0 then ((crcValue <<< 1) ^^^ Crc_Polynomial) % 2 ^ 8
  else (crcValue <<< 1) % 2 ^ 8

/-- Body of the outer loop `for( uint32 i = 0; i < Crc_Length; i++ )` of the 8-bit CRC
services: `crcValue ^= Crc_DataPtr[ i ];` followed by the eight rounds of the inner loop. -/
def Crc8_byte (Crc_Polynomial crcValue byte : Nat) : Nat :=
  Nat.iterate (Crc8_bit Crc_Polynomial) 8 ((crcValue ^^^ byte) % 2 ^ 8)

/-- The service `Crc_CalculateCRC8`; the list `Crc_DataPtr` holds the `Crc_Length` bytes
that the loop reads, in order. -/
def Crc_CalculateCRC8 (Crc_DataPtr : List Nat) (Crc_StartValue8 : Nat)
    (Crc_IsFirstCall : Bool) : Nat :=
  let Crc_Polynomial := 0x1D
  let crcValue := if Crc_IsFirstCall then 0xFF else Crc_StartValue8
  let crcValue := Crc_DataPtr.foldl (Crc8_byte Crc_Polynomial) crcValue
  (crcValue ^^^ 0xFF) % 2 ^ 8

/-- The service `Crc_CalculateCRC8H2F`; the list `Crc_DataPtr` holds the `Crc_Length` bytes
that the loop reads, in order. The function ends with `return crcValue;`. -/
def Crc_CalculateCRC8H2F (Crc_DataPtr : List Nat) (Crc_StartValue8H2F : Nat)
    (Crc_IsFirstCall : Bool) : Nat :=
  let Crc_Polynomial := 0x2F
  let crcValue := if Crc_IsFirstCall then 0xFF else Crc_StartValue8H2F
  let crcValue := Crc_DataPtr.foldl (Crc8_byte Crc_Polynomial) crcValue
  crcValue

/-! ## Reference CRC of width 8 -/

/-- The eight bits of a message byte in the order in which a CRC that is not reflected
consumes them: most significant bit first. -/
def crc_msg_bits (byte : Nat) : List Bool :=
  [byte.testBit 7, byte.testBit 6, byte.testBit 5, byte.testBit 4,
   byte.testBit 3, byte.testBit 2, byte.testBit 1, byte.testBit 0]

/-- One step of the CRC shift register of width 8: the register is shifted left by one
place, and the polynomial is XORed in when the bit shifted out differs from the message
bit. -/
def crc8_reference_step (poly reg : Nat) (bit : Bool) : Nat :=
  if (reg.testBit 7 != bit) then ((reg <<< 1) % 2 ^ 8) ^^^ poly else (reg <<< 1) % 2 ^ 8

/-- The CRC of width 8, not reflected, with polynomial `poly`, initial value `init` and
final XOR `xorout`, as the parameters of a CRC are commonly read: the register starts at
`init`, takes the bits of the message one by one, and is XORed with `xorout` at the end. -/
def crc8_reference (poly init xorout : Nat) (msg : List Nat) : Nat :=
  (msg.foldl (fun reg byte => (crc_msg_bits byte).foldl (crc8_reference_step poly) reg) init)
    ^^^ xorout

/-- The message bits that the byte loop of the code consumes in `n` rounds when the
pending part of the byte is `t`. -/
def Crc8_pending_bits : Nat → Nat → List Bool
  | 0, _ => []
  | n + 1, t => t.testBit 7 :: Crc8_pending_bits n ((t <<< 1) % 2 ^ 8)

/-- The pending part of a byte after `n` more rounds. -/
def Crc8_pending_rest : Nat → Nat → Nat
  | 0, t => t
  | n + 1, t => Crc8_pending_rest n ((t <<< 1) % 2 ^ 8)

/-- The nine ASCII bytes of the check string "123456789". -/
def crc_check_message : List Nat := [0x31, 0x32, 0x33, 0x34, 0x35, 0x36, 0x37, 0x38, 0x39]

/-! ## Word transformers used for the idempotence of Mcu_Arch_InitClock -/

/-- A transformer of a register word that treats every bit position on its own: it either
keeps the bit it finds or forces it to a constant. -/
def PerBit (F : Nat → Nat) : Prop :=
  ∀ i, (∀ x, (F x).testBit i = x.testBit i) ∨ ∃ b, ∀ x, (F x).testBit i = b

/-- The word left in CR by the oscillator part of `Mcu_Arch_InitClock`, as a function of
the word found there and of the value read by `Get_SysClk` (shown equal to the program by
`InitClock_Osc_Rcc`). -/
def Osc_CR (Osc : Mcu_OscConfigType) (sysClk x : Nat) : Nat :=
  if Osc.OscillatorType = MCU_OSCILLATORTYPE_HSE then
    if sysClk ≠ MCU_SYSCLKSOURCE_HSE then
      if Osc.HSEState = MCU_HSE_ON then
        Bfx_SetBit_u32u8 (Bfx_ClrBit_u32u8 (Bfx_ClrBit_u32u8 x RCC_CR_HSEON) RCC_CR_HSEBYP)
          RCC_CR_HSEON
      else if Osc.HSEState = MCU_HSE_BYPASS then
        Bfx_SetBit_u32u8 (Bfx_SetBit_u32u8 (Bfx_ClrBit_u32u8 x RCC_CR_HSEON) RCC_CR_HSEBYP)
          RCC_CR_HSEON
      else
        Bfx_SetBit_u32u8 (Bfx_ClrBit_u32u8 x RCC_CR_HSEON) RCC_CR_HSEBYP
    else x
  else if Osc.OscillatorType = MCU_OSCILLATORTYPE_HSI then
    if Osc.HSIState = MCU_HSI_ON then
      Bfx_SetBit_u32u8
        (if Validate_ValueInRange Osc.HSICalibrationValue MCU_HSICALIBRATION_MIN_VALUE
            MCU_HSICALIBRATION_MAX_VALUE = E_OK then
          Bfx_SetBitMask_u32u32
            (if Validate_ValueInRange Osc.HSIDivider MCU_HSI_DIV1 MCU_HSI_DIV128 = E_OK then
              Bfx_SetBitMask_u32u32 (Bfx_ClrBitMask_u32u32 x MCU_HSI_DIV_MASK) Osc.HSIDivider
            else x)
            ((Osc.HSICalibrationValue <<< MCU_HSICALIBRATION_OFFSET) % 2 ^ 32)
        else
          (if Validate_ValueInRange Osc.HSIDivider MCU_HSI_DIV1 MCU_HSI_DIV128 = E_OK then
            Bfx_SetBitMask_u32u32 (Bfx_ClrBitMask_u32u32 x MCU_HSI_DIV_MASK) Osc.HSIDivider
          else x))
        RCC_CR_HSION
    else
      if sysClk ≠ MCU_SYSCLKSOURCE_HSI then Bfx_ClrBit_u32u8 x RCC_CR_HSION else x
  else if Osc.OscillatorType = MCU_OSCILLATORTYPE_HSI48 then
    if Osc.HSIState = MCU_HSI48_ON then Bfx_SetBit_u32u8 x RCC_CR_HSI48ON
    else Bfx_ClrBit_u32u8 x RCC_CR_HSI48ON
  else x

/-- The word left in ICSCR by the oscillator part of `Mcu_Arch_InitClock`. -/
def Osc_ICSCR (Osc : Mcu_OscConfigType) (x : Nat) : Nat :=
  if Osc.OscillatorType = MCU_OSCILLATORTYPE_HSE then x
  else if Osc.OscillatorType = MCU_OSCILLATORTYPE_HSI then
    if Osc.HSIState = MCU_HSI_ON then
      if Validate_ValueInRange Osc.HSICalibrationValue MCU_HSICALIBRATION_MIN_VALUE
          MCU_HSICALIBRATION_MAX_VALUE = E_OK then
        Bfx_ClrBitMask_u32u32 x MCU_HSICALIBRATION_MASK
      else x
    else x
  else x

/-- The word left in BDCR by the oscillator part of `Mcu_Arch_InitClock`. -/
def Osc_BDCR (Osc : Mcu_OscConfigType) (sysClk x : Nat) : Nat :=
  if Osc.OscillatorType = MCU_OSCILLATORTYPE_HSE then x
  else if Osc.OscillatorType = MCU_OSCILLATORTYPE_HSI then x
  else if Osc.OscillatorType = MCU_OSCILLATORTYPE_HSI48 then x
  else if Osc.OscillatorType = MCU_OSCILLATORTYPE_LSE then
    if sysClk ≠ MCU_SYSCLKSOURCE_LSE then
      if Osc.HSIState = MCU_LSE_ON then
        Bfx_SetBit_u32u8 (Bfx_ClrBit_u32u8 (Bfx_ClrBit_u32u8 x RCC_BDCR_LSEON) RCC_BDCR_LSEBYP)
          RCC_BDCR_LSEON
      else if Osc.HSIState = MCU_HSE_BYPASS then
        Bfx_SetBit_u32u8 (Bfx_SetBit_u32u8 (Bfx_ClrBit_u32u8 x RCC_BDCR_LSEON) RCC_BDCR_LSEBYP)
          RCC_BDCR_LSEON
      else Bfx_ClrBit_u32u8 x RCC_BDCR_LSEON
    else x
  else x

/-- The word left in CSR by the oscillator part of `Mcu_Arch_InitClock`. -/
def Osc_CSR (Osc : Mcu_OscConfigType) (sysClk x : Nat) : Nat :=
  if Osc.OscillatorType = MCU_OSCILLATORTYPE_HSE then x
  else if Osc.OscillatorType = MCU_OSCILLATORTYPE_HSI then x
  else if Osc.OscillatorType = MCU_OSCILLATORTYPE_HSI48 then x
  else if Osc.OscillatorType = MCU_OSCILLATORTYPE_LSE then x
  else if Osc.OscillatorType = MCU_OSCILLATORTYPE_LSI then
    if sysClk ≠ MCU_SYSCLKSOURCE_LSI then
      if Osc.HSIState = MCU_LSI_ON then Bfx_SetBit_u32u8 x RCC_CSR_LSION
      else Bfx_ClrBit_u32u8 x RCC_CSR_LSION
    else x
  else x

/-- The word left in CR by the PLL part of `Mcu_Arch_InitClock`, as a function of the word
found there (shown equal to the program by `InitClock_Pll_CR`). -/
def Pll_CR (PLL : Mcu_PllConfigType) (x : Nat) : Nat :=
  if PLL.PllState = MCU_PLL_STATE_ENABLED then
    Bfx_SetBit_u32u8 (Bfx_ClrBit_u32u8 x RCC_CR_PLLON) RCC_CR_PLLON
  else Bfx_ClrBit_u32u8 x RCC_CR_PLLON

/-- The value of `returnValue` after the oscillator part of `Mcu_Arch_InitClock`, as a
function of the request and of the value read by `Get_SysClk`. -/
def Osc_returnValue (Osc : Mcu_OscConfigType) (sysClk : Nat) : Nat :=
  if Osc.OscillatorType = MCU_OSCILLATORTYPE_HSE then E_OK
  else if Osc.OscillatorType = MCU_OSCILLATORTYPE_HSI then E_OK
  else if Osc.OscillatorType = MCU_OSCILLATORTYPE_HSI48 then E_OK
  else if Osc.OscillatorType = MCU_OSCILLATORTYPE_LSE then
    if sysClk ≠ MCU_SYSCLKSOURCE_LSE then E_OK else E_NOT_OK
  else if Osc.OscillatorType = MCU_OSCILLATORTYPE_LSI then
    if sysClk ≠ MCU_SYSCLKSOURCE_LSI then E_OK else E_NOT_OK
  else E_NOT_OK

/-- The oscillator branch of `Mcu_Arch_InitClock` reports nothing: the oscillator type is
none of HSE, HSI and HSI48, it is not LSE while the current source differs from LSE, and it
is not LSI while the current source differs from LSI. -/
def Osc_reports_nothing (Osc : Mcu_OscConfigType) (sysClk : Nat) : Prop :=
  Osc.OscillatorType ≠ MCU_OSCILLATORTYPE_HSE ∧ Osc.OscillatorType ≠ MCU_OSCILLATORTYPE_HSI ∧
  Osc.OscillatorType ≠ MCU_OSCILLATORTYPE_HSI48 ∧
  ¬ (Osc.OscillatorType = MCU_OSCILLATORTYPE_LSE ∧ sysClk ≠ MCU_SYSCLKSOURCE_LSE) ∧
  ¬ (Osc.OscillatorType = MCU_OSCILLATORTYPE_LSI ∧ sysClk ≠ MCU_SYSCLKSOURCE_LSI)

/-! ## Bfx_8bits.h : parity, leading signs and saturating shifts -/

/-- A `while` loop whose body runs at most `fuel` times: `some` of the final state when the
condition fails after at most `fuel` runs of the body, `none` when the condition still holds
after `fuel` runs. -/
def while_loop {σ : Type} (cond : σ → Bool) (body : σ → σ) : Nat → σ → Option σ
  | 0, s => if cond s then none else some s
  | fuel + 1, s => if cond s then while_loop cond body fuel (body s) else some s

/-- The value of an `int` expression stored into a `sint8` object: the low 8 bits, read in
twos complement. -/
def to_sint8 (x : Int) : Int := (x + 128) % 256 - 128

/-- The bit pattern of an `int` operand: twos complement of width 32. -/
def int_bits (x : Int) : Nat := (x % 2 ^ 32).toNat

/-- Determines if an unsigned integer has even parity (`Bfx_TstParityEven_u8_u8`).  The state
of the loop is the pair of `Parity` and `Data`; the loop body is `Parity = !Parity;
Data = Data & ( Data - 1 );`. -/
def Bfx_TstParityEven_u8_u8 (fuel : Nat) (Data : Nat) : Option Bool :=
  let Parity := false
  let st := while_loop (fun (st : Bool × Nat) => decide (st.2 > 0))
    (fun st => (!st.1, (st.2 &&& (st.2 - 1)) % 2 ^ 8)) fuel (Parity, Data)
  st.map (fun st => !st.1)

/-- Count consecutive bits which have the same value as the MSB (`Bfx_CountLeadingSigns_s8`).
The state of either loop is the pair of `Count` and `Mask`, both `uint8`; `Data & Mask` is
taken on the bit patterns of the operands promoted to `int`.  The function ends with `Data = Count - 1;
return Data;`, a store into the `sint8` parameter returned as `uint8`. -/
def Bfx_CountLeadingSigns_s8 (fuel : Nat) (Data : Int) : Option Nat :=
  let Count : Nat := 0
  let Mask : Nat := 0x80
  let st :=
    if Data ≥ 0 then
      while_loop (fun (st : Nat × Nat) => decide (int_bits Data &&& st.2 = 0))
        (fun st => ((st.1 + 1) % 2 ^ 8, st.2 >>> 1)) fuel (Count, Mask)
    else
      while_loop (fun (st : Nat × Nat) => decide (int_bits Data &&& st.2 = st.2))
        (fun st => ((st.1 + 1) % 2 ^ 8, st.2 >>> 1)) fuel (Count, Mask)
  st.map (fun st => (to_sint8 ((st.1 : Int) - 1) % 256).toNat)

/-- Arithmetic shift with saturation, signed (`Bfx_ShiftBitSat_s8s8_s8`).  `Data <<= ShiftCnt`
is the product of the promoted `int` with `2 ^ ShiftCnt` stored into a `sint8`;
`Data >>= ShiftCnt` is the arithmetic right shift of the promoted `int`; the `for` loop
runs `ShiftCnt` times on the pair of `Data` and `Mask`. -/
def Bfx_ShiftBitSat_s8s8_s8 (ShiftCnt Data : Int) : Int :=
  let Mask : Nat := 0x80
  let DataIsNegative : Bool := decide (Data < 0)
  -- Perform shift left if ShiftCnt >= 0
  if ShiftCnt ≥ 0 then
    let Data1 := to_sint8 (Data * 2 ^ ShiftCnt.toNat)
    -- Saturation when Data was originally positive and had a sign change after the shift
    if DataIsNegative = false ∧ Data1 < 0 then 127
    -- Saturation when Data was originally negative and had a sign change after the shift
    else if DataIsNegative = true ∧ Data1 ≥ 0 then -128
    else Data1
  -- Perform right shift if ShiftCnt < 0
  else
    -- Absolute value of ShiftCnt
    let ShiftCnt1 := to_sint8 (ShiftCnt * -1)
    -- Fill with zeros when Data is positive
    if Data > 0 then to_sint8 (Data >>> ShiftCnt1.toNat)
    -- Fill with ones when Data is negative
    else
      let Data1 := to_sint8 (Data >>> ShiftCnt1.toNat)
      ((List.range ShiftCnt1.toNat).foldl
        (fun (st : Int × Nat) _ => (to_sint8 ((int_bits st.1 ||| st.2 : Nat) : Int), st.2 >>> 1))
        (Data1, Mask)).1

/-- Arithmetic shift with saturation, unsigned (`Bfx_ShiftBitSat_u8s8_u8`).  The state of the
loop is the pair of `Mask` and `MaxShiftLeft`, both `uint8`. -/
def Bfx_ShiftBitSat_u8s8_u8 (fuel : Nat) (ShiftCnt : Int) (Data : Nat) : Option Nat :=
  let Mask : Nat := 0x80
  let MaxShiftLeft : Nat := 0
  -- Loop to check the maximum left shifts before the leading one is shifted out
  let st := while_loop (fun (st : Nat × Nat) => decide (Data &&& st.1 = 0))
    (fun st => (st.1 >>> 1, (st.2 + 1) % 2 ^ 8)) fuel (Mask, MaxShiftLeft)
  st.map (fun st =>
    -- Perform shift left if ShiftCnt >= 0
    if ShiftCnt ≥ 0 then
      -- Saturate if the maximum shift range is exceeded
      if ShiftCnt > (st.2 : Int) then 0xFF
      else (Data <<< ShiftCnt.toNat) % 2 ^ 8
    -- Perform right shift if ShiftCnt < 0
    else
      let ShiftCnt1 := to_sint8 (ShiftCnt * -1)
      Data >>> ShiftCnt1.toNat)

/-- The number of 1 bits among the eight bits of a byte. -/
def bit_count_u8 (Data : Nat) : Nat :=
  ((List.range 8).filter (fun i => Data.testBit i)).length

/-- The number of consecutive bits of a signed 8-bit value, starting at bit 6 and going down,
that have the same value as bit 7: the number of redundant sign bits. -/
def redundant_sign_bits_s8 (Data : Int) : Nat :=
  (([6, 5, 4, 3, 2, 1, 0] : List Nat).takeWhile
    (fun i => Data.testBit i == Data.testBit 7)).length

/-- A value clamped to the range of `sint8`. -/
def clamp_s8 (x : Int) : Int := max (-128) (min 127 x)

/-! ## Crc.h : the 16-bit service -/

/-- Body of the inner loop of `Crc_CalculateCRC16`: `if( crcValue & 0x8000 )
crcValue = ( crcValue << 1 ) ^ Crc_Polynomial;` else `crcValue <<= 1;`, stored into a
`uint16`. -/
def Crc16_bit (Crc_Polynomial crcValue : Nat) : Nat :=
  if crcValue &&& 0x8000 ≠ 0 then ((crcValue <<< 1) ^^^ Crc_Polynomial) % 2 ^ 16
  else (crcValue <<< 1) % 2 ^ 16

/-- Body of the outer loop of `Crc_CalculateCRC16`: `crcValue ^= (uint16)Crc_DataPtr[ i ] << 8;`
followed by the eight rounds of the inner loop. -/
def Crc16_byte (Crc_Polynomial crcValue byte : Nat) : Nat :=
  Nat.iterate (Crc16_bit Crc_Polynomial) 8 ((crcValue ^^^ (byte <<< 8)) % 2 ^ 16)

/-- The service `Crc_CalculateCRC16`; the list `Crc_DataPtr` holds the `Crc_Length` bytes
that the loop reads, in order. -/
def Crc_CalculateCRC16 (Crc_DataPtr : List Nat) (Crc_StartValue16 : Nat)
    (Crc_IsFirstCall : Bool) : Nat :=
  let Crc_Polynomial := 0x1021
  let crcValue := if Crc_IsFirstCall then 0xFFFF else Crc_StartValue16
  let crcValue := Crc_DataPtr.foldl (Crc16_byte Crc_Polynomial) crcValue
  crcValue

/-- One step of the CRC shift register of width 16: the register is shifted left by one
place, and the polynomial is XORed in when the bit shifted out differs from the message
bit. -/
def crc16_reference_step (poly reg : Nat) (bit : Bool) : Nat :=
  if (reg.testBit 15 != bit) then ((reg <<< 1) % 2 ^ 16) ^^^ poly else (reg <<< 1) % 2 ^ 16

/-- The CRC of width 16, not reflected, with polynomial `poly`, initial value `init` and
final XOR `xorout`: the register starts at `init`, takes the bits of the message one by
one, most significant bit of each byte first, and is XORed with `xorout` at the end. -/
def crc16_reference (poly init xorout : Nat) (msg : List Nat) : Nat :=
  (msg.foldl (fun reg byte => (crc_msg_bits byte).foldl (crc16_reference_step poly) reg) init)
    ^^^ xorout

/-- The message bits that the byte loop of `Crc_CalculateCRC16` consumes in `n` rounds when
the pending part of the byte, moved to the high byte of the register, is `t`. -/
def Crc16_pending_bits : Nat → Nat → List Bool
  | 0, _ => []
  | n + 1, t => t.testBit 15 :: Crc16_pending_bits n ((t <<< 1) % 2 ^ 16)

/-- The pending part of a byte after `n` more rounds of `Crc_CalculateCRC16`. -/
def Crc16_pending_rest : Nat → Nat → Nat
  | 0, t => t
  | n + 1, t => Crc16_pending_rest n ((t <<< 1) % 2 ^ 16)

/-! ## Further concrete inputs -/

/-- A machine state in which HSE is on and ready and HSI is off: CR bit 10 (HSIRDY) is 0. -/
def hw_hsi_off : Mcu_Hw :=
  { Rcc := { rcc_reset with CR := 0x00030000 },
    PllStatus := MCU_PLL_STATUS_UNDEFINED, trace := [] }

/-- The CFGR bits outside the mux-select field, the AHB divider field and the APB1 divider
field. -/
def CFGR_unprogrammed_bits : Nat :=
  not_u32 (MCU_SYSCLKSOURCE_MASK ||| MCU_AHB_DIV_MASK ||| MCU_APB1_DIV_MASK)

/-- The six hardware ready flags of a register block: CR bits 10 (HSIRDY), 17 (HSERDY),
23 (HSI48RDY) and 25 (PLLRDY), CSR bit 1 (LSIRDY) and BDCR bit 1 (LSERDY). -/
def ready_flags (r : Rcc_RegisterType) : List Bool :=
  [r.CR.testBit RCC_CR_HSIRDY, r.CR.testBit RCC_CR_HSERDY, r.CR.testBit RCC_CR_HSI48RDY,
   r.CR.testBit RCC_CR_PLLRDY, r.CSR.testBit RCC_CSR_LSIRDY, r.BDCR.testBit RCC_BDCR_LSERDY]

/-! ## Basic facts about the register access facade -/

theorem Bfx_GetBit_eq_one_iff (Data BitPn : Nat) :
    Bfx_GetBit_u32u8_u8 Data BitPn = 1 ↔ Data.testBit BitPn = true := by
  unfold Bfx_GetBit_u32u8_u8
  rw [Nat.and_one_is_mod, Nat.testBit_to_div_mod, Nat.shiftRight_eq_div_pow]
  simp

theorem testBit_SetBit (Data BitPn i : Nat) :
    (Bfx_SetBit_u32u8 Data BitPn).testBit i = (Data.testBit i || decide (BitPn = i)) := by
  unfold Bfx_SetBit_u32u8
  rw [Nat.testBit_or, Nat.one_shiftLeft, Nat.testBit_two_pow]

theorem testBit_not_u32 (Mask i : Nat) :
    (not_u32 Mask).testBit i = (Mask.testBit i != decide (i < 32)) := by
  unfold not_u32
  rw [Nat.testBit_xor, show (0xFFFFFFFF : Nat) = 2 ^ 32 - 1 from rfl, Nat.testBit_two_pow_sub_one]

theorem testBit_ClrBit (Data BitPn i : Nat) :
    (Bfx_ClrBit_u32u8 Data BitPn).testBit i =
      (Data.testBit i && (decide (BitPn = i) != decide (i < 32))) := by
  unfold Bfx_ClrBit_u32u8
  rw [Nat.testBit_and, testBit_not_u32, Nat.one_shiftLeft, Nat.testBit_two_pow]

theorem testBit_SetBitMask (Data Mask i : Nat) :
    (Bfx_SetBitMask_u32u32 Data Mask).testBit i = (Data.testBit i || Mask.testBit i) := by
  unfold Bfx_SetBitMask_u32u32
  rw [Nat.testBit_or]

theorem testBit_ClrBitMask (Data Mask i : Nat) :
    (Bfx_ClrBitMask_u32u32 Data Mask).testBit i =
      (Data.testBit i && (Mask.testBit i != decide (i < 32))) := by
  unfold Bfx_ClrBitMask_u32u32
  rw [Nat.testBit_and, testBit_not_u32]

/-! ## Word-level algebra of a field update -/

theorem clr_set_frame (x m v k : Nat) (hm : not_u32 m &&& k = k) (hv : v &&& k = 0) :
    Bfx_SetBitMask_u32u32 (Bfx_ClrBitMask_u32u32 x m) v &&& k = x &&& k := by
  unfold Bfx_SetBitMask_u32u32 Bfx_ClrBitMask_u32u32
  rw [Nat.and_distrib_right, Nat.and_assoc, hm, hv, Nat.or_zero]

theorem clr_set_value (x m v k : Nat) (hm : not_u32 m &&& k = 0) :
    Bfx_SetBitMask_u32u32 (Bfx_ClrBitMask_u32u32 x m) v &&& k = v &&& k := by
  unfold Bfx_SetBitMask_u32u32 Bfx_ClrBitMask_u32u32
  rw [Nat.and_distrib_right, Nat.and_assoc, hm, Nat.and_zero, Nat.zero_or]

theorem setBit_frame (x e k : Nat) (he : (1 <<< e) &&& k = 0) :
    Bfx_SetBit_u32u8 x e &&& k = x &&& k := by
  unfold Bfx_SetBit_u32u8
  rw [Nat.and_distrib_right, he, Nat.or_zero]

theorem ite_clr_set_frame (p : Prop) [Decidable p] (x m v k : Nat)
    (h : p → not_u32 m &&& k = k ∧ v &&& k = 0) :
    (if p then Bfx_SetBitMask_u32u32 (Bfx_ClrBitMask_u32u32 x m) v else x) &&& k = x &&& k := by
  by_cases hp : p
  · rw [if_pos hp, clr_set_frame x m v k (h hp).1 (h hp).2]
  · rw [if_neg hp]

theorem ite_clr_set_en_frame (p : Prop) [Decidable p] (x m v e k : Nat)
    (h : p → not_u32 m &&& k = k ∧ v &&& k = 0 ∧ (1 <<< e) &&& k = 0) :
    (if p then Bfx_SetBit_u32u8 (Bfx_SetBitMask_u32u32 (Bfx_ClrBitMask_u32u32 x m) v) e
      else x) &&& k = x &&& k := by
  by_cases hp : p
  · rw [if_pos hp, setBit_frame _ _ _ (h hp).2.2, clr_set_frame x m v k (h hp).1 (h hp).2.1]
  · rw [if_neg hp]

theorem and_eq_zero_of_subset (v m k : Nat) (hv : v &&& m = v) (hk : m &&& k = 0) :
    v &&& k = 0 := by
  rw [← hv, Nat.and_assoc, hk, Nat.and_zero]

theorem and_eq_self_of_subset (v m k : Nat) (hv : v &&& m = v) (hk : m &&& k = m) :
    v &&& k = v := by
  rw [← hv, Nat.and_assoc, hk]

theorem or_and_eq_self (a b k : Nat) (ha : a &&& k = a) (hb : b &&& k = b) :
    (a ||| b) &&& k = a ||| b := by
  rw [Nat.and_distrib_right, ha, hb]

theorem clr_set_merge (x A W m v : Nat) (hW : W &&& not_u32 m = W) :
    Bfx_SetBitMask_u32u32 (Bfx_ClrBitMask_u32u32 ((x &&& A) ||| W) m) v =
      (x &&& (A &&& not_u32 m)) ||| (W ||| v) := by
  unfold Bfx_SetBitMask_u32u32 Bfx_ClrBitMask_u32u32
  rw [Nat.and_distrib_right, Nat.and_assoc, hW, Nat.or_assoc]

theorem testBit_eq_of_and_eq (x y i : Nat) (h : x &&& (1 <<< i) = y &&& (1 <<< i)) :
    x.testBit i = y.testBit i := by
  have h1 := congrArg (fun z => Nat.testBit z i) h
  simpa [Nat.testBit_and, Nat.one_shiftLeft, Nat.testBit_two_pow_self] using h1

/-! ## State-level facts about the write primitives -/

attribute [simp] Rcc_RegisterType.set Rcc_RegisterType.get

@[simp] theorem Mcu_Hw.rmw_Rcc (s : Mcu_Hw) (reg : Rcc_Reg) (f : Nat → Nat) :
    (s.rmw reg f).Rcc = s.Rcc.set reg (f (s.Rcc.get reg)) := rfl

@[simp] theorem Mcu_Hw.rmw_PllStatus (s : Mcu_Hw) (reg : Rcc_Reg) (f : Nat → Nat) :
    (s.rmw reg f).PllStatus = s.PllStatus := rfl

@[simp] theorem Mcu_Hw.rmw_trace (s : Mcu_Hw) (reg : Rcc_Reg) (f : Nat → Nat) :
    (s.rmw reg f).trace =
      s.trace ++ [{ reg := reg, pre := s.Rcc, value := f (s.Rcc.get reg) }] := rfl

attribute [simp] Mcu_Hw.SetBit Mcu_Hw.ClrBit Mcu_Hw.SetBitMask Mcu_Hw.ClrBitMask

theorem Get_SysClk_eq (s : Mcu_Hw) : Get_SysClk s = s.Rcc.CFGR / 8 % 8 := by
  unfold Get_SysClk Bfx_GetBits_u32u8u8_u32
  have h : (1 <<< RCC_CFGR_SWS_BITS) - 1 = 2 ^ 3 - 1 := rfl
  rw [h, Nat.and_pow_two_sub_one_eq_mod, Nat.shiftRight_eq_div_pow]
  have : s.Rcc.CFGR / 2 ^ RCC_CFGR_SWS_LSB % 2 ^ 3 < 8 := Nat.mod_lt _ (by norm_num)
  simp only [RCC_CFGR_SWS_LSB] at this ⊢
  omega

theorem applySettingFlag_eq (s : Mcu_Hw) (setting : Nat) :
    Mcu_Arch_InitClock_applySettingFlag s setting = STD_ACTIVE ↔
      SysClockSource_ready s.Rcc setting = true := by
  unfold Mcu_Arch_InitClock_applySettingFlag SysClockSource_ready
  simp only [Bfx_GetBit_eq_one_iff]
  split_ifs <;> simp_all

/-! ## Projections of the three parts of Mcu_Arch_InitClock -/

theorem InitClock_Osc_CFGR (s : Mcu_Hw) (c : Mcu_ClkConfigType) :
    (Mcu_Arch_InitClock_Osc s c).2.Rcc.CFGR = s.Rcc.CFGR := by
  unfold Mcu_Arch_InitClock_Osc
  simp only []
  split_ifs <;> simp

theorem InitClock_Osc_PLLCFGR (s : Mcu_Hw) (c : Mcu_ClkConfigType) :
    (Mcu_Arch_InitClock_Osc s c).2.Rcc.PLLCFGR = s.Rcc.PLLCFGR := by
  unfold Mcu_Arch_InitClock_Osc
  simp only []
  split_ifs <;> simp

theorem InitClock_Osc_PllStatus (s : Mcu_Hw) (c : Mcu_ClkConfigType) :
    (Mcu_Arch_InitClock_Osc s c).2.PllStatus = s.PllStatus := by
  unfold Mcu_Arch_InitClock_Osc
  simp only []
  split_ifs <;> simp

theorem InitClock_Osc_ready (s : Mcu_Hw) (c : Mcu_ClkConfigType) (src : Nat)
    (h : c.OscConfig.OscillatorType ≠ MCU_OSCILLATORTYPE_HSI) :
    SysClockSource_ready (Mcu_Arch_InitClock_Osc s c).2.Rcc src =
      SysClockSource_ready s.Rcc src := by
  unfold Mcu_Arch_InitClock_Osc SysClockSource_ready
  simp only []
  split_ifs <;> simp [testBit_SetBit, testBit_ClrBit]

theorem InitClock_Pll_PLLCFGR (s : Mcu_Hw) (c : Mcu_ClkConfigType) (rv : Nat) :
    (Mcu_Arch_InitClock_Pll s c rv).2.Rcc.PLLCFGR =
      Pll_PLLCFGR c.OscConfig.PLL s.Rcc.PLLCFGR := by
  unfold Mcu_Arch_InitClock_Pll Pll_PLLCFGR
  simp only [Mcu_Hw.SetBit, Mcu_Hw.ClrBit, Mcu_Hw.SetBitMask, Mcu_Hw.ClrBitMask, Mcu_Hw.rmw_Rcc,
    Rcc_RegisterType.set, Rcc_RegisterType.get, apply_ite Mcu_Hw.Rcc,
    apply_ite Rcc_RegisterType.PLLCFGR, apply_ite Prod.snd]

theorem InitClock_Pll_CR (s : Mcu_Hw) (c : Mcu_ClkConfigType) (rv : Nat) :
    (Mcu_Arch_InitClock_Pll s c rv).2.Rcc.CR =
      if c.OscConfig.PLL.PllState = MCU_PLL_STATE_ENABLED then
        Bfx_SetBit_u32u8 (Bfx_ClrBit_u32u8 s.Rcc.CR RCC_CR_PLLON) RCC_CR_PLLON
      else Bfx_ClrBit_u32u8 s.Rcc.CR RCC_CR_PLLON := by
  unfold Mcu_Arch_InitClock_Pll
  simp only [Mcu_Hw.SetBit, Mcu_Hw.ClrBit, Mcu_Hw.SetBitMask, Mcu_Hw.ClrBitMask, Mcu_Hw.rmw_Rcc,
    Rcc_RegisterType.set, Rcc_RegisterType.get, apply_ite Mcu_Hw.Rcc,
    apply_ite Rcc_RegisterType.CR, apply_ite Prod.snd, ite_self]

theorem InitClock_Pll_others (s : Mcu_Hw) (c : Mcu_ClkConfigType) (rv : Nat) :
    (Mcu_Arch_InitClock_Pll s c rv).2.Rcc.CFGR = s.Rcc.CFGR ∧
    (Mcu_Arch_InitClock_Pll s c rv).2.Rcc.ICSCR = s.Rcc.ICSCR ∧
    (Mcu_Arch_InitClock_Pll s c rv).2.Rcc.BDCR = s.Rcc.BDCR ∧
    (Mcu_Arch_InitClock_Pll s c rv).2.Rcc.CSR = s.Rcc.CSR := by
  unfold Mcu_Arch_InitClock_Pll
  simp only [Mcu_Hw.SetBit, Mcu_Hw.ClrBit, Mcu_Hw.SetBitMask, Mcu_Hw.ClrBitMask, Mcu_Hw.rmw_Rcc,
    Rcc_RegisterType.set, Rcc_RegisterType.get, apply_ite Mcu_Hw.Rcc,
    apply_ite Rcc_RegisterType.CFGR, apply_ite Rcc_RegisterType.ICSCR,
    apply_ite Rcc_RegisterType.BDCR, apply_ite Rcc_RegisterType.CSR,
    apply_ite Prod.snd, ite_self, and_self]

theorem InitClock_Pll_PllStatus (s : Mcu_Hw) (c : Mcu_ClkConfigType) (rv : Nat) :
    (Mcu_Arch_InitClock_Pll s c rv).2.PllStatus =
      if c.OscConfig.PLL.PllState = MCU_PLL_STATE_ENABLED then MCU_PLL_UNLOCKED
      else MCU_PLL_STATUS_UNDEFINED := by
  unfold Mcu_Arch_InitClock_Pll
  simp only [apply_ite Prod.snd, apply_ite Mcu_Hw.PllStatus]

theorem InitClock_Pll_ready (s : Mcu_Hw) (c : Mcu_ClkConfigType) (rv src : Nat) :
    SysClockSource_ready (Mcu_Arch_InitClock_Pll s c rv).2.Rcc src =
      SysClockSource_ready s.Rcc src := by
  obtain ⟨_, _, h3, h4⟩ := InitClock_Pll_others s c rv
  unfold SysClockSource_ready
  rw [InitClock_Pll_CR, h3, h4]
  split_ifs <;> simp [testBit_SetBit, testBit_ClrBit]

theorem InitClock_Clk_CFGR (s : Mcu_Hw) (c : Mcu_ClkConfigType) (rv : Nat) :
    (Mcu_Arch_InitClock_Clk s c rv).2.Rcc.CFGR =
      Clk_CFGR (Mcu_Arch_InitClock_applySettingFlag s c.ClkConfig.SysClockSource)
        c.ClkConfig s.Rcc.CFGR := by
  unfold Mcu_Arch_InitClock_Clk Clk_CFGR
  simp only [Mcu_Hw.SetBit, Mcu_Hw.ClrBit, Mcu_Hw.SetBitMask, Mcu_Hw.ClrBitMask, Mcu_Hw.rmw_Rcc,
    Rcc_RegisterType.set, Rcc_RegisterType.get, apply_ite Mcu_Hw.Rcc,
    apply_ite Rcc_RegisterType.CFGR, apply_ite Prod.snd]

theorem InitClock_Clk_others (s : Mcu_Hw) (c : Mcu_ClkConfigType) (rv : Nat) :
    (Mcu_Arch_InitClock_Clk s c rv).2.Rcc.CR = s.Rcc.CR ∧
    (Mcu_Arch_InitClock_Clk s c rv).2.Rcc.PLLCFGR = s.Rcc.PLLCFGR ∧
    (Mcu_Arch_InitClock_Clk s c rv).2.Rcc.ICSCR = s.Rcc.ICSCR ∧
    (Mcu_Arch_InitClock_Clk s c rv).2.Rcc.BDCR = s.Rcc.BDCR ∧
    (Mcu_Arch_InitClock_Clk s c rv).2.Rcc.CSR = s.Rcc.CSR ∧
    (Mcu_Arch_InitClock_Clk s c rv).2.PllStatus = s.PllStatus := by
  unfold Mcu_Arch_InitClock_Clk
  simp only [Mcu_Hw.SetBit, Mcu_Hw.ClrBit, Mcu_Hw.SetBitMask, Mcu_Hw.ClrBitMask, Mcu_Hw.rmw_Rcc,
    Mcu_Hw.rmw_PllStatus,
    Rcc_RegisterType.set, Rcc_RegisterType.get, apply_ite Mcu_Hw.Rcc, apply_ite Mcu_Hw.PllStatus,
    apply_ite Rcc_RegisterType.CR, apply_ite Rcc_RegisterType.PLLCFGR,
    apply_ite Rcc_RegisterType.ICSCR,
    apply_ite Rcc_RegisterType.BDCR, apply_ite Rcc_RegisterType.CSR,
    apply_ite Prod.snd, ite_self, and_self]

/-- CFGR after `Mcu_Arch_InitClock`: only the clock part writes it; the ready flag is read
from the registers left by the oscillator and PLL parts. -/
theorem InitClock_CFGR (s : Mcu_Hw) (c : Mcu_ClkConfigType) :
    (Mcu_Arch_InitClock s c).2.Rcc.CFGR =
      Clk_CFGR (Mcu_Arch_InitClock_applySettingFlag
          (Mcu_Arch_InitClock_Pll (Mcu_Arch_InitClock_Osc s c).2 c (Mcu_Arch_InitClock_Osc s c).1).2
          c.ClkConfig.SysClockSource)
        c.ClkConfig s.Rcc.CFGR := by
  unfold Mcu_Arch_InitClock
  simp only []
  rw [InitClock_Clk_CFGR, (InitClock_Pll_others _ _ _).1, InitClock_Osc_CFGR]

/-- PLLCFGR after `Mcu_Arch_InitClock`: only the PLL part writes it. -/
theorem InitClock_PLLCFGR (s : Mcu_Hw) (c : Mcu_ClkConfigType) :
    (Mcu_Arch_InitClock s c).2.Rcc.PLLCFGR = Pll_PLLCFGR c.OscConfig.PLL s.Rcc.PLLCFGR := by
  unfold Mcu_Arch_InitClock
  simp only []
  rw [(InitClock_Clk_others _ _ _).2.1, InitClock_Pll_PLLCFGR, InitClock_Osc_PLLCFGR]

/-- The stored PllStatus after `Mcu_Arch_InitClock`: only the PLL part writes it. -/
theorem InitClock_PllStatus (s : Mcu_Hw) (c : Mcu_ClkConfigType) :
    (Mcu_Arch_InitClock s c).2.PllStatus =
      if c.OscConfig.PLL.PllState = MCU_PLL_STATE_ENABLED then MCU_PLL_UNLOCKED
      else MCU_PLL_STATUS_UNDEFINED := by
  unfold Mcu_Arch_InitClock
  simp only []
  rw [(InitClock_Clk_others _ _ _).2.2.2.2.2, InitClock_Pll_PllStatus]

/-- CR after `Mcu_Arch_InitClock`: the oscillator part, then the PLL enable bit. -/
theorem InitClock_CR (s : Mcu_Hw) (c : Mcu_ClkConfigType) :
    (Mcu_Arch_InitClock s c).2.Rcc.CR =
      if c.OscConfig.PLL.PllState = MCU_PLL_STATE_ENABLED then
        Bfx_SetBit_u32u8 (Bfx_ClrBit_u32u8 (Mcu_Arch_InitClock_Osc s c).2.Rcc.CR RCC_CR_PLLON)
          RCC_CR_PLLON
      else Bfx_ClrBit_u32u8 (Mcu_Arch_InitClock_Osc s c).2.Rcc.CR RCC_CR_PLLON := by
  unfold Mcu_Arch_InitClock
  simp only []
  rw [(InitClock_Clk_others _ _ _).1, InitClock_Pll_CR]

/-! ## Mcu_Arch_DistributePllClock -/

/-- C1: `Mcu_Arch_DistributePllClock` switches the system-clock mux to the PLL exactly when
CR bit 25 (PLLRDY) and PLLCFGR bit 28 (PLLREN) are both 1: then CFGR becomes CFGR with bits
2:0 cleared, OR 0x2; in every other case CFGR is unchanged.  CR, PLLCFGR, ICSCR, BDCR and CSR
are unchanged in every case. -/
theorem C1_DistributePllClock_mux (s : Mcu_Hw) :
    (Mcu_Arch_DistributePllClock s).2.Rcc =
      if s.Rcc.CR.testBit 25 = true ∧ s.Rcc.PLLCFGR.testBit 28 = true then
        { s.Rcc with CFGR := (s.Rcc.CFGR &&& 0xFFFFFFF8) ||| 0x2 }
      else s.Rcc := by
  unfold Mcu_Arch_DistributePllClock
  simp only [Bfx_GetBit_eq_one_iff]
  by_cases h1 : s.Rcc.CR.testBit 25 = true <;> by_cases h2 : s.Rcc.PLLCFGR.testBit 28 = true <;>
    simp [h1, h2, Mcu_Hw.ClrBitMask, Mcu_Hw.SetBitMask, Mcu_Hw.rmw, Rcc_RegisterType.set,
      Rcc_RegisterType.get, Bfx_ClrBitMask_u32u32, Bfx_SetBitMask_u32u32, not_u32,
      MCU_SYSCLKSOURCE_MASK, MCU_SYSCLKSOURCE_PLLCLK]

/-- C2: after `Mcu_Arch_DistributePllClock` the stored PllStatus is `MCU_PLL_LOCKED` whenever
CR bit 25 (PLLRDY) is 1, whatever PLLCFGR bit 28 (PLLREN) is; when CR bit 25 is 0 the stored
PllStatus is the one before the call. -/
theorem C2_DistributePllClock_status (s : Mcu_Hw) :
    (Mcu_Arch_DistributePllClock s).2.PllStatus =
      if s.Rcc.CR.testBit 25 = true then MCU_PLL_LOCKED else s.PllStatus := by
  unfold Mcu_Arch_DistributePllClock
  simp only [Bfx_GetBit_eq_one_iff]
  by_cases h1 : s.Rcc.CR.testBit 25 = true <;> simp [h1]

/-! ## Mcu_Arch_InitClock : system clock source -/

theorem AHB_enum_low_bits : ∀ v ∈ MCU_AHB_DIVS, v &&& 0x7 = 0 := by decide

theorem APB1_enum_low_bits : ∀ v ∈ MCU_APB1_DIVS, v &&& 0x7 = 0 := by decide

theorem SysClockSource_ready_le (r : Rcc_RegisterType) (src : Nat)
    (h : SysClockSource_ready r src = true) : src ≤ 4 := by
  unfold SysClockSource_ready at h
  simp only [Bool.or_eq_true, Bool.and_eq_true, beq_iff_eq] at h
  omega

/-- C3: `Mcu_Arch_InitClock` commits a system-clock source switch only when the target is
ready.  For a request whose oscillator type is not HSI and whose AHB and APB1 divider values
are each an enumerated encoding or rejected by the range validation: if the requested source
is one of HSI(0), HSE(1), PLLCLK(2), LSI(3), LSE(4) and its ready flag (CR bit 10, CR bit 17,
CR bit 25, CSR bit 1, BDCR bit 1) is 1 before the call, CFGR bits 2:0 after the call equal
the requested source; otherwise CFGR bits 2:0 are unchanged. -/
theorem C3_InitClock_mux_only_when_ready (s : Mcu_Hw) (c : Mcu_ClkConfigType)
    (hosc : c.OscConfig.OscillatorType ≠ MCU_OSCILLATORTYPE_HSI)
    (hahb : AHB_enum_or_rejected c.ClkConfig.AHBClockDivider)
    (hapb : APB1_enum_or_rejected c.ClkConfig.APB1ClockDivider) :
    (Mcu_Arch_InitClock s c).2.Rcc.CFGR &&& 0x7 =
      if SysClockSource_ready s.Rcc c.ClkConfig.SysClockSource = true then
        c.ClkConfig.SysClockSource
      else s.Rcc.CFGR &&& 0x7 := by
  rw [InitClock_CFGR]
  unfold Clk_CFGR
  simp only [applySettingFlag_eq, InitClock_Pll_ready, InitClock_Osc_ready s c _ hosc]
  rw [ite_clr_set_frame _ _ _ _ _
        (fun hv => ⟨by decide, hapb.elim (APB1_enum_low_bits _) (fun hn => absurd hv hn)⟩),
      ite_clr_set_frame _ _ _ _ _
        (fun hv => ⟨by decide, hahb.elim (AHB_enum_low_bits _) (fun hn => absurd hv hn)⟩)]
  by_cases hr : SysClockSource_ready s.Rcc c.ClkConfig.SysClockSource = true
  · rw [if_pos hr, if_pos hr, clr_set_value _ _ _ _ (by decide)]
    have hle := SysClockSource_ready_le _ _ hr
    have h7 : (0x7 : Nat) = 2 ^ 3 - 1 := rfl
    rw [h7, Nat.and_pow_two_sub_one_eq_mod]
    exact Nat.mod_eq_of_lt (by omega)
  · rw [if_neg hr, if_neg hr]

/-! ## Oscillator guards -/

/-- BDCR, CSR and ICSCR after `Mcu_Arch_InitClock`: only the oscillator part writes them. -/
theorem InitClock_BDCR_CSR_ICSCR (s : Mcu_Hw) (c : Mcu_ClkConfigType) :
    (Mcu_Arch_InitClock s c).2.Rcc.BDCR = (Mcu_Arch_InitClock_Osc s c).2.Rcc.BDCR ∧
    (Mcu_Arch_InitClock s c).2.Rcc.CSR = (Mcu_Arch_InitClock_Osc s c).2.Rcc.CSR ∧
    (Mcu_Arch_InitClock s c).2.Rcc.ICSCR = (Mcu_Arch_InitClock_Osc s c).2.Rcc.ICSCR := by
  unfold Mcu_Arch_InitClock
  simp only []
  obtain ⟨_, _, h3, h4, h5, _⟩ := InitClock_Clk_others
    (Mcu_Arch_InitClock_Pll (Mcu_Arch_InitClock_Osc s c).2 c (Mcu_Arch_InitClock_Osc s c).1).2 c
    (Mcu_Arch_InitClock_Pll (Mcu_Arch_InitClock_Osc s c).2 c (Mcu_Arch_InitClock_Osc s c).1).1
  obtain ⟨_, g2, g3, g4⟩ := InitClock_Pll_others (Mcu_Arch_InitClock_Osc s c).2 c
    (Mcu_Arch_InitClock_Osc s c).1
  rw [h3, h4, h5, g2, g3, g4]
  exact ⟨rfl, rfl, rfl⟩

/-- A bit of CR other than PLLON (24) after `Mcu_Arch_InitClock` is the bit left by the
oscillator part. -/
theorem InitClock_CR_testBit (s : Mcu_Hw) (c : Mcu_ClkConfigType) (i : Nat) (hi : i ≠ 24)
    (hi32 : i < 32) :
    (Mcu_Arch_InitClock s c).2.Rcc.CR.testBit i =
      (Mcu_Arch_InitClock_Osc s c).2.Rcc.CR.testBit i := by
  rw [InitClock_CR]
  have h24 : ¬ (24 = i) := fun h => hi h.symm
  split_ifs <;> simp [testBit_SetBit, testBit_ClrBit, h24, hi32]

/-- C4: an oscillator that is the current system-clock source (CFGR bits 5:3) is not disabled
by a request targeting it, neither by `Mcu_Arch_Init` nor by `Mcu_Arch_InitClock`: an HSE
request with current source HSE leaves CR bits 16 and 18 unchanged; an LSE request with
current source LSE leaves BDCR bit 0 unchanged; an LSI request with current source LSI leaves
CSR bit 0 unchanged; an HSI Off request with current source HSI leaves CR bit 8 unchanged. -/
theorem C4_active_source_enable_bit_kept (s : Mcu_Hw) (cfg : Mcu_ConfigType) :
    (cfg.ClockConfig.OscConfig.OscillatorType = MCU_OSCILLATORTYPE_HSE →
      s.Rcc.CFGR / 8 % 8 = MCU_SYSCLKSOURCE_HSE →
        (Mcu_Arch_Init s cfg).Rcc.CR.testBit 16 = s.Rcc.CR.testBit 16 ∧
        (Mcu_Arch_Init s cfg).Rcc.CR.testBit 18 = s.Rcc.CR.testBit 18 ∧
        (Mcu_Arch_InitClock s cfg.ClockConfig).2.Rcc.CR.testBit 16 = s.Rcc.CR.testBit 16 ∧
        (Mcu_Arch_InitClock s cfg.ClockConfig).2.Rcc.CR.testBit 18 = s.Rcc.CR.testBit 18) ∧
    (cfg.ClockConfig.OscConfig.OscillatorType = MCU_OSCILLATORTYPE_LSE →
      s.Rcc.CFGR / 8 % 8 = MCU_SYSCLKSOURCE_LSE →
        (Mcu_Arch_Init s cfg).Rcc.BDCR.testBit 0 = s.Rcc.BDCR.testBit 0 ∧
        (Mcu_Arch_InitClock s cfg.ClockConfig).2.Rcc.BDCR.testBit 0 = s.Rcc.BDCR.testBit 0) ∧
    (cfg.ClockConfig.OscConfig.OscillatorType = MCU_OSCILLATORTYPE_LSI →
      s.Rcc.CFGR / 8 % 8 = MCU_SYSCLKSOURCE_LSI →
        (Mcu_Arch_Init s cfg).Rcc.CSR.testBit 0 = s.Rcc.CSR.testBit 0 ∧
        (Mcu_Arch_InitClock s cfg.ClockConfig).2.Rcc.CSR.testBit 0 = s.Rcc.CSR.testBit 0) ∧
    (cfg.ClockConfig.OscConfig.OscillatorType = MCU_OSCILLATORTYPE_HSI →
      cfg.ClockConfig.OscConfig.HSIState = MCU_HSI_OFF →
      s.Rcc.CFGR / 8 % 8 = MCU_SYSCLKSOURCE_HSI →
        (Mcu_Arch_Init s cfg).Rcc.CR.testBit 8 = s.Rcc.CR.testBit 8 ∧
        (Mcu_Arch_InitClock s cfg.ClockConfig).2.Rcc.CR.testBit 8 = s.Rcc.CR.testBit 8) := by
  refine ⟨?_, ?_, ?_, ?_⟩
  · intro ht hc
    have hosc : (Mcu_Arch_InitClock_Osc s cfg.ClockConfig).2 = s := by
      unfold Mcu_Arch_InitClock_Osc
      simp [ht, Get_SysClk_eq, hc]
    have hinit : Mcu_Arch_Init s cfg = s := by
      unfold Mcu_Arch_Init
      simp [ht, Get_SysClk_eq, hc]
    rw [hinit, InitClock_CR_testBit _ _ 16 (by decide) (by decide), InitClock_CR_testBit _ _ 18 (by decide) (by decide),
      hosc]
    exact ⟨rfl, rfl, rfl, rfl⟩
  · intro ht hc
    have hosc : (Mcu_Arch_InitClock_Osc s cfg.ClockConfig).2 = s := by
      unfold Mcu_Arch_InitClock_Osc
      simp [ht, Get_SysClk_eq, hc]
    have hinit : Mcu_Arch_Init s cfg = s := by
      unfold Mcu_Arch_Init
      simp [ht, Get_SysClk_eq, hc]
    rw [hinit, (InitClock_BDCR_CSR_ICSCR _ _).1, hosc]
    exact ⟨rfl, rfl⟩
  · intro ht hc
    have hosc : (Mcu_Arch_InitClock_Osc s cfg.ClockConfig).2 = s := by
      unfold Mcu_Arch_InitClock_Osc
      simp [ht, Get_SysClk_eq, hc]
    have hinit : Mcu_Arch_Init s cfg = s := by
      unfold Mcu_Arch_Init
      simp [ht, Get_SysClk_eq, hc]
    rw [hinit, (InitClock_BDCR_CSR_ICSCR _ _).2.1, hosc]
    exact ⟨rfl, rfl⟩
  · intro ht hs hc
    have hosc : (Mcu_Arch_InitClock_Osc s cfg.ClockConfig).2 = s := by
      unfold Mcu_Arch_InitClock_Osc
      simp [ht, hs, Get_SysClk_eq, hc]
    have hinit : Mcu_Arch_Init s cfg = s := by
      unfold Mcu_Arch_Init
      simp [ht, hs, Get_SysClk_eq, hc]
    rw [hinit, InitClock_CR_testBit _ _ 8 (by decide) (by decide), hosc]
    exact ⟨rfl, rfl⟩

/-! ## Mcu_Arch_InitClock : PLL programming -/

theorem PllSource_valid_iff (v : Nat) :
    Validate_PllSource v = E_OK ↔ (v = 0 ∨ v = 2 ∨ v = 3) := by
  unfold Validate_PllSource
  simp only [MCU_PLL_SOURCE_NONE, MCU_PLL_SOURCE_HSE, MCU_PLL_SOURCE_NOT_VALID]
  split_ifs <;> simp <;> omega

theorem ValueInRange_iff (v lo hi : Nat) :
    Validate_ValueInRange v lo hi = E_OK ↔ (lo ≤ v ∧ v ≤ hi) := by
  unfold Validate_ValueInRange
  split_ifs with h <;> simp_all

theorem PllSource_subset (v : Nat) (h : Validate_PllSource v = E_OK) :
    v &&& MCU_PLL_SOURCE_MASK = v := by
  rcases (PllSource_valid_iff v).1 h with h | h | h <;> subst h <;> rfl

theorem PLLM_enum_subset : ∀ v ∈ MCU_PLLM_DIVS, v &&& MCU_PLLM_MASK = v := by decide

theorem PLLM_enum_valid :
    ∀ v ∈ MCU_PLLM_DIVS, Validate_ValueInRange v MCU_PLLM_DIV1 MCU_PLLM_DIV8 = E_OK := by decide

theorem PLLN_subset_aux :
    ∀ n, n < 87 → ((n <<< MCU_PLLN_OFFSET) % 2 ^ 32) &&& MCU_PLLN_MASK = n <<< MCU_PLLN_OFFSET := by
  decide

theorem PLLN_subset (n : Nat)
    (h : Validate_ValueInRange n MCU_PLLN_MIN_VALUE MCU_PLLN_MAX_VALUE = E_OK) :
    ((n <<< MCU_PLLN_OFFSET) % 2 ^ 32) &&& MCU_PLLN_MASK = (n <<< MCU_PLLN_OFFSET) % 2 ^ 32 ∧
    (n <<< MCU_PLLN_OFFSET) % 2 ^ 32 = n <<< MCU_PLLN_OFFSET := by
  have h2 := ((ValueInRange_iff _ _ _).1 h).2
  have h3 := PLLN_subset_aux n (by simp only [MCU_PLLN_MAX_VALUE] at h2; omega)
  have h4 : (n <<< MCU_PLLN_OFFSET) % 2 ^ 32 = n <<< MCU_PLLN_OFFSET := by
    rw [Nat.shiftLeft_eq]
    apply Nat.mod_eq_of_lt
    simp only [MCU_PLLN_MAX_VALUE, MCU_PLLN_OFFSET] at h2 ⊢
    omega
  rw [h4] at h3 ⊢
  exact ⟨h3, rfl⟩

theorem PLLP_enum_subset : ∀ v ∈ MCU_PLLP_DIVS, v &&& MCU_PLLP_MASK = v := by decide

theorem PLLP_enum_valid :
    ∀ v ∈ MCU_PLLP_DIVS, Validate_ValueInRange v MCU_PLLP_DIV2 MCU_PLLP_DIV32 = E_OK := by decide

theorem PLLQ_enum_subset : ∀ v ∈ MCU_PLLQ_DIVS, v &&& MCU_PLLQ_MASK = v := by decide

/-- The encodings `MCU_PLLR_DIV2 .. MCU_PLLR_DIV8` lie in bits 11:9, not in `MCU_PLLR_MASK`. -/
theorem PLLR_enum_subset : ∀ v ∈ MCU_PLLR_DIVS, v &&& 0xE00 = v := by decide

/-- CR bit 24 (PLLON) after `Mcu_Arch_InitClock` is decided by the requested PLL state. -/
theorem InitClock_PLLON (s : Mcu_Hw) (c : Mcu_ClkConfigType) :
    (Mcu_Arch_InitClock s c).2.Rcc.CR.testBit 24 =
      decide (c.OscConfig.PLL.PllState = MCU_PLL_STATE_ENABLED) := by
  rw [InitClock_CR]
  split_ifs with h <;> simp [testBit_SetBit, testBit_ClrBit, h]

/-- C5 (generalised Scenario B): for a request with PLL state Enabled, source HSI or HSE, M one
of `MCU_PLLM_DIV1..MCU_PLLM_DIV8`, N in 8..86, P one of `MCU_PLLP_DIV2..MCU_PLLP_DIV32`, and Q
and R both out of range, PLLCFGR after `Mcu_Arch_InitClock` is the old PLLCFGR with the masks
0x3, 0x70, 0x7F00 and 0x003E0000 cleared, OR source OR M OR (N << 8) OR P OR bit 16; the Q and R
fields and bits 24 and 28 keep their old values; CR bit 24 (PLLON) is 1 and the stored
PllStatus is `MCU_PLL_UNLOCKED`. -/
theorem C5_InitClock_scenario_B (s : Mcu_Hw) (c : Mcu_ClkConfigType)
    (hen : c.OscConfig.PLL.PllState = MCU_PLL_STATE_ENABLED)
    (hsrc : c.OscConfig.PLL.PllSource = MCU_PLL_SOURCE_HSI ∨
      c.OscConfig.PLL.PllSource = MCU_PLL_SOURCE_HSE)
    (hM : c.OscConfig.PLL.PllM ∈ MCU_PLLM_DIVS)
    (hN : 8 ≤ c.OscConfig.PLL.PLLN ∧ c.OscConfig.PLL.PLLN ≤ 86)
    (hP : c.OscConfig.PLL.PllP ∈ MCU_PLLP_DIVS)
    (hQ : c.OscConfig.PLL.PllQ < MCU_PLLQ_DIV2 ∨ MCU_PLLQ_DIV8 < c.OscConfig.PLL.PllQ)
    (hR : c.OscConfig.PLL.PllR < MCU_PLLR_DIV2 ∨ MCU_PLLR_DIV8 < c.OscConfig.PLL.PllR) :
    (Mcu_Arch_InitClock s c).2.Rcc.PLLCFGR =
      (s.Rcc.PLLCFGR &&& not_u32 (0x3 ||| 0x70 ||| 0x7F00 ||| 0x003E0000)) |||
        (c.OscConfig.PLL.PllSource ||| c.OscConfig.PLL.PllM |||
          (c.OscConfig.PLL.PLLN <<< 8) ||| c.OscConfig.PLL.PllP ||| (1 <<< 16)) ∧
    (Mcu_Arch_InitClock s c).2.Rcc.PLLCFGR &&& MCU_PLLQ_MASK = s.Rcc.PLLCFGR &&& MCU_PLLQ_MASK ∧
    (Mcu_Arch_InitClock s c).2.Rcc.PLLCFGR &&& MCU_PLLR_MASK = s.Rcc.PLLCFGR &&& MCU_PLLR_MASK ∧
    (Mcu_Arch_InitClock s c).2.Rcc.PLLCFGR.testBit 24 = s.Rcc.PLLCFGR.testBit 24 ∧
    (Mcu_Arch_InitClock s c).2.Rcc.PLLCFGR.testBit 28 = s.Rcc.PLLCFGR.testBit 28 ∧
    (Mcu_Arch_InitClock s c).2.Rcc.CR.testBit 24 = true ∧
    (Mcu_Arch_InitClock s c).2.PllStatus = MCU_PLL_UNLOCKED := by
  have vsrc : Validate_PllSource c.OscConfig.PLL.PllSource = E_OK :=
    (PllSource_valid_iff _).2 (by rcases hsrc with h | h <;> rw [h] <;> simp)
  have vM := PLLM_enum_valid _ hM
  have vN : Validate_ValueInRange c.OscConfig.PLL.PLLN MCU_PLLN_MIN_VALUE MCU_PLLN_MAX_VALUE
      = E_OK := (ValueInRange_iff _ _ _).2 hN
  have vP := PLLP_enum_valid _ hP
  have vQ : ¬ Validate_ValueInRange c.OscConfig.PLL.PllQ MCU_PLLQ_DIV2 MCU_PLLQ_DIV8 = E_OK := by
    rw [ValueInRange_iff]; omega
  have vR : ¬ Validate_ValueInRange c.OscConfig.PLL.PllR MCU_PLLR_DIV2 MCU_PLLR_DIV8 = E_OK := by
    rw [ValueInRange_iff]; omega
  have sS := PllSource_subset _ vsrc
  have sM := PLLM_enum_subset _ hM
  have eN := (PLLN_subset _ vN).2
  have sN : (c.OscConfig.PLL.PLLN <<< 8) &&& MCU_PLLN_MASK = c.OscConfig.PLL.PLLN <<< 8 := by
    have h := (PLLN_subset _ vN).1
    rw [eN] at h
    exact h
  have sP := PLLP_enum_subset _ hP
  have main : (Mcu_Arch_InitClock s c).2.Rcc.PLLCFGR =
      (s.Rcc.PLLCFGR &&& not_u32 (0x3 ||| 0x70 ||| 0x7F00 ||| 0x003E0000)) |||
        (c.OscConfig.PLL.PllSource ||| c.OscConfig.PLL.PllM |||
          (c.OscConfig.PLL.PLLN <<< 8) ||| c.OscConfig.PLL.PllP ||| (1 <<< 16)) := by
    rw [InitClock_PLLCFGR]
    unfold Pll_PLLCFGR
    simp only [hen, vsrc, vM, vN, vP, vQ, vR, if_true, if_false]
    rw [eN]
    have e0 : Bfx_SetBitMask_u32u32 (Bfx_ClrBitMask_u32u32 s.Rcc.PLLCFGR MCU_PLL_SOURCE_MASK)
        c.OscConfig.PLL.PllSource =
        (s.Rcc.PLLCFGR &&& not_u32 MCU_PLL_SOURCE_MASK) ||| c.OscConfig.PLL.PllSource := rfl
    rw [e0,
      clr_set_merge _ _ _ _ _ (and_eq_self_of_subset _ _ _ sS (by decide)),
      clr_set_merge _ _ _ _ _ (or_and_eq_self _ _ _
        (and_eq_self_of_subset _ _ _ sS (by decide))
        (and_eq_self_of_subset _ _ _ sM (by decide))),
      clr_set_merge _ _ _ _ _ (or_and_eq_self _ _ _ (or_and_eq_self _ _ _
        (and_eq_self_of_subset _ _ _ sS (by decide))
        (and_eq_self_of_subset _ _ _ sM (by decide)))
        (and_eq_self_of_subset _ _ _ sN (by decide)))]
    unfold Bfx_SetBit_u32u8
    rw [Nat.or_assoc]
    rfl
  have frame : ∀ k, MCU_PLL_SOURCE_MASK &&& k = 0 → MCU_PLLM_MASK &&& k = 0 →
      MCU_PLLN_MASK &&& k = 0 → MCU_PLLP_MASK &&& k = 0 → (1 <<< 16) &&& k = 0 →
      not_u32 (0x3 ||| 0x70 ||| 0x7F00 ||| 0x003E0000) &&& k = k →
      (Mcu_Arch_InitClock s c).2.Rcc.PLLCFGR &&& k = s.Rcc.PLLCFGR &&& k := by
    intro k k1 k2 k3 k4 k5 k6
    rw [main, Nat.and_distrib_right, Nat.and_assoc, k6]
    simp only [Nat.and_distrib_right, and_eq_zero_of_subset _ _ _ sS k1,
      and_eq_zero_of_subset _ _ _ sM k2, and_eq_zero_of_subset _ _ _ sN k3,
      and_eq_zero_of_subset _ _ _ sP k4, k5, Nat.or_zero]
  refine ⟨main, ?_, ?_, ?_, ?_, ?_, ?_⟩
  · exact frame _ (by decide) (by decide) (by decide) (by decide) (by decide) (by decide)
  · exact frame _ (by decide) (by decide) (by decide) (by decide) (by decide) (by decide)
  · exact testBit_eq_of_and_eq _ _ 24
      (frame _ (by decide) (by decide) (by decide) (by decide) (by decide) (by decide))
  · exact testBit_eq_of_and_eq _ _ 28
      (frame _ (by decide) (by decide) (by decide) (by decide) (by decide) (by decide))
  · rw [InitClock_PLLON]; simp [hen]
  · rw [InitClock_PllStatus, if_pos hen]

/-- C6: for every request whose PLL state is Enabled, whatever the validity of its source, M,
N, P, Q and R fields, after `Mcu_Arch_InitClock` CR bit 24 (PLLON) is 1 and the stored
PllStatus is `MCU_PLL_UNLOCKED`, independently of PLLRDY and of the status stored before. -/
theorem C6_InitClock_enabled (s : Mcu_Hw) (c : Mcu_ClkConfigType)
    (hen : c.OscConfig.PLL.PllState = MCU_PLL_STATE_ENABLED) :
    (Mcu_Arch_InitClock s c).2.Rcc.CR.testBit 24 = true ∧
    (Mcu_Arch_InitClock s c).2.PllStatus = MCU_PLL_UNLOCKED := by
  constructor
  · rw [InitClock_PLLON]; simp [hen]
  · rw [InitClock_PllStatus, if_pos hen]

/-- C7: for every request whose PLL state is Disabled, after `Mcu_Arch_InitClock` CR bit 24
(PLLON) is 0, PLLCFGR is unchanged, and the stored PllStatus is `MCU_PLL_STATUS_UNDEFINED`
whatever it was before. -/
theorem C7_InitClock_disabled (s : Mcu_Hw) (c : Mcu_ClkConfigType)
    (hdis : c.OscConfig.PLL.PllState = MCU_PLL_STATE_DISABLED) :
    (Mcu_Arch_InitClock s c).2.Rcc.CR.testBit 24 = false ∧
    (Mcu_Arch_InitClock s c).2.Rcc.PLLCFGR = s.Rcc.PLLCFGR ∧
    (Mcu_Arch_InitClock s c).2.PllStatus = MCU_PLL_STATUS_UNDEFINED := by
  have hne : ¬ c.OscConfig.PLL.PllState = MCU_PLL_STATE_ENABLED := by rw [hdis]; decide
  refine ⟨?_, ?_, ?_⟩
  · rw [InitClock_PLLON]; simp [hne]
  · rw [InitClock_PLLCFGR]; unfold Pll_PLLCFGR; rw [if_neg hne]
  · rw [InitClock_PllStatus, if_neg hne]

/-- Frame of the PLL part: a set `k` of PLLCFGR bits keeps its value when every field that is
programmed (its value passed the validation) has a footprint disjoint from `k`.  The
footprint of a programmed field is its mask, its value and, for P, Q and R, its enable bit;
the values `MCU_PLLR_DIV2..MCU_PLLR_DIV8` lie in bits 11:9. -/
theorem Pll_PLLCFGR_frame (PLL : Mcu_PllConfigType) (x k : Nat)
    (hM : PLLM_enum_or_rejected PLL.PllM) (hP : PLLP_enum_or_rejected PLL.PllP)
    (hQ : PLLQ_enum_or_rejected PLL.PllQ) (hR : PLLR_enum_or_rejected PLL.PllR)
    (k1 : Validate_PllSource PLL.PllSource = E_OK →
      not_u32 MCU_PLL_SOURCE_MASK &&& k = k ∧ MCU_PLL_SOURCE_MASK &&& k = 0)
    (k2 : Validate_ValueInRange PLL.PllM MCU_PLLM_DIV1 MCU_PLLM_DIV8 = E_OK →
      not_u32 MCU_PLLM_MASK &&& k = k ∧ MCU_PLLM_MASK &&& k = 0)
    (k3 : Validate_ValueInRange PLL.PLLN MCU_PLLN_MIN_VALUE MCU_PLLN_MAX_VALUE = E_OK →
      not_u32 MCU_PLLN_MASK &&& k = k ∧ MCU_PLLN_MASK &&& k = 0)
    (k4 : Validate_ValueInRange PLL.PllP MCU_PLLP_DIV2 MCU_PLLP_DIV32 = E_OK →
      not_u32 MCU_PLLP_MASK &&& k = k ∧ MCU_PLLP_MASK &&& k = 0 ∧
        (1 <<< RCC_PLLCFGR_PLLPEN) &&& k = 0)
    (k5 : Validate_ValueInRange PLL.PllQ MCU_PLLQ_DIV2 MCU_PLLQ_DIV8 = E_OK →
      not_u32 MCU_PLLQ_MASK &&& k = k ∧ MCU_PLLQ_MASK &&& k = 0 ∧
        (1 <<< RCC_PLLCFGR_PLLQEN) &&& k = 0)
    (k6 : Validate_ValueInRange PLL.PllR MCU_PLLR_DIV2 MCU_PLLR_DIV8 = E_OK →
      not_u32 MCU_PLLR_MASK &&& k = k ∧ 0xE00 &&& k = 0 ∧
        (1 <<< RCC_PLLCFGR_PLLREN) &&& k = 0) :
    Pll_PLLCFGR PLL x &&& k = x &&& k := by
  unfold Pll_PLLCFGR
  by_cases hen : PLL.PllState = MCU_PLL_STATE_ENABLED
  · simp only [if_pos hen]
    rw [ite_clr_set_en_frame _ _ _ _ _ _ (fun hv => ⟨(k6 hv).1,
          and_eq_zero_of_subset _ _ _
            (PLLR_enum_subset _ (hR.elim id (fun hn => absurd hv hn))) (k6 hv).2.1,
          (k6 hv).2.2⟩),
      ite_clr_set_en_frame _ _ _ _ _ _ (fun hv => ⟨(k5 hv).1,
          and_eq_zero_of_subset _ _ _
            (PLLQ_enum_subset _ (hQ.elim id (fun hn => absurd hv hn))) (k5 hv).2.1,
          (k5 hv).2.2⟩),
      ite_clr_set_en_frame _ _ _ _ _ _ (fun hv => ⟨(k4 hv).1,
          and_eq_zero_of_subset _ _ _
            (PLLP_enum_subset _ (hP.elim id (fun hn => absurd hv hn))) (k4 hv).2.1,
          (k4 hv).2.2⟩),
      ite_clr_set_frame _ _ _ _ _ (fun hv => ⟨(k3 hv).1,
          and_eq_zero_of_subset _ _ _ (PLLN_subset _ hv).1 (k3 hv).2⟩),
      ite_clr_set_frame _ _ _ _ _ (fun hv => ⟨(k2 hv).1,
          and_eq_zero_of_subset _ _ _
            (PLLM_enum_subset _ (hM.elim id (fun hn => absurd hv hn))) (k2 hv).2⟩),
      ite_clr_set_frame _ _ _ _ _ (fun hv => ⟨(k1 hv).1,
          and_eq_zero_of_subset _ _ _ (PllSource_subset _ hv) (k1 hv).2⟩)]
  · rw [if_neg hen]

/-- C9: for a request whose other PLL fields each hold an enumerated encoding or a rejected
value (every source and every N value is one or the other), an out-of-range P leaves PLLCFGR
bits 21:17 and bit 16 (PLLPEN) unchanged; an out-of-range Q leaves bits 27:25 and bit 24
(PLLQEN) unchanged; an out-of-range R leaves bits 31:29 and bit 28 (PLLREN) unchanged.  This
holds for every requested PLL state, Enabled in particular. -/
theorem C9_invalid_output_divider_untouched (s : Mcu_Hw) (c : Mcu_ClkConfigType)
    (hM : PLLM_enum_or_rejected c.OscConfig.PLL.PllM) :
    ((c.OscConfig.PLL.PllP < MCU_PLLP_DIV2 ∨ MCU_PLLP_DIV32 < c.OscConfig.PLL.PllP) →
      PLLQ_enum_or_rejected c.OscConfig.PLL.PllQ → PLLR_enum_or_rejected c.OscConfig.PLL.PllR →
        (Mcu_Arch_InitClock s c).2.Rcc.PLLCFGR &&& MCU_PLLP_MASK =
          s.Rcc.PLLCFGR &&& MCU_PLLP_MASK ∧
        (Mcu_Arch_InitClock s c).2.Rcc.PLLCFGR.testBit 16 = s.Rcc.PLLCFGR.testBit 16) ∧
    ((c.OscConfig.PLL.PllQ < MCU_PLLQ_DIV2 ∨ MCU_PLLQ_DIV8 < c.OscConfig.PLL.PllQ) →
      PLLP_enum_or_rejected c.OscConfig.PLL.PllP → PLLR_enum_or_rejected c.OscConfig.PLL.PllR →
        (Mcu_Arch_InitClock s c).2.Rcc.PLLCFGR &&& MCU_PLLQ_MASK =
          s.Rcc.PLLCFGR &&& MCU_PLLQ_MASK ∧
        (Mcu_Arch_InitClock s c).2.Rcc.PLLCFGR.testBit 24 = s.Rcc.PLLCFGR.testBit 24) ∧
    ((c.OscConfig.PLL.PllR < MCU_PLLR_DIV2 ∨ MCU_PLLR_DIV8 < c.OscConfig.PLL.PllR) →
      PLLP_enum_or_rejected c.OscConfig.PLL.PllP → PLLQ_enum_or_rejected c.OscConfig.PLL.PllQ →
        (Mcu_Arch_InitClock s c).2.Rcc.PLLCFGR &&& MCU_PLLR_MASK =
          s.Rcc.PLLCFGR &&& MCU_PLLR_MASK ∧
        (Mcu_Arch_InitClock s c).2.Rcc.PLLCFGR.testBit 28 = s.Rcc.PLLCFGR.testBit 28) := by
  rw [InitClock_PLLCFGR]
  refine ⟨?_, ?_, ?_⟩
  · intro hout hQ hR
    have vP : ¬ Validate_ValueInRange c.OscConfig.PLL.PllP MCU_PLLP_DIV2 MCU_PLLP_DIV32
        = E_OK := by
      rw [ValueInRange_iff]; omega
    constructor
    · exact Pll_PLLCFGR_frame _ _ _ hM (Or.inr vP) hQ hR
        (fun _ => ⟨by decide, by decide⟩) (fun _ => ⟨by decide, by decide⟩)
        (fun _ => ⟨by decide, by decide⟩) (fun hv => absurd hv vP)
        (fun _ => ⟨by decide, by decide, by decide⟩)
        (fun _ => ⟨by decide, by decide, by decide⟩)
    · exact testBit_eq_of_and_eq _ _ 16 (Pll_PLLCFGR_frame _ _ _ hM (Or.inr vP) hQ hR
        (fun _ => ⟨by decide, by decide⟩) (fun _ => ⟨by decide, by decide⟩)
        (fun _ => ⟨by decide, by decide⟩) (fun hv => absurd hv vP)
        (fun _ => ⟨by decide, by decide, by decide⟩)
        (fun _ => ⟨by decide, by decide, by decide⟩))
  · intro hout hP hR
    have vQ : ¬ Validate_ValueInRange c.OscConfig.PLL.PllQ MCU_PLLQ_DIV2 MCU_PLLQ_DIV8
        = E_OK := by
      rw [ValueInRange_iff]; omega
    constructor
    · exact Pll_PLLCFGR_frame _ _ _ hM hP (Or.inr vQ) hR
        (fun _ => ⟨by decide, by decide⟩) (fun _ => ⟨by decide, by decide⟩)
        (fun _ => ⟨by decide, by decide⟩) (fun _ => ⟨by decide, by decide, by decide⟩)
        (fun hv => absurd hv vQ)
        (fun _ => ⟨by decide, by decide, by decide⟩)
    · exact testBit_eq_of_and_eq _ _ 24 (Pll_PLLCFGR_frame _ _ _ hM hP (Or.inr vQ) hR
        (fun _ => ⟨by decide, by decide⟩) (fun _ => ⟨by decide, by decide⟩)
        (fun _ => ⟨by decide, by decide⟩) (fun _ => ⟨by decide, by decide, by decide⟩)
        (fun hv => absurd hv vQ)
        (fun _ => ⟨by decide, by decide, by decide⟩))
  · intro hout hP hQ
    have vR : ¬ Validate_ValueInRange c.OscConfig.PLL.PllR MCU_PLLR_DIV2 MCU_PLLR_DIV8
        = E_OK := by
      rw [ValueInRange_iff]; omega
    constructor
    · exact Pll_PLLCFGR_frame _ _ _ hM hP hQ (Or.inr vR)
        (fun _ => ⟨by decide, by decide⟩) (fun _ => ⟨by decide, by decide⟩)
        (fun _ => ⟨by decide, by decide⟩) (fun _ => ⟨by decide, by decide, by decide⟩)
        (fun _ => ⟨by decide, by decide, by decide⟩)
        (fun hv => absurd hv vR)
    · exact testBit_eq_of_and_eq _ _ 28 (Pll_PLLCFGR_frame _ _ _ hM hP hQ (Or.inr vR)
        (fun _ => ⟨by decide, by decide⟩) (fun _ => ⟨by decide, by decide⟩)
        (fun _ => ⟨by decide, by decide⟩) (fun _ => ⟨by decide, by decide, by decide⟩)
        (fun _ => ⟨by decide, by decide, by decide⟩)
        (fun hv => absurd hv vR))

/-- With an out-of-range N, the multiplier field (mask 0x7F00) keeps its value when the R
divider is rejected as well and M, P and Q are enumerated encodings or rejected values. -/
theorem InitClock_PLLN_kept_of_R_rejected (s : Mcu_Hw) (c : Mcu_ClkConfigType)
    (hN : c.OscConfig.PLL.PLLN < 8 ∨ 86 < c.OscConfig.PLL.PLLN)
    (hR : c.OscConfig.PLL.PllR < MCU_PLLR_DIV2 ∨ MCU_PLLR_DIV8 < c.OscConfig.PLL.PllR)
    (hM : PLLM_enum_or_rejected c.OscConfig.PLL.PllM)
    (hP : PLLP_enum_or_rejected c.OscConfig.PLL.PllP)
    (hQ : PLLQ_enum_or_rejected c.OscConfig.PLL.PllQ) :
    (Mcu_Arch_InitClock s c).2.Rcc.PLLCFGR &&& MCU_PLLN_MASK =
      s.Rcc.PLLCFGR &&& MCU_PLLN_MASK := by
  have vN : ¬ Validate_ValueInRange c.OscConfig.PLL.PLLN MCU_PLLN_MIN_VALUE MCU_PLLN_MAX_VALUE
      = E_OK := by
    rw [ValueInRange_iff]; simp only [MCU_PLLN_MIN_VALUE, MCU_PLLN_MAX_VALUE]; omega
  have vR : ¬ Validate_ValueInRange c.OscConfig.PLL.PllR MCU_PLLR_DIV2 MCU_PLLR_DIV8
      = E_OK := by
    rw [ValueInRange_iff]; omega
  rw [InitClock_PLLCFGR]
  exact Pll_PLLCFGR_frame _ _ _ hM hP hQ (Or.inr vR)
    (fun _ => ⟨by decide, by decide⟩) (fun _ => ⟨by decide, by decide⟩)
    (fun hv => absurd hv vN) (fun _ => ⟨by decide, by decide, by decide⟩)
    (fun _ => ⟨by decide, by decide, by decide⟩)
    (fun hv => absurd hv vR)

/-- C10 (evaluation at the failing input): from the reset state (multiplier field 0x1000,
N = 16), a request with the out-of-range multiplier N = 200 and the valid R divider
`MCU_PLLR_DIV2` leaves the multiplier field at 0x1200 (N = 18): the value `1 << 9` of
`MCU_PLLR_DIV2` is written into bit 9, inside the multiplier field, while the R field
(bits 31:29) stays 0. -/
theorem C10_N_field_changed_by_valid_R :
    hw_reset.Rcc.PLLCFGR &&& MCU_PLLN_MASK = 0x1000 ∧
    (Mcu_Arch_InitClock hw_reset request_N200_R2).2.Rcc.PLLCFGR &&& MCU_PLLN_MASK = 0x1200 ∧
    (Mcu_Arch_InitClock hw_reset request_N200_R2).2.Rcc.PLLCFGR &&& MCU_PLLR_MASK = 0 := by
  decide

/-! ## The write log -/

theorem extends_by_refl (P : Rcc_Write → Prop) (s : Mcu_Hw) : s.extends_by P s :=
  ⟨[], (List.append_nil _).symm, by simp⟩

theorem extends_by_trans {P : Rcc_Write → Prop} {s t u : Mcu_Hw}
    (h1 : s.extends_by P t) (h2 : t.extends_by P u) : s.extends_by P u := by
  obtain ⟨w1, e1, p1⟩ := h1
  obtain ⟨w2, e2, p2⟩ := h2
  refine ⟨w1 ++ w2, by rw [e2, e1, List.append_assoc], ?_⟩
  intro e he
  rcases List.mem_append.1 he with h | h
  · exact p1 e h
  · exact p2 e h

theorem extends_by_rmw {P : Rcc_Write → Prop} {s t : Mcu_Hw} (reg : Rcc_Reg) (f : Nat → Nat)
    (h : s.extends_by P t)
    (hp : P { reg := reg, pre := t.Rcc, value := f (t.Rcc.get reg) }) :
    s.extends_by P (t.rmw reg f) := by
  refine extends_by_trans h ⟨[_], Mcu_Hw.rmw_trace t reg f, ?_⟩
  intro e he
  rw [List.mem_singleton] at he
  rw [he]
  exact hp

theorem extends_by_status {P : Rcc_Write → Prop} {s t : Mcu_Hw} (x : Mcu_PllStatusType)
    (h : s.extends_by P t) : s.extends_by P { t with PllStatus := x } := h

theorem extends_by_ite {P : Rcc_Write → Prop} {s a b : Mcu_Hw} (c : Prop) [Decidable c]
    (ha : s.extends_by P a) (hb : s.extends_by P b) :
    s.extends_by P (if c then a else b) := by
  split_ifs
  · exact ha
  · exact hb

theorem InitClock_Osc_writes (s : Mcu_Hw) (c : Mcu_ClkConfigType) :
    s.extends_by not_PLLCFGR_write (Mcu_Arch_InitClock_Osc s c).2 := by
  unfold Mcu_Arch_InitClock_Osc
  simp only [Mcu_Hw.SetBit, Mcu_Hw.ClrBit, Mcu_Hw.SetBitMask, Mcu_Hw.ClrBitMask]
  split_ifs <;>
    repeat (first
      | exact extends_by_refl _ _
      | refine extends_by_rmw _ _ ?_ (by simp [not_PLLCFGR_write]))

theorem Init_writes (s : Mcu_Hw) (cfg : Mcu_ConfigType) :
    s.extends_by not_PLLCFGR_write (Mcu_Arch_Init s cfg) := by
  unfold Mcu_Arch_Init
  simp only [Mcu_Hw.SetBit, Mcu_Hw.ClrBit, Mcu_Hw.SetBitMask, Mcu_Hw.ClrBitMask]
  split_ifs <;>
    repeat (first
      | exact extends_by_refl _ _
      | refine extends_by_rmw _ _ ?_ (by simp [not_PLLCFGR_write]))

theorem InitClock_Clk_writes (s : Mcu_Hw) (c : Mcu_ClkConfigType) (rv : Nat) :
    s.extends_by not_PLLCFGR_write (Mcu_Arch_InitClock_Clk s c rv).2 := by
  unfold Mcu_Arch_InitClock_Clk
  simp only [Mcu_Hw.SetBit, Mcu_Hw.ClrBit, Mcu_Hw.SetBitMask, Mcu_Hw.ClrBitMask,
    apply_ite Prod.snd]
  repeat (first
    | exact extends_by_refl _ _
    | refine extends_by_rmw _ _ ?_ (by simp [not_PLLCFGR_write])
    | refine extends_by_ite _ ?_ ?_)

theorem DistributePllClock_writes (s : Mcu_Hw) :
    s.extends_by not_PLLCFGR_write (Mcu_Arch_DistributePllClock s).2 := by
  unfold Mcu_Arch_DistributePllClock
  simp only [Mcu_Hw.SetBit, Mcu_Hw.ClrBit, Mcu_Hw.SetBitMask, Mcu_Hw.ClrBitMask]
  split_ifs <;>
    repeat (first
      | exact extends_by_refl _ _
      | refine extends_by_status _ ?_
      | refine extends_by_rmw _ _ ?_ (by simp [not_PLLCFGR_write]))

theorem GetPllStatus_writes (s : Mcu_Hw) :
    s.extends_by not_PLLCFGR_write (Mcu_Arch_GetPllStatus s).2 := by
  unfold Mcu_Arch_GetPllStatus
  simp only []
  split_ifs <;> exact extends_by_refl _ _

/-- A conditional field update of PLLCFGR (clear mask, set value) issued while PLLON is 0
only adds PLLCFGR writes issued while PLLON is 0, and leaves CR alone. -/
theorem Pll_step2 {s0 t : Mcu_Hw} (p : Prop) [Decidable p] (f g : Nat → Nat)
    (h0 : s0.Rcc.CR.testBit 24 = false)
    (h : s0.extends_by PLLCFGR_write_while_off t ∧ t.Rcc.CR = s0.Rcc.CR) :
    s0.extends_by PLLCFGR_write_while_off
        (if p then (t.rmw .PLLCFGR f).rmw .PLLCFGR g else t) ∧
      (if p then (t.rmw .PLLCFGR f).rmw .PLLCFGR g else t).Rcc.CR = s0.Rcc.CR := by
  obtain ⟨h1, h2⟩ := h
  split_ifs
  · refine ⟨extends_by_rmw _ _ (extends_by_rmw _ _ h1 ?_) ?_, ?_⟩
    · exact ⟨rfl, by rw [h2]; exact h0⟩
    · refine ⟨rfl, ?_⟩
      simp only [Mcu_Hw.rmw_Rcc, Rcc_RegisterType.set]
      rw [h2]; exact h0
    · simp only [Mcu_Hw.rmw_Rcc, Rcc_RegisterType.set]
      exact h2
  · exact ⟨h1, h2⟩

/-- A conditional field update of PLLCFGR followed by its enable bit (clear mask, set value,
set bit) issued while PLLON is 0 only adds PLLCFGR writes issued while PLLON is 0. -/
theorem Pll_step3 {s0 t : Mcu_Hw} (p : Prop) [Decidable p] (f g h : Nat → Nat)
    (h0 : s0.Rcc.CR.testBit 24 = false)
    (hJ : s0.extends_by PLLCFGR_write_while_off t ∧ t.Rcc.CR = s0.Rcc.CR) :
    s0.extends_by PLLCFGR_write_while_off
        (if p then ((t.rmw .PLLCFGR f).rmw .PLLCFGR g).rmw .PLLCFGR h else t) ∧
      (if p then ((t.rmw .PLLCFGR f).rmw .PLLCFGR g).rmw .PLLCFGR h else t).Rcc.CR
        = s0.Rcc.CR := by
  obtain ⟨h1, h2⟩ := hJ
  split_ifs
  · refine ⟨extends_by_rmw _ _ (extends_by_rmw _ _ (extends_by_rmw _ _ h1 ?_) ?_) ?_, ?_⟩
    · exact ⟨rfl, by rw [h2]; exact h0⟩
    · refine ⟨rfl, ?_⟩
      simp only [Mcu_Hw.rmw_Rcc, Rcc_RegisterType.set]
      rw [h2]; exact h0
    · refine ⟨rfl, ?_⟩
      simp only [Mcu_Hw.rmw_Rcc, Rcc_RegisterType.set]
      rw [h2]; exact h0
    · simp only [Mcu_Hw.rmw_Rcc, Rcc_RegisterType.set]
      exact h2
  · exact ⟨h1, h2⟩

theorem ClrBit_PLLON (x : Nat) : (Bfx_ClrBit_u32u8 x RCC_CR_PLLON).testBit 24 = false := by
  simp [testBit_ClrBit]

/-- Shape of the PLL part for an Enabled request: the PLL is switched off, a state `s6` is
reached by PLLCFGR writes only, all issued while PLLON is 0, and the PLL is switched on
again. -/
theorem InitClock_Pll_enabled_shape (s : Mcu_Hw) (c : Mcu_ClkConfigType) (rv : Nat)
    (hen : c.OscConfig.PLL.PllState = MCU_PLL_STATE_ENABLED) :
    ∃ s6 : Mcu_Hw,
      ((s.ClrBit .CR RCC_CR_PLLON).extends_by PLLCFGR_write_while_off s6 ∧
        s6.Rcc.CR = (s.ClrBit .CR RCC_CR_PLLON).Rcc.CR) ∧
      (Mcu_Arch_InitClock_Pll s c rv).2 =
        { s6.SetBit .CR RCC_CR_PLLON with PllStatus := MCU_PLL_UNLOCKED } := by
  have h0 : (s.ClrBit .CR RCC_CR_PLLON).Rcc.CR.testBit 24 = false := by
    simp only [Mcu_Hw.ClrBit, Mcu_Hw.rmw_Rcc, Rcc_RegisterType.set, Rcc_RegisterType.get]
    exact ClrBit_PLLON _
  unfold Mcu_Arch_InitClock_Pll
  rw [if_pos hen]
  refine ⟨_, ?_, rfl⟩
  exact Pll_step3 _ _ _ _ h0 (Pll_step3 _ _ _ _ h0 (Pll_step3 _ _ _ _ h0
    (Pll_step2 _ _ _ h0 (Pll_step2 _ _ _ h0 (Pll_step2 _ _ _ h0
      ⟨extends_by_refl _ _, rfl⟩)))))

/-- The write log of the PLL part for an Enabled request: a CR write that clears PLLON, then
PLLCFGR writes only, each issued while PLLON is 0, then a CR write that sets PLLON. -/
theorem InitClock_Pll_enabled_trace (s : Mcu_Hw) (c : Mcu_ClkConfigType) (rv : Nat)
    (hen : c.OscConfig.PLL.PllState = MCU_PLL_STATE_ENABLED) :
    ∃ (mid : List Rcc_Write) (eclr eset : Rcc_Write),
      (Mcu_Arch_InitClock_Pll s c rv).2.trace = s.trace ++ eclr :: (mid ++ [eset]) ∧
      eclr.reg = Rcc_Reg.CR ∧ eclr.value.testBit 24 = false ∧
      (∀ e ∈ mid, PLLCFGR_write_while_off e) ∧
      eset.reg = Rcc_Reg.CR ∧ eset.pre.CR.testBit 24 = false ∧ eset.value.testBit 24 = true := by
  obtain ⟨s6, ⟨⟨mid, hmid, hP⟩, hCR⟩, hshape⟩ := InitClock_Pll_enabled_shape s c rv hen
  refine ⟨mid, { reg := .CR, pre := s.Rcc, value := Bfx_ClrBit_u32u8 s.Rcc.CR RCC_CR_PLLON },
    { reg := .CR, pre := s6.Rcc, value := Bfx_SetBit_u32u8 s6.Rcc.CR RCC_CR_PLLON },
    ?_, rfl, ClrBit_PLLON _, hP, rfl, ?_, ?_⟩
  · rw [hshape]
    simp only [Mcu_Hw.SetBit, Mcu_Hw.rmw_trace, Rcc_RegisterType.get]
    rw [hmid]
    simp only [Mcu_Hw.ClrBit, Mcu_Hw.rmw_trace, Rcc_RegisterType.get, List.append_assoc,
      List.singleton_append]
    rfl
  · show s6.Rcc.CR.testBit 24 = false
    rw [hCR]
    simp only [Mcu_Hw.ClrBit, Mcu_Hw.rmw_Rcc, Rcc_RegisterType.set, Rcc_RegisterType.get]
    exact ClrBit_PLLON _
  · show (Bfx_SetBit_u32u8 s6.Rcc.CR RCC_CR_PLLON).testBit 24 = true
    simp [testBit_SetBit]

/-- The PLL part for a request that is not Enabled writes CR only. -/
theorem InitClock_Pll_disabled_writes (s : Mcu_Hw) (c : Mcu_ClkConfigType) (rv : Nat)
    (hen : c.OscConfig.PLL.PllState ≠ MCU_PLL_STATE_ENABLED) :
    s.extends_by not_PLLCFGR_write (Mcu_Arch_InitClock_Pll s c rv).2 := by
  unfold Mcu_Arch_InitClock_Pll
  rw [if_neg hen]
  exact extends_by_status _ (extends_by_rmw _ _ (extends_by_refl _ _)
    (by simp [not_PLLCFGR_write]))

/-- The write log of `Mcu_Arch_InitClock` for an Enabled request: writes to registers other
than PLLCFGR, the CR write that clears PLLON, PLLCFGR writes only (each issued while PLLON is
0), the CR write that sets PLLON, and again writes to registers other than PLLCFGR. -/
theorem InitClock_enabled_writes (s : Mcu_Hw) (c : Mcu_ClkConfigType)
    (hen : c.OscConfig.PLL.PllState = MCU_PLL_STATE_ENABLED) :
    ∃ (pre mid post : List Rcc_Write) (eclr eset : Rcc_Write),
      Mcu_Arch_InitClock_writes s c = pre ++ eclr :: (mid ++ eset :: post) ∧
      (∀ e ∈ pre, e.reg ≠ Rcc_Reg.PLLCFGR) ∧
      eclr.reg = Rcc_Reg.CR ∧ eclr.value.testBit 24 = false ∧
      (∀ e ∈ mid, e.reg = Rcc_Reg.PLLCFGR ∧ e.pre.CR.testBit 24 = false) ∧
      eset.reg = Rcc_Reg.CR ∧ eset.pre.CR.testBit 24 = false ∧
      eset.value.testBit 24 = true ∧
      (∀ e ∈ post, e.reg ≠ Rcc_Reg.PLLCFGR) := by
  unfold Mcu_Arch_InitClock_writes Mcu_Arch_InitClock
  simp only []
  obtain ⟨pre, hpre, ppre⟩ := InitClock_Osc_writes { s with trace := [] } c
  obtain ⟨mid, eclr, eset, hmid, h1, h2, pmid, h3, h4, h5⟩ :=
    InitClock_Pll_enabled_trace (Mcu_Arch_InitClock_Osc { s with trace := [] } c).2 c
      (Mcu_Arch_InitClock_Osc { s with trace := [] } c).1 hen
  obtain ⟨post, hpost, ppost⟩ := InitClock_Clk_writes
    (Mcu_Arch_InitClock_Pll (Mcu_Arch_InitClock_Osc { s with trace := [] } c).2 c
      (Mcu_Arch_InitClock_Osc { s with trace := [] } c).1).2 c
    (Mcu_Arch_InitClock_Pll (Mcu_Arch_InitClock_Osc { s with trace := [] } c).2 c
      (Mcu_Arch_InitClock_Osc { s with trace := [] } c).1).1
  refine ⟨pre, mid, post, eclr, eset, ?_, ppre, h1, h2, pmid, h3, h4, h5, ppost⟩
  rw [hpost, hmid, hpre]
  simp only [List.nil_append, List.append_assoc, List.cons_append, List.singleton_append]

/-- The write log of `Mcu_Arch_InitClock` for a request that is not Enabled has no PLLCFGR
write. -/
theorem InitClock_disabled_writes (s : Mcu_Hw) (c : Mcu_ClkConfigType)
    (hen : c.OscConfig.PLL.PllState ≠ MCU_PLL_STATE_ENABLED) :
    ∀ e ∈ Mcu_Arch_InitClock_writes s c, e.reg ≠ Rcc_Reg.PLLCFGR := by
  unfold Mcu_Arch_InitClock_writes Mcu_Arch_InitClock
  simp only []
  obtain ⟨w, hw, pw⟩ := extends_by_trans (extends_by_trans
    (InitClock_Osc_writes { s with trace := [] } c)
    (InitClock_Pll_disabled_writes (Mcu_Arch_InitClock_Osc { s with trace := [] } c).2 c
      (Mcu_Arch_InitClock_Osc { s with trace := [] } c).1 hen))
    (InitClock_Clk_writes
      (Mcu_Arch_InitClock_Pll (Mcu_Arch_InitClock_Osc { s with trace := [] } c).2 c
        (Mcu_Arch_InitClock_Osc { s with trace := [] } c).1).2 c
      (Mcu_Arch_InitClock_Pll (Mcu_Arch_InitClock_Osc { s with trace := [] } c).2 c
        (Mcu_Arch_InitClock_Osc { s with trace := [] } c).1).1)
  rw [hw]
  intro e he
  exact pw e (by simpa using he)

/-- C8: the PLL is never reprogrammed while enabled.  In every execution of
`Mcu_Arch_InitClock`, at the moment of each write to PLLCFGR the bit CR[24] (PLLON) is 0; for
an Enabled request the write log is: writes to other registers, the CR write that clears
PLLON, PLLCFGR writes only, the CR write that sets PLLON, writes to other registers; for a
request that is not Enabled PLLCFGR is not written at all.  `Mcu_Arch_Init`,
`Mcu_Arch_DistributePllClock` and `Mcu_Arch_GetPllStatus` never write PLLCFGR. -/
theorem C8_PLLCFGR_written_only_while_PLL_off (s : Mcu_Hw) (c : Mcu_ClkConfigType)
    (cfg : Mcu_ConfigType) :
    (∀ e ∈ Mcu_Arch_InitClock_writes s c,
      e.reg = Rcc_Reg.PLLCFGR → e.pre.CR.testBit 24 = false) ∧
    (c.OscConfig.PLL.PllState = MCU_PLL_STATE_ENABLED →
      ∃ (pre mid post : List Rcc_Write) (eclr eset : Rcc_Write),
        Mcu_Arch_InitClock_writes s c = pre ++ eclr :: (mid ++ eset :: post) ∧
        (∀ e ∈ pre, e.reg ≠ Rcc_Reg.PLLCFGR) ∧
        eclr.reg = Rcc_Reg.CR ∧ eclr.value.testBit 24 = false ∧
        (∀ e ∈ mid, e.reg = Rcc_Reg.PLLCFGR ∧ e.pre.CR.testBit 24 = false) ∧
        eset.reg = Rcc_Reg.CR ∧ eset.pre.CR.testBit 24 = false ∧
        eset.value.testBit 24 = true ∧
        (∀ e ∈ post, e.reg ≠ Rcc_Reg.PLLCFGR)) ∧
    (c.OscConfig.PLL.PllState ≠ MCU_PLL_STATE_ENABLED →
      ∀ e ∈ Mcu_Arch_InitClock_writes s c, e.reg ≠ Rcc_Reg.PLLCFGR) ∧
    (∀ e ∈ Mcu_Arch_Init_writes s cfg, e.reg ≠ Rcc_Reg.PLLCFGR) ∧
    (∀ e ∈ Mcu_Arch_DistributePllClock_writes s, e.reg ≠ Rcc_Reg.PLLCFGR) ∧
    (∀ e ∈ Mcu_Arch_GetPllStatus_writes s, e.reg ≠ Rcc_Reg.PLLCFGR) := by
  refine ⟨?_, InitClock_enabled_writes s c, InitClock_disabled_writes s c, ?_, ?_, ?_⟩
  · intro e he hreg
    by_cases hen : c.OscConfig.PLL.PllState = MCU_PLL_STATE_ENABLED
    · obtain ⟨pre, mid, post, eclr, eset, hw, ppre, h1, _, pmid, h3, _, _, ppost⟩ :=
        InitClock_enabled_writes s c hen
      rw [hw] at he
      simp only [List.mem_append, List.mem_cons] at he
      rcases he with h | h | h | h | h
      · exact absurd hreg (ppre e h)
      · rw [h, h1] at hreg; exact absurd hreg (by decide)
      · exact (pmid e h).2
      · rw [h, h3] at hreg; exact absurd hreg (by decide)
      · exact absurd hreg (ppost e h)
    · exact absurd hreg (InitClock_disabled_writes s c hen e he)
  · obtain ⟨w, hw, pw⟩ := Init_writes { s with trace := [] } cfg
    unfold Mcu_Arch_Init_writes
    rw [hw]
    intro e he
    exact pw e (by simpa using he)
  · obtain ⟨w, hw, pw⟩ := DistributePllClock_writes { s with trace := [] }
    unfold Mcu_Arch_DistributePllClock_writes
    rw [hw]
    intro e he
    exact pw e (by simpa using he)
  · obtain ⟨w, hw, pw⟩ := GetPllStatus_writes { s with trace := [] }
    unfold Mcu_Arch_GetPllStatus_writes
    rw [hw]
    intro e he
    exact pw e (by simpa using he)

/-! ## Instances at concrete inputs -/

/-- C3 at a concrete input: HSE is ready (CR bit 17) and requested as system clock together
with an HSE On request; the mux field becomes HSE. -/
theorem C3_witness :
    request_hse_sysclk.OscConfig.OscillatorType ≠ MCU_OSCILLATORTYPE_HSI ∧
    AHB_enum_or_rejected request_hse_sysclk.ClkConfig.AHBClockDivider ∧
    APB1_enum_or_rejected request_hse_sysclk.ClkConfig.APB1ClockDivider ∧
    (Mcu_Arch_InitClock hw_hse_ready request_hse_sysclk).2.Rcc.CFGR &&& 0x7 =
      MCU_SYSCLKSOURCE_HSE :=
  ⟨by decide, Or.inl (by decide), Or.inl (by decide),
    (C3_InitClock_mux_only_when_ready hw_hse_ready request_hse_sysclk (by decide)
      (Or.inl (by decide)) (Or.inl (by decide))).trans (if_pos (by decide))⟩

/-- C4 at concrete inputs: with every oscillator on and the system running from the
oscillator that the request switches off, the enable bit stays 1 after `Mcu_Arch_Init` and
after `Mcu_Arch_InitClock`. -/
theorem C4_witness :
    ((Mcu_Arch_Init (hw_running_from 1)
        (config_of (request_osc_off MCU_OSCILLATORTYPE_HSE))).Rcc.CR.testBit 16 = true ∧
      (Mcu_Arch_InitClock (hw_running_from 1)
        (request_osc_off MCU_OSCILLATORTYPE_HSE)).2.Rcc.CR.testBit 16 = true) ∧
    ((Mcu_Arch_Init (hw_running_from 4)
        (config_of (request_osc_off MCU_OSCILLATORTYPE_LSE))).Rcc.BDCR.testBit 0 = true ∧
      (Mcu_Arch_InitClock (hw_running_from 4)
        (request_osc_off MCU_OSCILLATORTYPE_LSE)).2.Rcc.BDCR.testBit 0 = true) ∧
    ((Mcu_Arch_Init (hw_running_from 3)
        (config_of (request_osc_off MCU_OSCILLATORTYPE_LSI))).Rcc.CSR.testBit 0 = true ∧
      (Mcu_Arch_InitClock (hw_running_from 3)
        (request_osc_off MCU_OSCILLATORTYPE_LSI)).2.Rcc.CSR.testBit 0 = true) ∧
    ((Mcu_Arch_Init (hw_running_from 0)
        (config_of (request_osc_off MCU_OSCILLATORTYPE_HSI))).Rcc.CR.testBit 8 = true ∧
      (Mcu_Arch_InitClock (hw_running_from 0)
        (request_osc_off MCU_OSCILLATORTYPE_HSI)).2.Rcc.CR.testBit 8 = true) := by
  have hse := (C4_active_source_enable_bit_kept (hw_running_from 1)
    (config_of (request_osc_off MCU_OSCILLATORTYPE_HSE))).1 rfl (by decide)
  have lse := (C4_active_source_enable_bit_kept (hw_running_from 4)
    (config_of (request_osc_off MCU_OSCILLATORTYPE_LSE))).2.1 rfl (by decide)
  have lsi := (C4_active_source_enable_bit_kept (hw_running_from 3)
    (config_of (request_osc_off MCU_OSCILLATORTYPE_LSI))).2.2.1 rfl (by decide)
  have hsi := (C4_active_source_enable_bit_kept (hw_running_from 0)
    (config_of (request_osc_off MCU_OSCILLATORTYPE_HSI))).2.2.2 rfl rfl (by decide)
  exact ⟨⟨hse.1.trans (by decide), hse.2.2.1.trans (by decide)⟩,
    ⟨lse.1.trans (by decide), lse.2.trans (by decide)⟩,
    ⟨lsi.1.trans (by decide), lsi.2.trans (by decide)⟩,
    ⟨hsi.1.trans (by decide), hsi.2.trans (by decide)⟩⟩

/-- C5 at the input of Scenario B (source HSE, M = DIV4, N = 40, P = DIV8, Q = R = 0), on a
state whose Q and R fields and enables are set: PLLCFGR goes from 0x55001002 to 0x550F2833. -/
theorem C5_witness :
    request_scenario_B.OscConfig.PLL.PllState = MCU_PLL_STATE_ENABLED ∧
    request_scenario_B.OscConfig.PLL.PllM ∈ MCU_PLLM_DIVS ∧
    request_scenario_B.OscConfig.PLL.PllP ∈ MCU_PLLP_DIVS ∧
    (Mcu_Arch_InitClock hw_hse_ready request_scenario_B).2.Rcc.PLLCFGR = 0x550F2833 ∧
    (Mcu_Arch_InitClock hw_hse_ready request_scenario_B).2.Rcc.CR.testBit 24 = true ∧
    (Mcu_Arch_InitClock hw_hse_ready request_scenario_B).2.PllStatus = MCU_PLL_UNLOCKED := by
  have h := C5_InitClock_scenario_B hw_hse_ready request_scenario_B rfl (Or.inr rfl)
    (by decide) (by decide) (by decide) (Or.inl (by decide)) (Or.inl (by decide))
  exact ⟨rfl, by decide, by decide, h.1.trans (by decide), h.2.2.2.2.2.1, h.2.2.2.2.2.2⟩

/-- C6 at the input of Scenario B, from a state whose stored status is Locked. -/
theorem C6_witness :
    request_scenario_B.OscConfig.PLL.PllState = MCU_PLL_STATE_ENABLED ∧
    hw_hse_ready.PllStatus = MCU_PLL_LOCKED ∧
    (Mcu_Arch_InitClock hw_hse_ready request_scenario_B).2.Rcc.CR.testBit 24 = true ∧
    (Mcu_Arch_InitClock hw_hse_ready request_scenario_B).2.PllStatus = MCU_PLL_UNLOCKED :=
  ⟨rfl, rfl, C6_InitClock_enabled hw_hse_ready request_scenario_B rfl⟩

/-- C7 at a concrete input: a Disabled request on a state whose stored status is Locked. -/
theorem C7_witness :
    request_none.OscConfig.PLL.PllState = MCU_PLL_STATE_DISABLED ∧
    hw_hse_ready.PllStatus = MCU_PLL_LOCKED ∧
    (Mcu_Arch_InitClock hw_hse_ready request_none).2.Rcc.CR.testBit 24 = false ∧
    (Mcu_Arch_InitClock hw_hse_ready request_none).2.Rcc.PLLCFGR = hw_hse_ready.Rcc.PLLCFGR ∧
    (Mcu_Arch_InitClock hw_hse_ready request_none).2.PllStatus = MCU_PLL_STATUS_UNDEFINED :=
  ⟨rfl, rfl, C7_InitClock_disabled hw_hse_ready request_none rfl⟩

/-- C8 at concrete inputs: the write log of Scenario B is a CR write, nine PLLCFGR writes and
a CR write, and has the shape stated by the theorem; the log of a Disabled request has no
PLLCFGR write. -/
theorem C8_witness :
    (Mcu_Arch_InitClock_writes hw_reset request_scenario_B).map (fun e => e.reg) =
      [Rcc_Reg.CR, Rcc_Reg.PLLCFGR, Rcc_Reg.PLLCFGR, Rcc_Reg.PLLCFGR, Rcc_Reg.PLLCFGR,
       Rcc_Reg.PLLCFGR, Rcc_Reg.PLLCFGR, Rcc_Reg.PLLCFGR, Rcc_Reg.PLLCFGR, Rcc_Reg.PLLCFGR,
       Rcc_Reg.CR] ∧
    (∃ (pre mid post : List Rcc_Write) (eclr eset : Rcc_Write),
      Mcu_Arch_InitClock_writes hw_reset request_scenario_B
        = pre ++ eclr :: (mid ++ eset :: post) ∧
      (∀ e ∈ pre, e.reg ≠ Rcc_Reg.PLLCFGR) ∧
      eclr.reg = Rcc_Reg.CR ∧ eclr.value.testBit 24 = false ∧
      (∀ e ∈ mid, e.reg = Rcc_Reg.PLLCFGR ∧ e.pre.CR.testBit 24 = false) ∧
      eset.reg = Rcc_Reg.CR ∧ eset.pre.CR.testBit 24 = false ∧
      eset.value.testBit 24 = true ∧
      (∀ e ∈ post, e.reg ≠ Rcc_Reg.PLLCFGR)) ∧
    (∀ e ∈ Mcu_Arch_InitClock_writes hw_hse_ready request_none, e.reg ≠ Rcc_Reg.PLLCFGR) :=
  ⟨by decide,
    (C8_PLLCFGR_written_only_while_PLL_off hw_reset request_scenario_B
      (config_of request_scenario_B)).2.1 rfl,
    (C8_PLLCFGR_written_only_while_PLL_off hw_hse_ready request_none
      (config_of request_none)).2.2.1 (by decide)⟩

/-- C9 at concrete inputs: with P and Q out of range and R = `MCU_PLLR_DIV2`, the P and Q
fields and their enables keep their values; with R out of range (Scenario B), the R field and
its enable keep their values. -/
theorem C9_witness :
    ((Mcu_Arch_InitClock hw_hse_ready request_N200_R2).2.Rcc.PLLCFGR &&& MCU_PLLP_MASK =
        hw_hse_ready.Rcc.PLLCFGR &&& MCU_PLLP_MASK ∧
      (Mcu_Arch_InitClock hw_hse_ready request_N200_R2).2.Rcc.PLLCFGR.testBit 16 =
        hw_hse_ready.Rcc.PLLCFGR.testBit 16) ∧
    ((Mcu_Arch_InitClock hw_hse_ready request_N200_R2).2.Rcc.PLLCFGR &&& MCU_PLLQ_MASK =
        hw_hse_ready.Rcc.PLLCFGR &&& MCU_PLLQ_MASK ∧
      (Mcu_Arch_InitClock hw_hse_ready request_N200_R2).2.Rcc.PLLCFGR.testBit 24 =
        hw_hse_ready.Rcc.PLLCFGR.testBit 24) ∧
    ((Mcu_Arch_InitClock hw_hse_ready request_scenario_B).2.Rcc.PLLCFGR &&& MCU_PLLR_MASK =
        hw_hse_ready.Rcc.PLLCFGR &&& MCU_PLLR_MASK ∧
      (Mcu_Arch_InitClock hw_hse_ready request_scenario_B).2.Rcc.PLLCFGR.testBit 28 =
        hw_hse_ready.Rcc.PLLCFGR.testBit 28) :=
  ⟨(C9_invalid_output_divider_untouched hw_hse_ready request_N200_R2
      (Or.inl (by decide))).1 (Or.inl (by decide)) (Or.inr (by decide)) (Or.inl (by decide)),
    (C9_invalid_output_divider_untouched hw_hse_ready request_N200_R2
      (Or.inl (by decide))).2.1 (Or.inl (by decide)) (Or.inr (by decide)) (Or.inl (by decide)),
    (C9_invalid_output_divider_untouched hw_hse_ready request_scenario_B
      (Or.inl (by decide))).2.2 (Or.inl (by decide)) (Or.inl (by decide)) (Or.inr (by decide))⟩

/-! ## Mcu_Arch_InitClock : the R output divider -/

/-- The PLLCFGR word after programming a valid R divider keeps no trace of it in the R field:
for every state and every Enabled request whose R value passes the validation and is one of
`MCU_PLLR_DIV2..MCU_PLLR_DIV8`, bits 31:29 of PLLCFGR are 0 after the call. -/
theorem InitClock_PLLR_field_cleared (s : Mcu_Hw) (c : Mcu_ClkConfigType)
    (hen : c.OscConfig.PLL.PllState = MCU_PLL_STATE_ENABLED)
    (hR : c.OscConfig.PLL.PllR ∈ MCU_PLLR_DIVS) :
    (Mcu_Arch_InitClock s c).2.Rcc.PLLCFGR &&& MCU_PLLR_MASK = 0 := by
  have vR : Validate_ValueInRange c.OscConfig.PLL.PllR MCU_PLLR_DIV2 MCU_PLLR_DIV8 = E_OK :=
    (by decide : ∀ v ∈ MCU_PLLR_DIVS,
      Validate_ValueInRange v MCU_PLLR_DIV2 MCU_PLLR_DIV8 = E_OK) _ hR
  rw [InitClock_PLLCFGR]
  unfold Pll_PLLCFGR
  simp only [if_pos hen, if_pos vR]
  rw [setBit_frame _ _ _ (by decide), clr_set_value _ _ _ _ (by decide)]
  exact and_eq_zero_of_subset _ _ _ (PLLR_enum_subset _ hR) (by decide)

/-- C11 (evaluation at the failing input): on a state whose R field holds 2, a request with
the valid R divider `MCU_PLLR_DIV4` (code 3) leaves the R field of PLLCFGR (bits 31:29) at 0
instead of 3, sets bit 28, and changes bits 11:9, which lie outside the R field and bit 28,
from 0 to 3. -/
theorem C11_R_field_not_programmed :
    hw_hse_ready.Rcc.PLLCFGR &&& MCU_PLLR_MASK = 2 <<< 29 ∧
    (Mcu_Arch_InitClock hw_hse_ready request_R_div4).2.Rcc.PLLCFGR &&& MCU_PLLR_MASK = 0 ∧
    (Mcu_Arch_InitClock hw_hse_ready request_R_div4).2.Rcc.PLLCFGR.testBit 28 = true ∧
    hw_hse_ready.Rcc.PLLCFGR &&& 0xE00 = 0 ∧
    (Mcu_Arch_InitClock hw_hse_ready request_R_div4).2.Rcc.PLLCFGR &&& 0xE00 = 3 <<< 9 := by
  decide

/-! ## Mcu_Arch_InitClock : frame of the PLL part -/

theorem testBit_eq_of_and_mask_eq (x y k i : Nat) (h : x &&& k = y &&& k)
    (hk : k.testBit i = true) : x.testBit i = y.testBit i := by
  have h1 := congrArg (fun z => Nat.testBit z i) h
  simpa [Nat.testBit_and, hk] using h1

/-- C12 (counterexample): the values M = 0x04, P = `MCU_PLLP_DIV2`, Q = `MCU_PLLQ_DIV2` and
R = `MCU_PLLR_DIV2` all pass the range validation, and after `Mcu_Arch_InitClock` PLLCFGR
bit 2, which lies outside every programmed field and enable bit, has gone from 0 to 1. -/
theorem C12_counterexample :
    Validate_ValueInRange request_M_raw4.OscConfig.PLL.PllM MCU_PLLM_DIV1 MCU_PLLM_DIV8
      = E_OK ∧
    Validate_ValueInRange request_M_raw4.OscConfig.PLL.PllP MCU_PLLP_DIV2 MCU_PLLP_DIV32
      = E_OK ∧
    Validate_ValueInRange request_M_raw4.OscConfig.PLL.PllQ MCU_PLLQ_DIV2 MCU_PLLQ_DIV8
      = E_OK ∧
    Validate_ValueInRange request_M_raw4.OscConfig.PLL.PllR MCU_PLLR_DIV2 MCU_PLLR_DIV8
      = E_OK ∧
    PLLCFGR_unprogrammed_bits.testBit 2 = true ∧
    hw_reset.Rcc.PLLCFGR.testBit 2 = false ∧
    (Mcu_Arch_InitClock hw_reset request_M_raw4).2.Rcc.PLLCFGR.testBit 2 = true := by
  decide

/-- C12 (amended): for every register state and every request whose M, P, Q and R values are
each an enumerated encoding or rejected by the range validation (any source, any N),
`Mcu_Arch_InitClock` changes PLLCFGR only inside the fields it programs: the bits outside the
source, M, N, P, Q and R masks and the enable bits 16, 24 and 28, that is bits 2, 3, 7, 15, 22
and 23, have the same value after the call as before. -/
theorem C12_PLLCFGR_changed_only_in_fields (s : Mcu_Hw) (c : Mcu_ClkConfigType)
    (hM : PLLM_enum_or_rejected c.OscConfig.PLL.PllM)
    (hP : PLLP_enum_or_rejected c.OscConfig.PLL.PllP)
    (hQ : PLLQ_enum_or_rejected c.OscConfig.PLL.PllQ)
    (hR : PLLR_enum_or_rejected c.OscConfig.PLL.PllR) :
    PLLCFGR_unprogrammed_bits = 0x00C0808C ∧
    (Mcu_Arch_InitClock s c).2.Rcc.PLLCFGR &&& PLLCFGR_unprogrammed_bits =
      s.Rcc.PLLCFGR &&& PLLCFGR_unprogrammed_bits ∧
    (∀ i, i = 2 ∨ i = 3 ∨ i = 7 ∨ i = 15 ∨ i = 22 ∨ i = 23 →
      (Mcu_Arch_InitClock s c).2.Rcc.PLLCFGR.testBit i = s.Rcc.PLLCFGR.testBit i) := by
  have hk : PLLCFGR_unprogrammed_bits = 0x00C0808C := by decide
  have main : (Mcu_Arch_InitClock s c).2.Rcc.PLLCFGR &&& 0x00C0808C =
      s.Rcc.PLLCFGR &&& 0x00C0808C := by
    rw [InitClock_PLLCFGR]
    exact Pll_PLLCFGR_frame _ _ _ hM hP hQ hR
      (fun _ => ⟨by decide, by decide⟩) (fun _ => ⟨by decide, by decide⟩)
      (fun _ => ⟨by decide, by decide⟩) (fun _ => ⟨by decide, by decide, by decide⟩)
      (fun _ => ⟨by decide, by decide, by decide⟩)
      (fun _ => ⟨by decide, by decide, by decide⟩)
  refine ⟨hk, by rw [hk]; exact main, ?_⟩
  intro i hi
  rcases hi with h' | h' | h' | h' | h' | h' <;> subst h' <;>
    exact testBit_eq_of_and_mask_eq _ _ _ _ main (by decide)

/-! ## Mcu_Arch_InitClock : the PLL source field -/

/-- The source field of PLLCFGR after the PLL part of an Enabled request whose M, P, Q and R
values are enumerated encodings or rejected: the requested source when it passes the
validation, the old field otherwise. -/
theorem Pll_PLLCFGR_source_field (PLL : Mcu_PllConfigType) (x : Nat)
    (hen : PLL.PllState = MCU_PLL_STATE_ENABLED)
    (hM : PLLM_enum_or_rejected PLL.PllM) (hP : PLLP_enum_or_rejected PLL.PllP)
    (hQ : PLLQ_enum_or_rejected PLL.PllQ) (hR : PLLR_enum_or_rejected PLL.PllR) :
    Pll_PLLCFGR PLL x &&& MCU_PLL_SOURCE_MASK =
      if Validate_PllSource PLL.PllSource = E_OK then PLL.PllSource
      else x &&& MCU_PLL_SOURCE_MASK := by
  unfold Pll_PLLCFGR
  simp only [if_pos hen]
  rw [ite_clr_set_en_frame _ _ _ _ _ _ (fun hv => ⟨by decide,
        and_eq_zero_of_subset _ _ _
          (PLLR_enum_subset _ (hR.elim id (fun hn => absurd hv hn))) (by decide),
        by decide⟩),
    ite_clr_set_en_frame _ _ _ _ _ _ (fun hv => ⟨by decide,
        and_eq_zero_of_subset _ _ _
          (PLLQ_enum_subset _ (hQ.elim id (fun hn => absurd hv hn))) (by decide),
        by decide⟩),
    ite_clr_set_en_frame _ _ _ _ _ _ (fun hv => ⟨by decide,
        and_eq_zero_of_subset _ _ _
          (PLLP_enum_subset _ (hP.elim id (fun hn => absurd hv hn))) (by decide),
        by decide⟩),
    ite_clr_set_frame _ _ _ _ _ (fun hv => ⟨by decide,
        and_eq_zero_of_subset _ _ _ (PLLN_subset _ hv).1 (by decide)⟩),
    ite_clr_set_frame _ _ _ _ _ (fun hv => ⟨by decide,
        and_eq_zero_of_subset _ _ _
          (PLLM_enum_subset _ (hM.elim id (fun hn => absurd hv hn))) (by decide)⟩)]
  by_cases hv : Validate_PllSource PLL.PllSource = E_OK
  · rw [if_pos hv, if_pos hv, clr_set_value _ _ _ _ (by decide)]
    exact PllSource_subset _ hv
  · rw [if_neg hv, if_neg hv]

/-- C13 (counterexample): the source encoding None (0) is not rejected.  On a state whose
source field holds 2, an Enabled request with source `MCU_PLL_SOURCE_NONE` (M enumerated, P, Q
and R out of range) leaves the source field at 0, not at its value before the call. -/
theorem C13_counterexample :
    request_source_none.OscConfig.PLL.PllState = MCU_PLL_STATE_ENABLED ∧
    request_source_none.OscConfig.PLL.PllSource ≠ MCU_PLL_SOURCE_HSI ∧
    request_source_none.OscConfig.PLL.PllSource ≠ MCU_PLL_SOURCE_HSE ∧
    Validate_PllSource request_source_none.OscConfig.PLL.PllSource = E_OK ∧
    hw_hse_ready.Rcc.PLLCFGR &&& MCU_PLL_SOURCE_MASK = 2 ∧
    (Mcu_Arch_InitClock hw_hse_ready request_source_none).2.Rcc.PLLCFGR
      &&& MCU_PLL_SOURCE_MASK = 0 := by
  decide

/-- C13 (amended): the PLL source encoding NotValid (1) and every value above 3 are rejected,
None (0) is accepted.  For every register state and every request with PLL state Enabled
whose M, P, Q and R values are enumerated encodings or rejected: if PllSource is 1 or above
3, PLLCFGR bits 1:0 after `Mcu_Arch_InitClock` equal their value before the call; if
PllSource is None (0), HSI (2) or HSE (3), they equal the requested encoding. -/
theorem C13_source_field (s : Mcu_Hw) (c : Mcu_ClkConfigType)
    (hen : c.OscConfig.PLL.PllState = MCU_PLL_STATE_ENABLED)
    (hM : PLLM_enum_or_rejected c.OscConfig.PLL.PllM)
    (hP : PLLP_enum_or_rejected c.OscConfig.PLL.PllP)
    (hQ : PLLQ_enum_or_rejected c.OscConfig.PLL.PllQ)
    (hR : PLLR_enum_or_rejected c.OscConfig.PLL.PllR) :
    ((c.OscConfig.PLL.PllSource = MCU_PLL_SOURCE_NOT_VALID ∨
        MCU_PLL_SOURCE_HSE < c.OscConfig.PLL.PllSource) →
      (Mcu_Arch_InitClock s c).2.Rcc.PLLCFGR &&& MCU_PLL_SOURCE_MASK =
        s.Rcc.PLLCFGR &&& MCU_PLL_SOURCE_MASK) ∧
    ((c.OscConfig.PLL.PllSource = MCU_PLL_SOURCE_NONE ∨
        c.OscConfig.PLL.PllSource = MCU_PLL_SOURCE_HSI ∨
        c.OscConfig.PLL.PllSource = MCU_PLL_SOURCE_HSE) →
      (Mcu_Arch_InitClock s c).2.Rcc.PLLCFGR &&& MCU_PLL_SOURCE_MASK =
        c.OscConfig.PLL.PllSource) := by
  rw [InitClock_PLLCFGR, Pll_PLLCFGR_source_field _ _ hen hM hP hQ hR]
  constructor
  · intro h
    have hv : ¬ Validate_PllSource c.OscConfig.PLL.PllSource = E_OK := by
      rw [PllSource_valid_iff]
      simp only [MCU_PLL_SOURCE_NOT_VALID, MCU_PLL_SOURCE_HSE] at h
      omega
    rw [if_neg hv]
  · intro h
    have hv : Validate_PllSource c.OscConfig.PLL.PllSource = E_OK := by
      rw [PllSource_valid_iff]
      simp only [MCU_PLL_SOURCE_NONE, MCU_PLL_SOURCE_HSI, MCU_PLL_SOURCE_HSE] at h
      omega
    rw [if_pos hv]

/-! ## External-crystal oscillators -/

/-- The register block after `Mcu_Arch_Init` for an HSE request when HSE is not the current
system-clock source: only CR is written, by the three-way sequence of the requested state. -/
theorem Init_HSE_Rcc (s : Mcu_Hw) (cfg : Mcu_ConfigType)
    (ht : cfg.ClockConfig.OscConfig.OscillatorType = MCU_OSCILLATORTYPE_HSE)
    (hc : s.Rcc.CFGR / 8 % 8 ≠ MCU_SYSCLKSOURCE_HSE) :
    (Mcu_Arch_Init s cfg).Rcc =
      { s.Rcc with CR :=
          if cfg.ClockConfig.OscConfig.HSEState = MCU_HSE_ON then
            Bfx_SetBit_u32u8 (Bfx_ClrBit_u32u8 (Bfx_ClrBit_u32u8 s.Rcc.CR RCC_CR_HSEON)
              RCC_CR_HSEBYP) RCC_CR_HSEON
          else if cfg.ClockConfig.OscConfig.HSEState = MCU_HSE_BYPASS then
            Bfx_SetBit_u32u8 (Bfx_SetBit_u32u8 (Bfx_ClrBit_u32u8 s.Rcc.CR RCC_CR_HSEON)
              RCC_CR_HSEBYP) RCC_CR_HSEON
          else
            Bfx_SetBit_u32u8 (Bfx_ClrBit_u32u8 s.Rcc.CR RCC_CR_HSEON) RCC_CR_HSEBYP } := by
  unfold Mcu_Arch_Init
  simp only [ht, Get_SysClk_eq, hc, if_true, ne_eq, not_false_eq_true]
  split_ifs <;> simp

/-- The register block after the oscillator part of `Mcu_Arch_InitClock` for an HSE request
when HSE is not the current system-clock source: the same as after `Mcu_Arch_Init`. -/
theorem InitClock_Osc_HSE_Rcc (s : Mcu_Hw) (c : Mcu_ClkConfigType)
    (ht : c.OscConfig.OscillatorType = MCU_OSCILLATORTYPE_HSE)
    (hc : s.Rcc.CFGR / 8 % 8 ≠ MCU_SYSCLKSOURCE_HSE) :
    (Mcu_Arch_InitClock_Osc s c).2.Rcc =
      { s.Rcc with CR :=
          if c.OscConfig.HSEState = MCU_HSE_ON then
            Bfx_SetBit_u32u8 (Bfx_ClrBit_u32u8 (Bfx_ClrBit_u32u8 s.Rcc.CR RCC_CR_HSEON)
              RCC_CR_HSEBYP) RCC_CR_HSEON
          else if c.OscConfig.HSEState = MCU_HSE_BYPASS then
            Bfx_SetBit_u32u8 (Bfx_SetBit_u32u8 (Bfx_ClrBit_u32u8 s.Rcc.CR RCC_CR_HSEON)
              RCC_CR_HSEBYP) RCC_CR_HSEON
          else
            Bfx_SetBit_u32u8 (Bfx_ClrBit_u32u8 s.Rcc.CR RCC_CR_HSEON) RCC_CR_HSEBYP } := by
  unfold Mcu_Arch_InitClock_Osc
  simp only [ht, Get_SysClk_eq, hc, if_true, ne_eq, not_false_eq_true]
  split_ifs <;> simp

/-- C14 (generalised Scenario A): for every register state whose current system-clock source
(CFGR bits 5:3) is not HSE, an HSE request processed by `Mcu_Arch_Init` or
`Mcu_Arch_InitClock` leaves CR bits 16 (HSEON) and 18 (HSEBYP) as: On gives 1, 0; Bypass gives
1, 1; Off or any other state value gives 0, 1.  For `Mcu_Arch_Init` every other bit of CR and
every other register, CFGR included, is unchanged. -/
theorem C14_HSE_request_table (s : Mcu_Hw) (cfg : Mcu_ConfigType)
    (ht : cfg.ClockConfig.OscConfig.OscillatorType = MCU_OSCILLATORTYPE_HSE)
    (hc : s.Rcc.CFGR / 8 % 8 ≠ MCU_SYSCLKSOURCE_HSE) :
    (cfg.ClockConfig.OscConfig.HSEState = MCU_HSE_ON →
      (Mcu_Arch_Init s cfg).Rcc.CR.testBit 16 = true ∧
      (Mcu_Arch_Init s cfg).Rcc.CR.testBit 18 = false ∧
      (Mcu_Arch_InitClock s cfg.ClockConfig).2.Rcc.CR.testBit 16 = true ∧
      (Mcu_Arch_InitClock s cfg.ClockConfig).2.Rcc.CR.testBit 18 = false) ∧
    (cfg.ClockConfig.OscConfig.HSEState = MCU_HSE_BYPASS →
      (Mcu_Arch_Init s cfg).Rcc.CR.testBit 16 = true ∧
      (Mcu_Arch_Init s cfg).Rcc.CR.testBit 18 = true ∧
      (Mcu_Arch_InitClock s cfg.ClockConfig).2.Rcc.CR.testBit 16 = true ∧
      (Mcu_Arch_InitClock s cfg.ClockConfig).2.Rcc.CR.testBit 18 = true) ∧
    (cfg.ClockConfig.OscConfig.HSEState ≠ MCU_HSE_ON →
      cfg.ClockConfig.OscConfig.HSEState ≠ MCU_HSE_BYPASS →
      (Mcu_Arch_Init s cfg).Rcc.CR.testBit 16 = false ∧
      (Mcu_Arch_Init s cfg).Rcc.CR.testBit 18 = true ∧
      (Mcu_Arch_InitClock s cfg.ClockConfig).2.Rcc.CR.testBit 16 = false ∧
      (Mcu_Arch_InitClock s cfg.ClockConfig).2.Rcc.CR.testBit 18 = true) ∧
    (∀ i, i < 32 → i ≠ 16 → i ≠ 18 →
      (Mcu_Arch_Init s cfg).Rcc.CR.testBit i = s.Rcc.CR.testBit i) ∧
    (Mcu_Arch_Init s cfg).Rcc.ICSCR = s.Rcc.ICSCR ∧
    (Mcu_Arch_Init s cfg).Rcc.CFGR = s.Rcc.CFGR ∧
    (Mcu_Arch_Init s cfg).Rcc.PLLCFGR = s.Rcc.PLLCFGR ∧
    (Mcu_Arch_Init s cfg).Rcc.BDCR = s.Rcc.BDCR ∧
    (Mcu_Arch_Init s cfg).Rcc.CSR = s.Rcc.CSR := by
  rw [InitClock_CR_testBit _ _ 16 (by decide) (by decide),
    InitClock_CR_testBit _ _ 18 (by decide) (by decide),
    InitClock_Osc_HSE_Rcc s cfg.ClockConfig ht hc, Init_HSE_Rcc s cfg ht hc]
  refine ⟨?_, ?_, ?_, ?_, rfl, rfl, rfl, rfl, rfl⟩
  · intro h
    simp [h, testBit_SetBit, testBit_ClrBit]
  · intro h
    simp [h, testBit_SetBit, testBit_ClrBit]
  · intro h1 h2
    simp [h1, h2, testBit_SetBit, testBit_ClrBit]
  · intro i hi h16 h18
    have e16 : ¬ (16 = i) := fun h => h16 h.symm
    have e18 : ¬ (18 = i) := fun h => h18 h.symm
    simp only []
    split_ifs <;> simp [testBit_SetBit, testBit_ClrBit, e16, e18, hi]

/-- The register block after `Mcu_Arch_Init` for an LSE request when LSE is not the current
system-clock source: only BDCR is written; the Off sequence clears LSEON and nothing else. -/
theorem Init_LSE_Rcc (s : Mcu_Hw) (cfg : Mcu_ConfigType)
    (ht : cfg.ClockConfig.OscConfig.OscillatorType = MCU_OSCILLATORTYPE_LSE)
    (hc : s.Rcc.CFGR / 8 % 8 ≠ MCU_SYSCLKSOURCE_LSE) :
    (Mcu_Arch_Init s cfg).Rcc =
      { s.Rcc with BDCR :=
          if cfg.ClockConfig.OscConfig.LSEState = MCU_LSE_ON then
            Bfx_SetBit_u32u8 (Bfx_ClrBit_u32u8 (Bfx_ClrBit_u32u8 s.Rcc.BDCR RCC_BDCR_LSEON)
              RCC_BDCR_LSEBYP) RCC_BDCR_LSEON
          else if cfg.ClockConfig.OscConfig.LSEState = MCU_LSE_BYPASS then
            Bfx_SetBit_u32u8 (Bfx_SetBit_u32u8 (Bfx_ClrBit_u32u8 s.Rcc.BDCR RCC_BDCR_LSEON)
              RCC_BDCR_LSEBYP) RCC_BDCR_LSEON
          else
            Bfx_ClrBit_u32u8 s.Rcc.BDCR RCC_BDCR_LSEON } := by
  unfold Mcu_Arch_Init
  simp only []
  rw [if_neg (by rw [ht]; decide), if_neg (by rw [ht]; decide), if_neg (by rw [ht]; decide),
    if_pos ht, if_pos (by rw [Get_SysClk_eq]; exact hc)]
  split_ifs <;> simp

/-- C15 (counterexample): from the reset state (current source HSI, BDCR = 0),
`Mcu_Arch_Init` with an LSE Off request leaves LSEBYP (BDCR bit 2) at 0: bypass is not set on
disable. -/
theorem C15_counterexample :
    (request_lse MCU_LSE_OFF).OscConfig.OscillatorType = MCU_OSCILLATORTYPE_LSE ∧
    hw_reset.Rcc.CFGR / 8 % 8 ≠ MCU_SYSCLKSOURCE_LSE ∧
    (Mcu_Arch_Init hw_reset (config_of (request_lse MCU_LSE_OFF))).Rcc.BDCR.testBit 0 = false ∧
    (Mcu_Arch_Init hw_reset (config_of (request_lse MCU_LSE_OFF))).Rcc.BDCR.testBit 2
      = false := by
  decide

/-- C15 (amended): for every register state whose current system-clock source (CFGR bits
5:3) is not LSE, `Mcu_Arch_Init` with oscillator type LSE leaves BDCR bits 0 (LSEON) and 2
(LSEBYP) as: LSEState On gives LSEON = 1, LSEBYP = 0; Bypass gives LSEON = 1, LSEBYP = 1; Off
gives LSEON = 0 and leaves LSEBYP at its value before the call. -/
theorem C15_LSE_request_table (s : Mcu_Hw) (cfg : Mcu_ConfigType)
    (ht : cfg.ClockConfig.OscConfig.OscillatorType = MCU_OSCILLATORTYPE_LSE)
    (hc : s.Rcc.CFGR / 8 % 8 ≠ MCU_SYSCLKSOURCE_LSE) :
    (cfg.ClockConfig.OscConfig.LSEState = MCU_LSE_ON →
      (Mcu_Arch_Init s cfg).Rcc.BDCR.testBit 0 = true ∧
      (Mcu_Arch_Init s cfg).Rcc.BDCR.testBit 2 = false) ∧
    (cfg.ClockConfig.OscConfig.LSEState = MCU_LSE_BYPASS →
      (Mcu_Arch_Init s cfg).Rcc.BDCR.testBit 0 = true ∧
      (Mcu_Arch_Init s cfg).Rcc.BDCR.testBit 2 = true) ∧
    (cfg.ClockConfig.OscConfig.LSEState = MCU_LSE_OFF →
      (Mcu_Arch_Init s cfg).Rcc.BDCR.testBit 0 = false ∧
      (Mcu_Arch_Init s cfg).Rcc.BDCR.testBit 2 = s.Rcc.BDCR.testBit 2) := by
  rw [Init_LSE_Rcc s cfg ht hc]
  refine ⟨?_, ?_, ?_⟩
  · intro h
    simp [-Nat.testBit_zero, h, testBit_SetBit, testBit_ClrBit]
  · intro h
    simp [-Nat.testBit_zero, h, testBit_SetBit, testBit_ClrBit]
  · intro h
    simp [-Nat.testBit_zero, h, testBit_SetBit, testBit_ClrBit]

/-! ## The internal RC oscillator (HSI) -/

theorem HSI_enum_valid :
    ∀ v ∈ MCU_HSI_DIVS, Validate_ValueInRange v MCU_HSI_DIV1 MCU_HSI_DIV128 = E_OK := by decide

theorem HSI_trim_facts :
    ∀ t, t < 128 → (t <<< MCU_HSICALIBRATION_OFFSET) % 2 ^ 32 = t <<< 8 ∧
      not_u32 (1 <<< RCC_CR_PLLON) &&& (t <<< 8) = t <<< 8 ∧
      (1 <<< RCC_CR_PLLON) &&& (t <<< 8) = 0 := by
  decide

/-- The register block after `Mcu_Arch_Init` for an HSI On request whose divider and trim
pass the validation: the divider is programmed in CR, the trim field of ICSCR is cleared and
the trim value is ORed into CR, then HSION is set. -/
theorem Init_HSI_on_Rcc (s : Mcu_Hw) (cfg : Mcu_ConfigType)
    (ht : cfg.ClockConfig.OscConfig.OscillatorType = MCU_OSCILLATORTYPE_HSI)
    (hs : cfg.ClockConfig.OscConfig.HSIState = MCU_HSI_ON)
    (vd : Validate_ValueInRange cfg.ClockConfig.OscConfig.HSIDivider MCU_HSI_DIV1
      MCU_HSI_DIV128 = E_OK)
    (vc : Validate_ValueInRange cfg.ClockConfig.OscConfig.HSICalibrationValue
      MCU_HSICALIBRATION_MIN_VALUE MCU_HSICALIBRATION_MAX_VALUE = E_OK) :
    (Mcu_Arch_Init s cfg).Rcc =
      { s.Rcc with
        CR := Bfx_SetBit_u32u8 (Bfx_SetBitMask_u32u32
          (Bfx_SetBitMask_u32u32 (Bfx_ClrBitMask_u32u32 s.Rcc.CR MCU_HSI_DIV_MASK)
            cfg.ClockConfig.OscConfig.HSIDivider)
          ((cfg.ClockConfig.OscConfig.HSICalibrationValue <<< MCU_HSICALIBRATION_OFFSET)
            % 2 ^ 32)) RCC_CR_HSION,
        ICSCR := Bfx_ClrBitMask_u32u32 s.Rcc.ICSCR MCU_HSICALIBRATION_MASK } := by
  unfold Mcu_Arch_Init
  simp only []
  rw [if_neg (by rw [ht]; decide), if_pos ht, if_pos hs, if_pos vd, if_pos vc]
  simp

/-- The register block after the oscillator part of `Mcu_Arch_InitClock` for an HSI On
request whose divider and trim pass the validation: the same as after `Mcu_Arch_Init`. -/
theorem InitClock_Osc_HSI_on_Rcc (s : Mcu_Hw) (c : Mcu_ClkConfigType)
    (ht : c.OscConfig.OscillatorType = MCU_OSCILLATORTYPE_HSI)
    (hs : c.OscConfig.HSIState = MCU_HSI_ON)
    (vd : Validate_ValueInRange c.OscConfig.HSIDivider MCU_HSI_DIV1 MCU_HSI_DIV128 = E_OK)
    (vc : Validate_ValueInRange c.OscConfig.HSICalibrationValue
      MCU_HSICALIBRATION_MIN_VALUE MCU_HSICALIBRATION_MAX_VALUE = E_OK) :
    (Mcu_Arch_InitClock_Osc s c).2.Rcc =
      { s.Rcc with
        CR := Bfx_SetBit_u32u8 (Bfx_SetBitMask_u32u32
          (Bfx_SetBitMask_u32u32 (Bfx_ClrBitMask_u32u32 s.Rcc.CR MCU_HSI_DIV_MASK)
            c.OscConfig.HSIDivider)
          ((c.OscConfig.HSICalibrationValue <<< MCU_HSICALIBRATION_OFFSET) % 2 ^ 32))
          RCC_CR_HSION,
        ICSCR := Bfx_ClrBitMask_u32u32 s.Rcc.ICSCR MCU_HSICALIBRATION_MASK } := by
  unfold Mcu_Arch_InitClock_Osc
  simp only []
  rw [if_neg (by rw [ht]; decide), if_pos ht, if_pos hs, if_pos vd, if_pos vc]
  simp

/-- A set `k` of CR bits that does not contain PLLON (bit 24) has, after
`Mcu_Arch_InitClock`, the value left by the oscillator part. -/
theorem InitClock_CR_and (s : Mcu_Hw) (c : Mcu_ClkConfigType) (k : Nat)
    (hk : not_u32 (1 <<< RCC_CR_PLLON) &&& k = k) (hb : (1 <<< RCC_CR_PLLON) &&& k = 0) :
    (Mcu_Arch_InitClock s c).2.Rcc.CR &&& k = (Mcu_Arch_InitClock_Osc s c).2.Rcc.CR &&& k := by
  rw [InitClock_CR]
  split_ifs
  · rw [setBit_frame _ _ _ hb]
    unfold Bfx_ClrBit_u32u8
    rw [Nat.and_assoc, hk]
  · unfold Bfx_ClrBit_u32u8
    rw [Nat.and_assoc, hk]

/-- What an HSI On request with a trim `t` in 0..127 does to the trim: after `Mcu_Arch_Init`
and after `Mcu_Arch_InitClock` the trim field of ICSCR (mask 0x7F00) is 0, and every 1 bit of
`t << 8` is set in CR. -/
theorem HSI_on_trim_goes_to_CR (s : Mcu_Hw) (cfg : Mcu_ConfigType)
    (ht : cfg.ClockConfig.OscConfig.OscillatorType = MCU_OSCILLATORTYPE_HSI)
    (hs : cfg.ClockConfig.OscConfig.HSIState = MCU_HSI_ON)
    (hd : cfg.ClockConfig.OscConfig.HSIDivider ∈ MCU_HSI_DIVS)
    (hcal : cfg.ClockConfig.OscConfig.HSICalibrationValue ≤ 127) :
    (Mcu_Arch_Init s cfg).Rcc.ICSCR &&& MCU_HSICALIBRATION_MASK = 0 ∧
    (Mcu_Arch_Init s cfg).Rcc.CR &&& (cfg.ClockConfig.OscConfig.HSICalibrationValue <<< 8) =
      cfg.ClockConfig.OscConfig.HSICalibrationValue <<< 8 ∧
    (Mcu_Arch_InitClock s cfg.ClockConfig).2.Rcc.ICSCR &&& MCU_HSICALIBRATION_MASK = 0 ∧
    (Mcu_Arch_InitClock s cfg.ClockConfig).2.Rcc.CR &&&
        (cfg.ClockConfig.OscConfig.HSICalibrationValue <<< 8) =
      cfg.ClockConfig.OscConfig.HSICalibrationValue <<< 8 := by
  have vd := HSI_enum_valid _ hd
  have vc : Validate_ValueInRange cfg.ClockConfig.OscConfig.HSICalibrationValue
      MCU_HSICALIBRATION_MIN_VALUE MCU_HSICALIBRATION_MAX_VALUE = E_OK := by
    rw [ValueInRange_iff]
    simp only [MCU_HSICALIBRATION_MIN_VALUE, MCU_HSICALIBRATION_MAX_VALUE]
    omega
  obtain ⟨f1, f2, f3⟩ := HSI_trim_facts cfg.ClockConfig.OscConfig.HSICalibrationValue
    (by omega)
  have hclr : ∀ x, Bfx_ClrBitMask_u32u32 x MCU_HSICALIBRATION_MASK &&& MCU_HSICALIBRATION_MASK
      = 0 := by
    intro x
    unfold Bfx_ClrBitMask_u32u32
    rw [Nat.and_assoc, show not_u32 MCU_HSICALIBRATION_MASK &&& MCU_HSICALIBRATION_MASK = 0
      from by decide, Nat.and_zero]
  have hset : ∀ y, Bfx_SetBit_u32u8 (Bfx_SetBitMask_u32u32 y
      ((cfg.ClockConfig.OscConfig.HSICalibrationValue <<< MCU_HSICALIBRATION_OFFSET) % 2 ^ 32))
      RCC_CR_HSION &&& (cfg.ClockConfig.OscConfig.HSICalibrationValue <<< 8) =
      cfg.ClockConfig.OscConfig.HSICalibrationValue <<< 8 := by
    intro y
    unfold Bfx_SetBit_u32u8 Bfx_SetBitMask_u32u32
    rw [f1]
    apply Nat.eq_of_testBit_eq
    intro i
    simp only [Nat.testBit_or, Nat.testBit_and]
    cases (cfg.ClockConfig.OscConfig.HSICalibrationValue <<< 8).testBit i <;> simp
  rw [(InitClock_BDCR_CSR_ICSCR _ _).2.2, InitClock_CR_and _ _ _ f2 f3,
    InitClock_Osc_HSI_on_Rcc s cfg.ClockConfig ht hs vd vc, Init_HSI_on_Rcc s cfg ht hs vd vc]
  exact ⟨hclr _, hset _, hclr _, hset _⟩

/-- C16 (evaluation at the failing input): from the reset state, an HSI On request with
divider `MCU_HSI_DIV1` and trim 72 leaves the divider field of CR (mask 0x3800) at the
encoding of `MCU_HSI_DIV2`, after `Mcu_Arch_Init` and after `Mcu_Arch_InitClock`: bit 3 of
the trim lands on bit 11 of CR. -/
theorem C16_HSI_divider_overwritten_by_trim :
    MCU_HSI_DIV1 ∈ MCU_HSI_DIVS ∧
    (Mcu_Arch_Init hw_reset (config_of (request_hsi_on MCU_HSI_DIV1 72))).Rcc.CR
      &&& MCU_HSI_DIV_MASK = MCU_HSI_DIV2 ∧
    (Mcu_Arch_InitClock hw_reset (request_hsi_on MCU_HSI_DIV1 72)).2.Rcc.CR
      &&& MCU_HSI_DIV_MASK = MCU_HSI_DIV2 ∧
    (Mcu_Arch_Init hw_reset (config_of (request_hsi_on MCU_HSI_DIV1 72))).Rcc.CR.testBit 8
      = true := by
  decide

/-- C17 (evaluation at the failing input): on a state whose ICSCR trim field holds 64, an
HSI On request with the trim `MCU_HSICALIBRATION_DEFAULT` (64) leaves the trim field of ICSCR
at 0, after `Mcu_Arch_Init` and after `Mcu_Arch_InitClock`, and changes CR: bit 14 of CR goes
from 0 to 1. -/
theorem C17_trim_written_to_CR :
    hw_trimmed.Rcc.ICSCR &&& MCU_HSICALIBRATION_MASK = 64 <<< 8 ∧
    (Mcu_Arch_Init hw_trimmed (config_of (request_hsi_on MCU_HSI_DIV1
      MCU_HSICALIBRATION_DEFAULT))).Rcc.ICSCR &&& MCU_HSICALIBRATION_MASK = 0 ∧
    (Mcu_Arch_InitClock hw_trimmed (request_hsi_on MCU_HSI_DIV1
      MCU_HSICALIBRATION_DEFAULT)).2.Rcc.ICSCR &&& MCU_HSICALIBRATION_MASK = 0 ∧
    hw_trimmed.Rcc.CR.testBit 14 = false ∧
    (Mcu_Arch_Init hw_trimmed (config_of (request_hsi_on MCU_HSI_DIV1
      MCU_HSICALIBRATION_DEFAULT))).Rcc.CR.testBit 14 = true ∧
    (Mcu_Arch_InitClock hw_trimmed (request_hsi_on MCU_HSI_DIV1
      MCU_HSICALIBRATION_DEFAULT)).2.Rcc.CR.testBit 14 = true := by
  decide

/-! ## HSI48 and LSI : the state field that is read -/

/-- For an HSI48 request, CR bit 22 (HSI48ON) after `Mcu_Arch_Init` follows the request's
`HSI48State`, and after `Mcu_Arch_InitClock` it follows the request's `HSIState`. -/
theorem HSI48_request_bit (s : Mcu_Hw) (cfg : Mcu_ConfigType)
    (ht : cfg.ClockConfig.OscConfig.OscillatorType = MCU_OSCILLATORTYPE_HSI48) :
    (Mcu_Arch_Init s cfg).Rcc.CR.testBit 22 =
      decide (cfg.ClockConfig.OscConfig.HSI48State = MCU_HSI48_ON) ∧
    (Mcu_Arch_InitClock s cfg.ClockConfig).2.Rcc.CR.testBit 22 =
      decide (cfg.ClockConfig.OscConfig.HSIState = MCU_HSI48_ON) := by
  constructor
  · unfold Mcu_Arch_Init
    simp only []
    rw [if_neg (by rw [ht]; decide), if_neg (by rw [ht]; decide), if_pos ht]
    split_ifs with h <;> simp [h, testBit_SetBit, testBit_ClrBit]
  · rw [InitClock_CR_testBit _ _ 22 (by decide) (by decide)]
    unfold Mcu_Arch_InitClock_Osc
    simp only []
    rw [if_neg (by rw [ht]; decide), if_neg (by rw [ht]; decide), if_pos ht]
    split_ifs with h <;> simp [h, testBit_SetBit, testBit_ClrBit]

/-- C18 (evaluation at the failing input): from the reset state, a request with oscillator
type HSI48 and `HSI48State` On (every other state field Off) leaves CR bit 22 (HSI48ON) at 0
after `Mcu_Arch_InitClock`, while `Mcu_Arch_Init` sets it for the same request. -/
theorem C18_HSI48State_not_read :
    request_hsi48_on.OscConfig.OscillatorType = MCU_OSCILLATORTYPE_HSI48 ∧
    request_hsi48_on.OscConfig.HSI48State = MCU_HSI48_ON ∧
    (Mcu_Arch_InitClock hw_reset request_hsi48_on).2.Rcc.CR.testBit 22 = false ∧
    (Mcu_Arch_Init hw_reset (config_of request_hsi48_on)).Rcc.CR.testBit 22 = true := by
  decide

/-- For an LSI request when LSI is not the current system-clock source, CSR bit 0 (LSION)
after `Mcu_Arch_Init` follows the request's `LSEState`, and after `Mcu_Arch_InitClock` it
follows the request's `HSIState`. -/
theorem LSI_request_bit (s : Mcu_Hw) (cfg : Mcu_ConfigType)
    (ht : cfg.ClockConfig.OscConfig.OscillatorType = MCU_OSCILLATORTYPE_LSI)
    (hc : s.Rcc.CFGR / 8 % 8 ≠ MCU_SYSCLKSOURCE_LSI) :
    (Mcu_Arch_Init s cfg).Rcc.CSR.testBit 0 =
      decide (cfg.ClockConfig.OscConfig.LSEState = MCU_LSI_ON) ∧
    (Mcu_Arch_InitClock s cfg.ClockConfig).2.Rcc.CSR.testBit 0 =
      decide (cfg.ClockConfig.OscConfig.HSIState = MCU_LSI_ON) := by
  constructor
  · unfold Mcu_Arch_Init
    simp only []
    rw [if_neg (by rw [ht]; decide), if_neg (by rw [ht]; decide), if_neg (by rw [ht]; decide),
      if_neg (by rw [ht]; decide), if_pos ht, if_pos (by rw [Get_SysClk_eq]; exact hc)]
    split_ifs with h <;> simp [-Nat.testBit_zero, h, testBit_SetBit, testBit_ClrBit]
  · rw [(InitClock_BDCR_CSR_ICSCR _ _).2.1]
    unfold Mcu_Arch_InitClock_Osc
    simp only []
    rw [if_neg (by rw [ht]; decide), if_neg (by rw [ht]; decide), if_neg (by rw [ht]; decide),
      if_neg (by rw [ht]; decide), if_pos ht, if_pos (by rw [Get_SysClk_eq]; exact hc)]
    split_ifs with h <;> simp [-Nat.testBit_zero, h, testBit_SetBit, testBit_ClrBit]

/-- C19 (evaluation at the failing input): from the reset state (current source HSI, LSI
off), a request with oscillator type LSI and `LSIState` On (every other state field Off)
leaves CSR bit 0 (LSION) at 0 after `Mcu_Arch_Init` and after `Mcu_Arch_InitClock`. -/
theorem C19_LSIState_not_read :
    request_lsi_on.OscConfig.OscillatorType = MCU_OSCILLATORTYPE_LSI ∧
    request_lsi_on.OscConfig.LSIState = MCU_LSI_ON ∧
    hw_reset.Rcc.CFGR / 8 % 8 ≠ MCU_SYSCLKSOURCE_LSI ∧
    (Mcu_Arch_Init hw_reset (config_of request_lsi_on)).Rcc.CSR.testBit 0 = false ∧
    (Mcu_Arch_InitClock hw_reset request_lsi_on).2.Rcc.CSR.testBit 0 = false := by
  decide

/-! ## Mcu_Arch_InitClock : the AHB divider -/

theorem APB1_enum_AHB_bits : ∀ v ∈ MCU_APB1_DIVS, v &&& MCU_AHB_DIV_MASK = 0 := by decide

theorem SysClockSource_AHB_bits : ∀ v, v < 5 → v &&& MCU_AHB_DIV_MASK = 0 := by decide

/-- The AHB divider field of CFGR (mask 0xF00) after `Mcu_Arch_InitClock`, for an APB1 value
that is an enumerated encoding or rejected: the requested AHB value when it lies between
`MCU_AHB_DIV128` and `MCU_AHB_DIV512`, the old field otherwise. -/
theorem InitClock_AHB_field (s : Mcu_Hw) (c : Mcu_ClkConfigType)
    (hapb : APB1_enum_or_rejected c.ClkConfig.APB1ClockDivider) :
    (Mcu_Arch_InitClock s c).2.Rcc.CFGR &&& MCU_AHB_DIV_MASK =
      if Validate_ValueInRange c.ClkConfig.AHBClockDivider MCU_AHB_DIV128 MCU_AHB_DIV512
          = E_OK then
        c.ClkConfig.AHBClockDivider &&& MCU_AHB_DIV_MASK
      else s.Rcc.CFGR &&& MCU_AHB_DIV_MASK := by
  rw [InitClock_CFGR]
  unfold Clk_CFGR
  simp only []
  rw [ite_clr_set_frame _ _ _ _ _
    (fun hv => ⟨by decide, hapb.elim (APB1_enum_AHB_bits _) (fun hn => absurd hv hn)⟩)]
  by_cases hv : Validate_ValueInRange c.ClkConfig.AHBClockDivider MCU_AHB_DIV128
      MCU_AHB_DIV512 = E_OK
  · rw [if_pos hv, if_pos hv, clr_set_value _ _ _ _ (by decide)]
  · rw [if_neg hv, if_neg hv]
    exact ite_clr_set_frame _ _ _ _ _ (fun hp => ⟨by decide,
      SysClockSource_AHB_bits _ (Nat.lt_succ_of_le
        (SysClockSource_ready_le _ _ ((applySettingFlag_eq _ _).1 hp)))⟩)

/-- C20 (evaluation at the failing input): the documented encoding `MCU_AHB_DIV2` is
rejected by the validation, whose lower bound is `MCU_AHB_DIV128`; from the reset state the
AHB divider field of CFGR stays 0 after `Mcu_Arch_InitClock` instead of becoming
`MCU_AHB_DIV2`. -/
theorem C20_AHB_DIV2_rejected :
    MCU_AHB_DIV2 ∈ MCU_AHB_DIVS ∧
    Validate_ValueInRange MCU_AHB_DIV2 MCU_AHB_DIV128 MCU_AHB_DIV512 = E_NOT_OK ∧
    hw_reset.Rcc.CFGR &&& MCU_AHB_DIV_MASK = 0 ∧
    (Mcu_Arch_InitClock hw_reset (request_ahb MCU_AHB_DIV2)).2.Rcc.CFGR &&& MCU_AHB_DIV_MASK
      = 0 ∧
    (Mcu_Arch_InitClock hw_reset (request_ahb MCU_AHB_DIV256)).2.Rcc.CFGR &&& MCU_AHB_DIV_MASK
      = MCU_AHB_DIV256 := by
  decide

/-! ## Instances at concrete inputs (continued) -/

/-- C12 (amended) at a concrete input: M = DIV1 and R = `MCU_PLLR_DIV4` are encodings, P and
Q are rejected; the bits outside the programmed fields keep their values. -/
theorem C12_witness :
    PLLM_enum_or_rejected request_R_div4.OscConfig.PLL.PllM ∧
    PLLP_enum_or_rejected request_R_div4.OscConfig.PLL.PllP ∧
    PLLQ_enum_or_rejected request_R_div4.OscConfig.PLL.PllQ ∧
    PLLR_enum_or_rejected request_R_div4.OscConfig.PLL.PllR ∧
    (Mcu_Arch_InitClock hw_hse_ready request_R_div4).2.Rcc.PLLCFGR
        &&& PLLCFGR_unprogrammed_bits =
      hw_hse_ready.Rcc.PLLCFGR &&& PLLCFGR_unprogrammed_bits :=
  ⟨Or.inl (by decide), Or.inr (by decide), Or.inr (by decide), Or.inl (by decide),
    (C12_PLLCFGR_changed_only_in_fields hw_hse_ready request_R_div4 (Or.inl (by decide))
      (Or.inr (by decide)) (Or.inr (by decide)) (Or.inl (by decide))).2.1⟩

/-- C13 (amended) at concrete inputs, on a state whose source field holds 2: source NotValid
leaves the field at 2, source None makes it 0, source HSE (Scenario B) makes it 3. -/
theorem C13_witness :
    (Mcu_Arch_InitClock hw_hse_ready
        (request_pll { PllSource := MCU_PLL_SOURCE_NOT_VALID,
                       PllState := MCU_PLL_STATE_ENABLED, PllM := MCU_PLLM_DIV1, PLLN := 16,
                       PllP := 0, PllQ := 0, PllR := 0 })).2.Rcc.PLLCFGR
        &&& MCU_PLL_SOURCE_MASK = 2 ∧
    (Mcu_Arch_InitClock hw_hse_ready request_source_none).2.Rcc.PLLCFGR
        &&& MCU_PLL_SOURCE_MASK = MCU_PLL_SOURCE_NONE ∧
    (Mcu_Arch_InitClock hw_hse_ready request_scenario_B).2.Rcc.PLLCFGR
        &&& MCU_PLL_SOURCE_MASK = MCU_PLL_SOURCE_HSE :=
  ⟨((C13_source_field hw_hse_ready
        (request_pll { PllSource := MCU_PLL_SOURCE_NOT_VALID,
                       PllState := MCU_PLL_STATE_ENABLED, PllM := MCU_PLLM_DIV1, PLLN := 16,
                       PllP := 0, PllQ := 0, PllR := 0 })
        rfl (Or.inl (by decide)) (Or.inr (by decide)) (Or.inr (by decide))
        (Or.inr (by decide))).1 (Or.inl rfl)).trans (by decide),
    (C13_source_field hw_hse_ready request_source_none rfl (Or.inl (by decide))
      (Or.inr (by decide)) (Or.inr (by decide)) (Or.inr (by decide))).2 (Or.inl rfl),
    (C13_source_field hw_hse_ready request_scenario_B rfl (Or.inl (by decide))
      (Or.inl (by decide)) (Or.inr (by decide)) (Or.inr (by decide))).2 (Or.inr (Or.inr rfl))⟩

/-- C14 at the input of Scenario A: the system runs from HSI and HSE is requested On; HSEON
becomes 1, HSEBYP 0, and `Mcu_Arch_Init` leaves CFGR as it was. -/
theorem C14_witness :
    (request_hse MCU_HSE_ON).OscConfig.OscillatorType = MCU_OSCILLATORTYPE_HSE ∧
    hw_reset.Rcc.CFGR / 8 % 8 ≠ MCU_SYSCLKSOURCE_HSE ∧
    (Mcu_Arch_Init hw_reset (config_of (request_hse MCU_HSE_ON))).Rcc.CR.testBit 16 = true ∧
    (Mcu_Arch_Init hw_reset (config_of (request_hse MCU_HSE_ON))).Rcc.CR.testBit 18 = false ∧
    (Mcu_Arch_InitClock hw_reset (request_hse MCU_HSE_ON)).2.Rcc.CR.testBit 16 = true ∧
    (Mcu_Arch_InitClock hw_reset (request_hse MCU_HSE_ON)).2.Rcc.CR.testBit 18 = false ∧
    (Mcu_Arch_Init hw_reset (config_of (request_hse MCU_HSE_ON))).Rcc.CFGR
      = hw_reset.Rcc.CFGR := by
  have h := C14_HSE_request_table hw_reset (config_of (request_hse MCU_HSE_ON)) rfl
    (by decide)
  exact ⟨rfl, by decide, (h.1 rfl).1, (h.1 rfl).2.1, (h.1 rfl).2.2.1, (h.1 rfl).2.2.2,
    h.2.2.2.2.2.1⟩

/-- C15 (amended) at concrete inputs, on a state running from HSI with LSE on and not
bypassed: On and Bypass set LSEON and program LSEBYP, Off clears LSEON and leaves LSEBYP
at 0. -/
theorem C15_witness :
    ((Mcu_Arch_Init (hw_running_from 0) (config_of (request_lse MCU_LSE_ON))).Rcc.BDCR.testBit 0
        = true ∧
      (Mcu_Arch_Init (hw_running_from 0) (config_of (request_lse MCU_LSE_ON))).Rcc.BDCR.testBit 2
        = false) ∧
    ((Mcu_Arch_Init (hw_running_from 0)
        (config_of (request_lse MCU_LSE_BYPASS))).Rcc.BDCR.testBit 0 = true ∧
      (Mcu_Arch_Init (hw_running_from 0)
        (config_of (request_lse MCU_LSE_BYPASS))).Rcc.BDCR.testBit 2 = true) ∧
    ((Mcu_Arch_Init (hw_running_from 0)
        (config_of (request_lse MCU_LSE_OFF))).Rcc.BDCR.testBit 0 = false ∧
      (Mcu_Arch_Init (hw_running_from 0)
        (config_of (request_lse MCU_LSE_OFF))).Rcc.BDCR.testBit 2 =
        (hw_running_from 0).Rcc.BDCR.testBit 2) :=
  ⟨(C15_LSE_request_table (hw_running_from 0) (config_of (request_lse MCU_LSE_ON)) rfl
      (by decide)).1 rfl,
    (C15_LSE_request_table (hw_running_from 0) (config_of (request_lse MCU_LSE_BYPASS)) rfl
      (by decide)).2.1 rfl,
    (C15_LSE_request_table (hw_running_from 0) (config_of (request_lse MCU_LSE_OFF)) rfl
      (by decide)).2.2 rfl⟩

/-! ## The APB1 divider -/

theorem and_eq_zero_of_lt_two_pow (v k n : Nat) (hv : v < 2 ^ n) (hk : k % 2 ^ n = 0) :
    v &&& k = 0 := by
  apply Nat.eq_of_testBit_eq
  intro i
  rw [Nat.testBit_and, Nat.zero_testBit]
  rcases Nat.lt_or_ge i n with h | h
  · have hk2 : (k % 2 ^ n).testBit i = false := by rw [hk, Nat.zero_testBit]
    rw [Nat.testBit_mod_two_pow] at hk2
    simp only [h, decide_True, Bool.true_and] at hk2
    rw [hk2, Bool.and_false]
  · rw [Nat.testBit_lt_two_pow (lt_of_lt_of_le hv (Nat.pow_le_pow_right (by norm_num) h)),
      Bool.false_and]

theorem InitClock_APB1_field_kept (s : Mcu_Hw) (c : Mcu_ClkConfigType)
    (h : Validate_ValueInRange c.ClkConfig.APB1ClockDivider MCU_APB1_DIV1 MCU_APB1_DIV16 ≠ E_OK) :
    (Mcu_Arch_InitClock s c).2.Rcc.CFGR &&& MCU_APB1_DIV_MASK =
      s.Rcc.CFGR &&& MCU_APB1_DIV_MASK := by
  rw [InitClock_CFGR]
  unfold Clk_CFGR
  simp only []
  rw [if_neg h]
  rw [ite_clr_set_frame, ite_clr_set_frame]
  · intro hf
    have h4 := SysClockSource_ready_le _ _ ((applySettingFlag_eq _ _).1 hf)
    exact ⟨by decide, and_eq_zero_of_lt_two_pow _ _ 12 (by omega) (by decide)⟩
  · intro hv
    have h2 : c.ClkConfig.AHBClockDivider ≤ 0xF00 := ((ValueInRange_iff _ _ _).1 hv).2
    exact ⟨by decide, and_eq_zero_of_lt_two_pow _ _ 12 (by omega) (by decide)⟩

theorem APB1_enum_valid :
    ∀ v ∈ MCU_APB1_DIVS, Validate_ValueInRange v MCU_APB1_DIV1 MCU_APB1_DIV16 = E_OK ∧
      v &&& MCU_APB1_DIV_MASK = v := by decide

theorem InitClock_APB1_field_set (s : Mcu_Hw) (c : Mcu_ClkConfigType)
    (h : c.ClkConfig.APB1ClockDivider ∈ MCU_APB1_DIVS) :
    (Mcu_Arch_InitClock s c).2.Rcc.CFGR &&& MCU_APB1_DIV_MASK =
      c.ClkConfig.APB1ClockDivider := by
  rw [InitClock_CFGR]
  unfold Clk_CFGR
  simp only []
  rw [if_pos (APB1_enum_valid _ h).1, clr_set_value _ _ _ _ (by decide)]
  exact (APB1_enum_valid _ h).2

/-- C21: the APB1 divider of `Mcu_Arch_InitClock`.  For every machine state and every
request: if `APB1ClockDivider` is one of the five encodings `MCU_APB1_DIV1` ..
`MCU_APB1_DIV16`, the APB1 field of CFGR (mask 0x7000) after the call equals that encoding,
whatever the mux and the AHB step did; if `APB1ClockDivider` is below `MCU_APB1_DIV1` or
above `MCU_APB1_DIV16`, the APB1 field is the one found before the call. -/
theorem C21_APB1_field (s : Mcu_Hw) (c : Mcu_ClkConfigType) :
    (c.ClkConfig.APB1ClockDivider ∈ MCU_APB1_DIVS →
      (Mcu_Arch_InitClock s c).2.Rcc.CFGR &&& 0x7000 = c.ClkConfig.APB1ClockDivider) ∧
    ((c.ClkConfig.APB1ClockDivider < MCU_APB1_DIV1 ∨
        MCU_APB1_DIV16 < c.ClkConfig.APB1ClockDivider) →
      (Mcu_Arch_InitClock s c).2.Rcc.CFGR &&& 0x7000 = s.Rcc.CFGR &&& 0x7000 ∧
      ∀ i, 12 ≤ i → i ≤ 14 →
        (Mcu_Arch_InitClock s c).2.Rcc.CFGR.testBit i = s.Rcc.CFGR.testBit i) := by
  refine ⟨InitClock_APB1_field_set s c, fun h => ?_⟩
  have hr : Validate_ValueInRange c.ClkConfig.APB1ClockDivider MCU_APB1_DIV1 MCU_APB1_DIV16
      ≠ E_OK := by
    rw [Ne, ValueInRange_iff]
    omega
  have hk := InitClock_APB1_field_kept s c hr
  refine ⟨hk, fun i h1 h2 => ?_⟩
  apply testBit_eq_of_and_mask_eq _ _ _ _ hk
  have : i = 12 ∨ i = 13 ∨ i = 14 := by omega
  rcases this with h | h | h <;> subst h <;> decide

/-- C21 at concrete inputs: the request with `MCU_APB1_DIV1` leaves that encoding in the
APB1 field; the request with the APB1 value 0, below `MCU_APB1_DIV1`, leaves the field of a
state running from HSE as found. -/
theorem C21_witness :
    (request_hse_sysclk.ClkConfig.APB1ClockDivider ∈ MCU_APB1_DIVS ∧
      (Mcu_Arch_InitClock hw_hse_ready request_hse_sysclk).2.Rcc.CFGR &&& 0x7000
        = MCU_APB1_DIV1) ∧
    (request_none.ClkConfig.APB1ClockDivider < MCU_APB1_DIV1 ∧
      (Mcu_Arch_InitClock (hw_running_from 1) request_none).2.Rcc.CFGR &&& 0x7000
        = (hw_running_from 1).Rcc.CFGR &&& 0x7000) :=
  ⟨⟨by decide, (C21_APB1_field hw_hse_ready request_hse_sysclk).1 (by decide)⟩,
    ⟨by decide, ((C21_APB1_field (hw_running_from 1) request_none).2
      (Or.inl (by decide))).1⟩⟩

/-! ## The stored PLL status -/

theorem GetPllStatus_PllStatus (s : Mcu_Hw) :
    (Mcu_Arch_GetPllStatus s).2.PllStatus =
      if s.Rcc.CR.testBit 25 = true then MCU_PLL_LOCKED else MCU_PLL_UNLOCKED := by
  unfold Mcu_Arch_GetPllStatus
  simp only [STD_ACTIVE, Bfx_GetBit_eq_one_iff, RCC_CR_PLLRDY]
  split_ifs <;> rfl

theorem GetPllStatus_fst (s : Mcu_Hw) :
    (Mcu_Arch_GetPllStatus s).1 = (Mcu_Arch_GetPllStatus s).2.PllStatus := rfl

theorem GetPllStatus_Rcc (s : Mcu_Hw) : (Mcu_Arch_GetPllStatus s).2.Rcc = s.Rcc := by
  unfold Mcu_Arch_GetPllStatus
  simp only []
  split_ifs <;> rfl

theorem DistributePllClock_PllStatus (s : Mcu_Hw) :
    (Mcu_Arch_DistributePllClock s).2.PllStatus =
      if s.Rcc.CR.testBit 25 = true then MCU_PLL_LOCKED else s.PllStatus := by
  unfold Mcu_Arch_DistributePllClock
  simp only [STD_ACTIVE, Bfx_GetBit_eq_one_iff, RCC_CR_PLLRDY]
  split_ifs <;> rfl

theorem Init_PllStatus (s : Mcu_Hw) (ConfigPtr : Mcu_ConfigType) :
    (Mcu_Arch_Init s ConfigPtr).PllStatus = s.PllStatus := by
  unfold Mcu_Arch_Init
  simp only []
  split_ifs <;> simp


/-- C24 (counterexample): on the state after reset with the stored status Locked and CR
bit 25 at 0, `Mcu_Arch_GetPllStatus` leaves the stored status equal to Unlocked. -/
theorem C24_counterexample :
    ({ hw_reset with PllStatus := MCU_PLL_LOCKED } : Mcu_Hw).PllStatus = MCU_PLL_LOCKED ∧
    (Mcu_Arch_GetPllStatus { hw_reset with PllStatus := MCU_PLL_LOCKED }).2.PllStatus
      = MCU_PLL_UNLOCKED := by
  decide

/-- C24 (amended): the stored PllStatus becomes `MCU_PLL_UNLOCKED` through
`Mcu_Arch_InitClock` exactly when the PLL state is Enabled, and through
`Mcu_Arch_GetPllStatus` exactly when CR bit 25 (PLLRDY) is 0.  For every machine state whose
stored status is Locked or Undefined, neither `Mcu_Arch_DistributePllClock` nor
`Mcu_Arch_Init` leaves the stored status equal to Unlocked. -/
theorem C24_PllStatus_unlocked (s : Mcu_Hw) (c : Mcu_ClkConfigType) (ConfigPtr : Mcu_ConfigType)
    (h : s.PllStatus = MCU_PLL_LOCKED ∨ s.PllStatus = MCU_PLL_STATUS_UNDEFINED) :
    (Mcu_Arch_DistributePllClock s).2.PllStatus ≠ MCU_PLL_UNLOCKED ∧
    (Mcu_Arch_Init s ConfigPtr).PllStatus ≠ MCU_PLL_UNLOCKED ∧
    ((Mcu_Arch_GetPllStatus s).2.PllStatus = MCU_PLL_UNLOCKED ↔ s.Rcc.CR.testBit 25 = false) ∧
    ((Mcu_Arch_InitClock s c).2.PllStatus = MCU_PLL_UNLOCKED ↔
      c.OscConfig.PLL.PllState = MCU_PLL_STATE_ENABLED) := by
  refine ⟨?_, ?_, ?_, ?_⟩
  · rw [DistributePllClock_PllStatus]
    split_ifs
    · decide
    · rcases h with h | h <;> rw [h] <;> decide
  · rw [Init_PllStatus]
    rcases h with h | h <;> rw [h] <;> decide
  · rw [GetPllStatus_PllStatus]
    cases s.Rcc.CR.testBit 25 <;> simp
  · rw [InitClock_PllStatus]
    split_ifs with hp <;> simp [hp]

/-- C24 (amended) on the state after reset, whose stored status is Undefined and whose
CR bit 25 is 0: the distribute and init services keep the status away from Unlocked, the
status query stores Unlocked. -/
theorem C24_witness :
    (hw_reset.PllStatus = MCU_PLL_LOCKED ∨ hw_reset.PllStatus = MCU_PLL_STATUS_UNDEFINED) ∧
    (Mcu_Arch_DistributePllClock hw_reset).2.PllStatus ≠ MCU_PLL_UNLOCKED ∧
    (Mcu_Arch_Init hw_reset (config_of request_none)).PllStatus ≠ MCU_PLL_UNLOCKED ∧
    (Mcu_Arch_GetPllStatus hw_reset).2.PllStatus = MCU_PLL_UNLOCKED :=
  have h := C24_PllStatus_unlocked hw_reset request_none (config_of request_none)
    (Or.inr rfl)
  ⟨Or.inr rfl, h.1, h.2.1, h.2.2.1.2 (by decide)⟩

/-- C25: for every machine state, `Mcu_Arch_GetPllStatus` returns `MCU_PLL_LOCKED` if CR
bit 25 (PLLRDY) is 1 and `MCU_PLL_UNLOCKED` otherwise, stores the returned value as the new
PllStatus, never returns `MCU_PLL_STATUS_UNDEFINED`, and writes no register. -/
theorem C25_GetPllStatus (s : Mcu_Hw) :
    (Mcu_Arch_GetPllStatus s).1 =
      (if s.Rcc.CR.testBit 25 = true then MCU_PLL_LOCKED else MCU_PLL_UNLOCKED) ∧
    (Mcu_Arch_GetPllStatus s).2.PllStatus = (Mcu_Arch_GetPllStatus s).1 ∧
    (Mcu_Arch_GetPllStatus s).1 ≠ MCU_PLL_STATUS_UNDEFINED ∧
    (Mcu_Arch_GetPllStatus s).2.Rcc = s.Rcc ∧
    (Mcu_Arch_GetPllStatus s).2.trace = s.trace := by
  refine ⟨?_, rfl, ?_, GetPllStatus_Rcc s, ?_⟩
  · rw [GetPllStatus_fst, GetPllStatus_PllStatus]
  · rw [GetPllStatus_fst, GetPllStatus_PllStatus]
    split_ifs <;> decide
  · unfold Mcu_Arch_GetPllStatus
    simp only []
    split_ifs <;> rfl

/-- C26: the services that are declared but not implemented.  For every argument and every
machine state, `Mcu_Arch_InitRamSection`, `Mcu_Arch_GetResetReason`,
`Mcu_Arch_GetResetRawValue` and `Mcu_Arch_GetRamState` return the fixed value `E_NOT_OK`,
which is 1, and these four, `Mcu_Arch_PerformReset` and `Mcu_Arch_SetMode` leave the machine
state (every register and the stored PllStatus) as they found it.  Read in the result
types of `Mcu_Arch_GetResetReason` and `Mcu_Arch_GetRamState`, the value 1 is the enumerator
`MCU_WATCHDOG_RESET` and the enumerator `MCU_RAMSTATE_VALID`. -/
theorem C26_unimplemented_services (s : Mcu_Hw) (RamSection McuMode : Nat) :
    E_NOT_OK = 1 ∧ E_NOT_OK = MCU_WATCHDOG_RESET ∧ E_NOT_OK = MCU_RAMSTATE_VALID ∧
    Mcu_Arch_InitRamSection s RamSection = (E_NOT_OK, s) ∧
    Mcu_Arch_GetResetReason s = (E_NOT_OK, s) ∧
    Mcu_Arch_GetResetRawValue s = (E_NOT_OK, s) ∧
    Mcu_Arch_GetRamState s = (E_NOT_OK, s) ∧
    Mcu_Arch_PerformReset s = s ∧
    Mcu_Arch_SetMode s McuMode = s :=
  ⟨rfl, rfl, rfl, rfl, rfl, rfl, rfl, rfl, rfl⟩

/-! ## Mcu_Arch_InitClock : the oscillator part as word transformers -/

theorem InitClock_Osc_Rcc (s : Mcu_Hw) (c : Mcu_ClkConfigType) :
    (Mcu_Arch_InitClock_Osc s c).2.Rcc =
      { CR := Osc_CR c.OscConfig (Get_SysClk s) s.Rcc.CR,
        ICSCR := Osc_ICSCR c.OscConfig s.Rcc.ICSCR,
        CFGR := s.Rcc.CFGR,
        PLLCFGR := s.Rcc.PLLCFGR,
        BDCR := Osc_BDCR c.OscConfig (Get_SysClk s) s.Rcc.BDCR,
        CSR := Osc_CSR c.OscConfig (Get_SysClk s) s.Rcc.CSR } := by
  unfold Mcu_Arch_InitClock_Osc Osc_CR Osc_ICSCR Osc_BDCR Osc_CSR
  simp only []
  split_ifs <;> simp

theorem InitClock_Osc_returnValue (s : Mcu_Hw) (c : Mcu_ClkConfigType) :
    (Mcu_Arch_InitClock_Osc s c).1 = Osc_returnValue c.OscConfig (Get_SysClk s) := by
  unfold Mcu_Arch_InitClock_Osc Osc_returnValue
  simp only []
  split_ifs <;> rfl

theorem Osc_returnValue_eq (Osc : Mcu_OscConfigType) (sysClk : Nat) :
    (Osc_returnValue Osc sysClk = E_NOT_OK ↔ Osc_reports_nothing Osc sysClk) ∧
    (Osc_returnValue Osc sysClk = E_OK ∨ Osc_returnValue Osc sysClk = E_NOT_OK) := by
  unfold Osc_returnValue Osc_reports_nothing
  split_ifs <;> simp_all

theorem InitClock_Osc_silent (s : Mcu_Hw) (c : Mcu_ClkConfigType)
    (h : Osc_reports_nothing c.OscConfig (Get_SysClk s)) :
    (Mcu_Arch_InitClock_Osc s c).2 = s := by
  obtain ⟨h1, h2, h3, h4, h5⟩ := h
  unfold Mcu_Arch_InitClock_Osc
  simp only []
  rw [if_neg h1, if_neg h2, if_neg h3]
  split_ifs <;> simp_all

theorem InitClock_Pll_returnValue (s : Mcu_Hw) (c : Mcu_ClkConfigType) (rv : Nat) :
    (Mcu_Arch_InitClock_Pll s c rv).1 =
      if c.OscConfig.PLL.PllState = MCU_PLL_STATE_ENABLED then rv else E_OK := by
  unfold Mcu_Arch_InitClock_Pll
  simp only [apply_ite Prod.fst, E_OK, Nat.or_zero]

theorem InitClock_Clk_returnValue (s : Mcu_Hw) (c : Mcu_ClkConfigType) (rv : Nat) :
    (Mcu_Arch_InitClock_Clk s c rv).1 =
      if Validate_ValueInRange c.ClkConfig.APB1ClockDivider MCU_APB1_DIV1 MCU_APB1_DIV16
          = E_OK then E_OK
      else if Validate_ValueInRange c.ClkConfig.AHBClockDivider MCU_AHB_DIV128 MCU_AHB_DIV512
          = E_OK then E_OK
      else if Mcu_Arch_InitClock_applySettingFlag s c.ClkConfig.SysClockSource = STD_ACTIVE
        then E_OK
      else rv := by
  unfold Mcu_Arch_InitClock_Clk
  simp only []
  split_ifs <;> rfl

/-- The value returned by `Mcu_Arch_InitClock`, as a function of the request, of the value
read by `Get_SysClk` and of the ready flag read by the clock part. -/
theorem InitClock_returnValue (s : Mcu_Hw) (c : Mcu_ClkConfigType) :
    (Mcu_Arch_InitClock s c).1 =
      if Validate_ValueInRange c.ClkConfig.APB1ClockDivider MCU_APB1_DIV1 MCU_APB1_DIV16
          = E_OK then E_OK
      else if Validate_ValueInRange c.ClkConfig.AHBClockDivider MCU_AHB_DIV128 MCU_AHB_DIV512
          = E_OK then E_OK
      else if Mcu_Arch_InitClock_applySettingFlag
          (Mcu_Arch_InitClock_Pll (Mcu_Arch_InitClock_Osc s c).2 c (Mcu_Arch_InitClock_Osc s c).1).2
          c.ClkConfig.SysClockSource = STD_ACTIVE
        then E_OK
      else if c.OscConfig.PLL.PllState = MCU_PLL_STATE_ENABLED then
        Osc_returnValue c.OscConfig (Get_SysClk s)
      else E_OK := by
  unfold Mcu_Arch_InitClock
  simp only []
  rw [InitClock_Clk_returnValue, InitClock_Pll_returnValue, InitClock_Osc_returnValue]

/-- C23: the status returned by `Mcu_Arch_InitClock`.  With `E_OK = 0` and `E_NOT_OK = 1`,
the call returns `E_NOT_OK` if and only if the PLL state is Enabled, the oscillator branch
reported nothing, the requested system clock source has no active ready flag (so the mux is
not switched), the AHB divider is rejected and the APB1 divider is rejected; in every other
case it returns `E_OK`, in particular whenever the PLL state is not Enabled. -/
theorem C23_InitClock_returnValue (s : Mcu_Hw) (c : Mcu_ClkConfigType) :
    E_OK = 0 ∧ E_NOT_OK = 1 ∧
    ((Mcu_Arch_InitClock s c).1 = E_NOT_OK ↔
      (c.OscConfig.PLL.PllState = MCU_PLL_STATE_ENABLED ∧
       Osc_reports_nothing c.OscConfig (Get_SysClk s) ∧
       SysClockSource_ready s.Rcc c.ClkConfig.SysClockSource = false ∧
       Validate_ValueInRange c.ClkConfig.AHBClockDivider MCU_AHB_DIV128 MCU_AHB_DIV512
         ≠ E_OK ∧
       Validate_ValueInRange c.ClkConfig.APB1ClockDivider MCU_APB1_DIV1 MCU_APB1_DIV16
         ≠ E_OK)) ∧
    ((Mcu_Arch_InitClock s c).1 ≠ E_NOT_OK → (Mcu_Arch_InitClock s c).1 = E_OK) ∧
    (c.OscConfig.PLL.PllState ≠ MCU_PLL_STATE_ENABLED → (Mcu_Arch_InitClock s c).1 = E_OK) := by
  have hne : E_OK ≠ E_NOT_OK := by decide
  obtain ⟨hosc, hosc2⟩ := Osc_returnValue_eq c.OscConfig (Get_SysClk s)
  have hflag : Osc_reports_nothing c.OscConfig (Get_SysClk s) →
      (Mcu_Arch_InitClock_applySettingFlag
          (Mcu_Arch_InitClock_Pll (Mcu_Arch_InitClock_Osc s c).2 c (Mcu_Arch_InitClock_Osc s c).1).2
          c.ClkConfig.SysClockSource = STD_ACTIVE ↔
        SysClockSource_ready s.Rcc c.ClkConfig.SysClockSource = true) := by
    intro h
    rw [applySettingFlag_eq, InitClock_Pll_ready, InitClock_Osc_silent s c h]
  refine ⟨rfl, rfl, ?_, ?_, ?_⟩
  · rw [InitClock_returnValue]
    constructor
    · intro h
      by_cases h1 : Validate_ValueInRange c.ClkConfig.APB1ClockDivider MCU_APB1_DIV1
          MCU_APB1_DIV16 = E_OK
      · rw [if_pos h1] at h
        exact absurd h hne
      rw [if_neg h1] at h
      by_cases h2 : Validate_ValueInRange c.ClkConfig.AHBClockDivider MCU_AHB_DIV128
          MCU_AHB_DIV512 = E_OK
      · rw [if_pos h2] at h
        exact absurd h hne
      rw [if_neg h2] at h
      by_cases h3 : Mcu_Arch_InitClock_applySettingFlag
          (Mcu_Arch_InitClock_Pll (Mcu_Arch_InitClock_Osc s c).2 c (Mcu_Arch_InitClock_Osc s c).1).2
          c.ClkConfig.SysClockSource = STD_ACTIVE
      · rw [if_pos h3] at h
        exact absurd h hne
      rw [if_neg h3] at h
      by_cases h4 : c.OscConfig.PLL.PllState = MCU_PLL_STATE_ENABLED
      · rw [if_pos h4] at h
        have hn := hosc.1 h
        refine ⟨h4, hn, ?_, h2, h1⟩
        rw [hflag hn] at h3
        simpa using h3
      · rw [if_neg h4] at h
        exact absurd h hne
    · rintro ⟨h4, hn, h3, h2, h1⟩
      rw [if_neg h1, if_neg h2, if_neg (by rw [hflag hn, h3]; decide), if_pos h4]
      exact hosc.2 hn
  · rw [InitClock_returnValue]
    intro h
    split_ifs at h ⊢ with h1 h2 h3 h4 <;> first | rfl | (rcases hosc2 with h5 | h5 <;> simp_all)
  · intro h
    rw [InitClock_returnValue]
    split_ifs <;> rfl

/-- C23 on the state after reset: the request of Scenario B (PLL Enabled, no oscillator,
unknown source, rejected dividers) returns `E_NOT_OK`; the same request with the PLL
Disabled returns `E_OK`. -/
theorem C23_witness :
    (Mcu_Arch_InitClock hw_reset request_scenario_B).1 = E_NOT_OK ∧
    (request_none.OscConfig.PLL.PllState ≠ MCU_PLL_STATE_ENABLED ∧
      (Mcu_Arch_InitClock hw_reset request_none).1 = E_OK) :=
  ⟨(C23_InitClock_returnValue hw_reset request_scenario_B).2.2.1.2
      ⟨rfl, by unfold Osc_reports_nothing; decide, by decide, by decide, by decide⟩,
    by decide, (C23_InitClock_returnValue hw_reset request_none).2.2.2.2 (by decide)⟩

/-! ## Idempotence of Mcu_Arch_InitClock -/

theorem PerBit_id : PerBit (fun x => x) := fun _ => Or.inl (fun _ => rfl)

theorem PerBit_post (G : Nat → Nat) (a o : Nat → Bool)
    (h : ∀ D i, (G D).testBit i = ((D.testBit i && a i) || o i))
    (F : Nat → Nat) (hF : PerBit F) : PerBit (fun x => G (F x)) := by
  intro i
  cases ho : o i
  · cases ha : a i
    · exact Or.inr ⟨false, fun x => by rw [h, ha, ho]; simp⟩
    · rcases hF i with hk | ⟨b, hb⟩
      · exact Or.inl (fun x => by rw [h, ha, ho, hk]; simp)
      · exact Or.inr ⟨b, fun x => by rw [h, ha, ho, hb]; simp⟩
  · exact Or.inr ⟨true, fun x => by rw [h, ho]; simp⟩

theorem PerBit_SetBit (F : Nat → Nat) (n : Nat) (hF : PerBit F) :
    PerBit (fun x => Bfx_SetBit_u32u8 (F x) n) :=
  PerBit_post (fun D => Bfx_SetBit_u32u8 D n) (fun _ => true) (fun i => decide (n = i))
    (fun D i => by rw [testBit_SetBit]; simp) F hF

theorem PerBit_ClrBit (F : Nat → Nat) (n : Nat) (hF : PerBit F) :
    PerBit (fun x => Bfx_ClrBit_u32u8 (F x) n) :=
  PerBit_post (fun D => Bfx_ClrBit_u32u8 D n) (fun i => decide (n = i) != decide (i < 32))
    (fun _ => false) (fun D i => by rw [testBit_ClrBit]; simp) F hF

theorem PerBit_SetBitMask (F : Nat → Nat) (m : Nat) (hF : PerBit F) :
    PerBit (fun x => Bfx_SetBitMask_u32u32 (F x) m) :=
  PerBit_post (fun D => Bfx_SetBitMask_u32u32 D m) (fun _ => true) (fun i => m.testBit i)
    (fun D i => by rw [testBit_SetBitMask]; simp) F hF

theorem PerBit_ClrBitMask (F : Nat → Nat) (m : Nat) (hF : PerBit F) :
    PerBit (fun x => Bfx_ClrBitMask_u32u32 (F x) m) :=
  PerBit_post (fun D => Bfx_ClrBitMask_u32u32 D m) (fun i => m.testBit i != decide (i < 32))
    (fun _ => false) (fun D i => by rw [testBit_ClrBitMask]; simp) F hF

theorem PerBit_ite (p : Prop) [Decidable p] (F G : Nat → Nat) (hF : PerBit F) (hG : PerBit G) :
    PerBit (fun x => if p then F x else G x) := by
  by_cases hp : p
  · simpa only [hp, if_true] using hF
  · simpa only [hp, if_false] using hG

/-- A transformer that treats every bit on its own is idempotent. -/
theorem PerBit_idem (F : Nat → Nat) (hF : PerBit F) (x : Nat) : F (F x) = F x := by
  apply Nat.eq_of_testBit_eq
  intro i
  rcases hF i with hk | ⟨b, hb⟩
  · rw [hk]
  · rw [hb, hb]

theorem PerBit_Osc_CR (Osc : Mcu_OscConfigType) (sysClk : Nat) : PerBit (Osc_CR Osc sysClk) := by
  unfold Osc_CR
  repeat first
    | with_reducible exact PerBit_id
    | with_reducible apply PerBit_ite
    | with_reducible apply PerBit_SetBit
    | with_reducible apply PerBit_ClrBit
    | with_reducible apply PerBit_SetBitMask
    | with_reducible apply PerBit_ClrBitMask

theorem PerBit_Osc_ICSCR (Osc : Mcu_OscConfigType) : PerBit (Osc_ICSCR Osc) := by
  unfold Osc_ICSCR
  repeat first
    | with_reducible exact PerBit_id
    | with_reducible apply PerBit_ite
    | with_reducible apply PerBit_ClrBitMask

theorem PerBit_Osc_BDCR (Osc : Mcu_OscConfigType) (sysClk : Nat) :
    PerBit (Osc_BDCR Osc sysClk) := by
  unfold Osc_BDCR
  repeat first
    | with_reducible exact PerBit_id
    | with_reducible apply PerBit_ite
    | with_reducible apply PerBit_SetBit
    | with_reducible apply PerBit_ClrBit

theorem PerBit_Osc_CSR (Osc : Mcu_OscConfigType) (sysClk : Nat) :
    PerBit (Osc_CSR Osc sysClk) := by
  unfold Osc_CSR
  repeat first
    | with_reducible exact PerBit_id
    | with_reducible apply PerBit_ite
    | with_reducible apply PerBit_SetBit
    | with_reducible apply PerBit_ClrBit

theorem PerBit_Pll_CR (PLL : Mcu_PllConfigType) (F : Nat → Nat) (hF : PerBit F) :
    PerBit (fun x => Pll_CR PLL (F x)) := by
  unfold Pll_CR
  apply PerBit_ite
  · exact PerBit_SetBit _ _ (PerBit_ClrBit _ _ hF)
  · exact PerBit_ClrBit _ _ hF

theorem PerBit_clr_set (p : Prop) [Decidable p] (m v : Nat) (F : Nat → Nat) (hF : PerBit F) :
    PerBit (fun x => if p then Bfx_SetBitMask_u32u32 (Bfx_ClrBitMask_u32u32 (F x) m) v
      else F x) :=
  PerBit_ite p _ _ (PerBit_SetBitMask _ _ (PerBit_ClrBitMask _ _ hF)) hF

theorem PerBit_clr_set_en (p : Prop) [Decidable p] (m v e : Nat) (F : Nat → Nat)
    (hF : PerBit F) :
    PerBit (fun x => if p then
        Bfx_SetBit_u32u8 (Bfx_SetBitMask_u32u32 (Bfx_ClrBitMask_u32u32 (F x) m) v) e
      else F x) :=
  PerBit_ite p _ _ (PerBit_SetBit _ _ (PerBit_SetBitMask _ _ (PerBit_ClrBitMask _ _ hF))) hF

theorem PerBit_Pll_PLLCFGR (PLL : Mcu_PllConfigType) : PerBit (Pll_PLLCFGR PLL) := by
  have h1 := PerBit_clr_set (Validate_PllSource PLL.PllSource = E_OK) MCU_PLL_SOURCE_MASK
    PLL.PllSource _ PerBit_id
  have h2 := PerBit_clr_set (Validate_ValueInRange PLL.PllM MCU_PLLM_DIV1 MCU_PLLM_DIV8 = E_OK)
    MCU_PLLM_MASK PLL.PllM _ h1
  have h3 := PerBit_clr_set
    (Validate_ValueInRange PLL.PLLN MCU_PLLN_MIN_VALUE MCU_PLLN_MAX_VALUE = E_OK)
    MCU_PLLN_MASK ((PLL.PLLN <<< MCU_PLLN_OFFSET) % 2 ^ 32) _ h2
  have h4 := PerBit_clr_set_en
    (Validate_ValueInRange PLL.PllP MCU_PLLP_DIV2 MCU_PLLP_DIV32 = E_OK)
    MCU_PLLP_MASK PLL.PllP RCC_PLLCFGR_PLLPEN _ h3
  have h5 := PerBit_clr_set_en
    (Validate_ValueInRange PLL.PllQ MCU_PLLQ_DIV2 MCU_PLLQ_DIV8 = E_OK)
    MCU_PLLQ_MASK PLL.PllQ RCC_PLLCFGR_PLLQEN _ h4
  have h6 := PerBit_clr_set_en
    (Validate_ValueInRange PLL.PllR MCU_PLLR_DIV2 MCU_PLLR_DIV8 = E_OK)
    MCU_PLLR_MASK PLL.PllR RCC_PLLCFGR_PLLREN _ h5
  exact PerBit_ite (PLL.PllState = MCU_PLL_STATE_ENABLED) _ _ h6 PerBit_id

theorem PerBit_Clk_CFGR (flag : Nat) (Clk : Mcu_SysClkConfigType) :
    PerBit (Clk_CFGR flag Clk) := by
  have h1 := PerBit_clr_set (flag = STD_ACTIVE) MCU_SYSCLKSOURCE_MASK Clk.SysClockSource _
    PerBit_id
  have h2 := PerBit_clr_set
    (Validate_ValueInRange Clk.AHBClockDivider MCU_AHB_DIV128 MCU_AHB_DIV512 = E_OK)
    MCU_AHB_DIV_MASK Clk.AHBClockDivider _ h1
  exact PerBit_clr_set
    (Validate_ValueInRange Clk.APB1ClockDivider MCU_APB1_DIV1 MCU_APB1_DIV16 = E_OK)
    MCU_APB1_DIV_MASK Clk.APB1ClockDivider _ h2

theorem InitClock_CR_word (s : Mcu_Hw) (c : Mcu_ClkConfigType) :
    (Mcu_Arch_InitClock s c).2.Rcc.CR =
      Pll_CR c.OscConfig.PLL (Osc_CR c.OscConfig (Get_SysClk s) s.Rcc.CR) := by
  rw [InitClock_CR, InitClock_Osc_Rcc]
  rfl

theorem InitClock_others_word (s : Mcu_Hw) (c : Mcu_ClkConfigType) :
    (Mcu_Arch_InitClock s c).2.Rcc.ICSCR = Osc_ICSCR c.OscConfig s.Rcc.ICSCR ∧
    (Mcu_Arch_InitClock s c).2.Rcc.BDCR = Osc_BDCR c.OscConfig (Get_SysClk s) s.Rcc.BDCR ∧
    (Mcu_Arch_InitClock s c).2.Rcc.CSR = Osc_CSR c.OscConfig (Get_SysClk s) s.Rcc.CSR := by
  obtain ⟨h1, h2, h3⟩ := InitClock_BDCR_CSR_ICSCR s c
  rw [h1, h2, h3, InitClock_Osc_Rcc]
  exact ⟨rfl, rfl, rfl⟩

theorem sws_of_and (x y : Nat) (h : x &&& 0x38 = y &&& 0x38) : x / 8 % 8 = y / 8 % 8 := by
  have b3 := testBit_eq_of_and_mask_eq x y 0x38 3 h (by decide)
  have b4 := testBit_eq_of_and_mask_eq x y 0x38 4 h (by decide)
  have b5 := testBit_eq_of_and_mask_eq x y 0x38 5 h (by decide)
  rw [Nat.testBit_to_div_mod, Nat.testBit_to_div_mod] at b3 b4 b5
  simp only [decide_eq_decide] at b3 b4 b5
  omega

theorem AHB_enum_sws_bits : ∀ v ∈ MCU_AHB_DIVS, v &&& 0x38 = 0 := by decide

theorem APB1_enum_sws_bits : ∀ v ∈ MCU_APB1_DIVS, v &&& 0x38 = 0 := by decide

/-- The value read by `Get_SysClk` (CFGR bits 5:3) is the same before and after
`Mcu_Arch_InitClock` when the bus dividers are encodings or rejected. -/
theorem InitClock_Get_SysClk (s : Mcu_Hw) (c : Mcu_ClkConfigType)
    (hA : AHB_enum_or_rejected c.ClkConfig.AHBClockDivider)
    (hB : APB1_enum_or_rejected c.ClkConfig.APB1ClockDivider) :
    Get_SysClk (Mcu_Arch_InitClock s c).2 = Get_SysClk s := by
  rw [Get_SysClk_eq, Get_SysClk_eq]
  apply sws_of_and
  rw [InitClock_CFGR]
  unfold Clk_CFGR
  simp only []
  rw [ite_clr_set_frame, ite_clr_set_frame, ite_clr_set_frame]
  · intro hf
    have h4 := SysClockSource_ready_le _ _ ((applySettingFlag_eq _ _).1 hf)
    exact ⟨by decide, and_eq_zero_of_lt_two_pow _ _ 3 (by omega) (by decide)⟩
  · intro hv
    rcases hA with h | h
    · exact ⟨by decide, AHB_enum_sws_bits _ h⟩
    · exact absurd hv h
  · intro hv
    rcases hB with h | h
    · exact ⟨by decide, APB1_enum_sws_bits _ h⟩
    · exact absurd hv h

theorem applySettingFlag_congr (s t : Mcu_Hw) (src : Nat) (h1 : s.Rcc.CR = t.Rcc.CR)
    (h2 : s.Rcc.CSR = t.Rcc.CSR) (h3 : s.Rcc.BDCR = t.Rcc.BDCR) :
    Mcu_Arch_InitClock_applySettingFlag s src = Mcu_Arch_InitClock_applySettingFlag t src := by
  unfold Mcu_Arch_InitClock_applySettingFlag
  rw [h1, h2, h3]

/-- The ready flag read by the clock part is the flag of the registers that
`Mcu_Arch_InitClock` leaves: the clock part writes CFGR only. -/
theorem InitClock_flag (s : Mcu_Hw) (c : Mcu_ClkConfigType) :
    Mcu_Arch_InitClock_applySettingFlag
        (Mcu_Arch_InitClock_Pll (Mcu_Arch_InitClock_Osc s c).2 c (Mcu_Arch_InitClock_Osc s c).1).2
        c.ClkConfig.SysClockSource =
      Mcu_Arch_InitClock_applySettingFlag (Mcu_Arch_InitClock s c).2
        c.ClkConfig.SysClockSource := by
  obtain ⟨h1, _, _, h4, h5, _⟩ := InitClock_Clk_others
    (Mcu_Arch_InitClock_Pll (Mcu_Arch_InitClock_Osc s c).2 c (Mcu_Arch_InitClock_Osc s c).1).2 c
    (Mcu_Arch_InitClock_Pll (Mcu_Arch_InitClock_Osc s c).2 c (Mcu_Arch_InitClock_Osc s c).1).1
  exact applySettingFlag_congr _ _ _ h1.symm h5.symm h4.symm

theorem Rcc_RegisterType_eq (a b : Rcc_RegisterType) (h1 : a.CR = b.CR)
    (h2 : a.ICSCR = b.ICSCR) (h3 : a.CFGR = b.CFGR) (h4 : a.PLLCFGR = b.PLLCFGR)
    (h5 : a.BDCR = b.BDCR) (h6 : a.CSR = b.CSR) : a = b := by
  cases a
  cases b
  simp only [Rcc_RegisterType.mk.injEq]
  exact ⟨h1, h2, h3, h4, h5, h6⟩

/-- C22: `Mcu_Arch_InitClock` is idempotent.  For every machine state (registers CR, CFGR,
PLLCFGR, ICSCR, BDCR, CSR and stored PLL status) and every clock setting whose AHB and APB1
dividers are encodings or rejected by the range validation, in particular for every setting
in which each field holds one of its encodings, a second call with the same setting leaves
the registers and the stored PllStatus of the first call and returns the same value. -/
theorem C22_InitClock_idempotent (s : Mcu_Hw) (c : Mcu_ClkConfigType)
    (hA : AHB_enum_or_rejected c.ClkConfig.AHBClockDivider)
    (hB : APB1_enum_or_rejected c.ClkConfig.APB1ClockDivider) :
    (Mcu_Arch_InitClock (Mcu_Arch_InitClock s c).2 c).2.Rcc = (Mcu_Arch_InitClock s c).2.Rcc ∧
    (Mcu_Arch_InitClock (Mcu_Arch_InitClock s c).2 c).2.PllStatus =
      (Mcu_Arch_InitClock s c).2.PllStatus ∧
    (Mcu_Arch_InitClock (Mcu_Arch_InitClock s c).2 c).1 = (Mcu_Arch_InitClock s c).1 := by
  have hsws := InitClock_Get_SysClk s c hA hB
  have hCR : (Mcu_Arch_InitClock (Mcu_Arch_InitClock s c).2 c).2.Rcc.CR =
      (Mcu_Arch_InitClock s c).2.Rcc.CR := by
    rw [InitClock_CR_word (Mcu_Arch_InitClock s c).2, hsws, InitClock_CR_word s c]
    exact PerBit_idem _ (PerBit_Pll_CR _ _ (PerBit_Osc_CR c.OscConfig (Get_SysClk s))) _
  obtain ⟨i1, b1, c1⟩ := InitClock_others_word s c
  obtain ⟨i2, b2, c2⟩ := InitClock_others_word (Mcu_Arch_InitClock s c).2 c
  have hICSCR : (Mcu_Arch_InitClock (Mcu_Arch_InitClock s c).2 c).2.Rcc.ICSCR =
      (Mcu_Arch_InitClock s c).2.Rcc.ICSCR := by
    rw [i2, i1]
    exact PerBit_idem _ (PerBit_Osc_ICSCR c.OscConfig) _
  have hBDCR : (Mcu_Arch_InitClock (Mcu_Arch_InitClock s c).2 c).2.Rcc.BDCR =
      (Mcu_Arch_InitClock s c).2.Rcc.BDCR := by
    rw [b2, hsws, b1]
    exact PerBit_idem _ (PerBit_Osc_BDCR c.OscConfig (Get_SysClk s)) _
  have hCSR : (Mcu_Arch_InitClock (Mcu_Arch_InitClock s c).2 c).2.Rcc.CSR =
      (Mcu_Arch_InitClock s c).2.Rcc.CSR := by
    rw [c2, hsws, c1]
    exact PerBit_idem _ (PerBit_Osc_CSR c.OscConfig (Get_SysClk s)) _
  have hPLLCFGR : (Mcu_Arch_InitClock (Mcu_Arch_InitClock s c).2 c).2.Rcc.PLLCFGR =
      (Mcu_Arch_InitClock s c).2.Rcc.PLLCFGR := by
    rw [InitClock_PLLCFGR (Mcu_Arch_InitClock s c).2, InitClock_PLLCFGR s c]
    exact PerBit_idem _ (PerBit_Pll_PLLCFGR c.OscConfig.PLL) _
  have hflag : Mcu_Arch_InitClock_applySettingFlag
        (Mcu_Arch_InitClock_Pll (Mcu_Arch_InitClock_Osc (Mcu_Arch_InitClock s c).2 c).2 c
          (Mcu_Arch_InitClock_Osc (Mcu_Arch_InitClock s c).2 c).1).2
        c.ClkConfig.SysClockSource =
      Mcu_Arch_InitClock_applySettingFlag
        (Mcu_Arch_InitClock_Pll (Mcu_Arch_InitClock_Osc s c).2 c (Mcu_Arch_InitClock_Osc s c).1).2
        c.ClkConfig.SysClockSource := by
    rw [InitClock_flag (Mcu_Arch_InitClock s c).2 c, InitClock_flag s c]
    exact applySettingFlag_congr _ _ _ hCR hCSR hBDCR
  have hCFGR : (Mcu_Arch_InitClock (Mcu_Arch_InitClock s c).2 c).2.Rcc.CFGR =
      (Mcu_Arch_InitClock s c).2.Rcc.CFGR := by
    rw [InitClock_CFGR (Mcu_Arch_InitClock s c).2, hflag, InitClock_CFGR s c]
    exact PerBit_idem _ (PerBit_Clk_CFGR _ c.ClkConfig) _
  refine ⟨Rcc_RegisterType_eq _ _ hCR hICSCR hCFGR hPLLCFGR hBDCR hCSR, ?_, ?_⟩
  · rw [InitClock_PllStatus, InitClock_PllStatus]
  · rw [InitClock_returnValue (Mcu_Arch_InitClock s c).2, hflag, hsws, InitClock_returnValue s c]

/-- C22 on the state with HSE ready and the request that selects HSE with the bus dividers
`MCU_AHB_DIV1` and `MCU_APB1_DIV1`: the second call changes nothing. -/
theorem C22_witness :
    (Mcu_Arch_InitClock (Mcu_Arch_InitClock hw_hse_ready request_hse_sysclk).2
        request_hse_sysclk).2.Rcc =
      (Mcu_Arch_InitClock hw_hse_ready request_hse_sysclk).2.Rcc ∧
    (Mcu_Arch_InitClock (Mcu_Arch_InitClock hw_hse_ready request_hse_sysclk).2
        request_hse_sysclk).2.PllStatus =
      (Mcu_Arch_InitClock hw_hse_ready request_hse_sysclk).2.PllStatus ∧
    (Mcu_Arch_InitClock (Mcu_Arch_InitClock hw_hse_ready request_hse_sysclk).2
        request_hse_sysclk).1 =
      (Mcu_Arch_InitClock hw_hse_ready request_hse_sysclk).1 :=
  C22_InitClock_idempotent hw_hse_ready request_hse_sysclk (Or.inl (by decide))
    (Or.inl (by decide))

/-! ## Bfx_8bits.h -/

theorem testBit_not_int (x i : Nat) :
    (not_int x).testBit i = (x.testBit i != decide (i < 32)) := by
  unfold not_int
  have h : (0xFFFFFFFF : Nat) = 2 ^ 32 - 1 := rfl
  rw [Nat.testBit_xor, h, Nat.testBit_two_pow_sub_one]

theorem testBit_SetBit_u8 (Data BitPn i : Nat) :
    (Bfx_SetBit_u8u8 Data BitPn).testBit i =
      (decide (i < 8) && (Data.testBit i || decide (BitPn = i))) := by
  unfold Bfx_SetBit_u8u8
  rw [Nat.testBit_mod_two_pow, Nat.testBit_or, Nat.one_shiftLeft, Nat.testBit_two_pow]

theorem testBit_ClrBit_u8 (Data BitPn i : Nat) :
    (Bfx_ClrBit_u8u8 Data BitPn).testBit i =
      (decide (i < 8) && (Data.testBit i && (decide (BitPn = i) != decide (i < 32)))) := by
  unfold Bfx_ClrBit_u8u8
  rw [Nat.testBit_mod_two_pow, Nat.testBit_and, testBit_not_int, Nat.one_shiftLeft,
    Nat.testBit_two_pow]

theorem testBit_SetBitMask_u8 (Data Mask i : Nat) :
    (Bfx_SetBitMask_u8u8 Data Mask).testBit i =
      (decide (i < 8) && (Data.testBit i || Mask.testBit i)) := by
  unfold Bfx_SetBitMask_u8u8
  rw [Nat.testBit_mod_two_pow, Nat.testBit_or]

theorem testBit_ClrBitMask_u8 (Data Mask i : Nat) :
    (Bfx_ClrBitMask_u8u8 Data Mask).testBit i =
      (decide (i < 8) && (Data.testBit i && (Mask.testBit i != decide (i < 32)))) := by
  unfold Bfx_ClrBitMask_u8u8
  rw [Nat.testBit_mod_two_pow, Nat.testBit_and, testBit_not_int]

theorem Bfx_GetBit_u8_eq (Data BitPn : Nat) :
    Bfx_GetBit_u8u8_u8 Data BitPn = if Data.testBit BitPn = true then 1 else 0 := by
  unfold Bfx_GetBit_u8u8_u8
  rw [Nat.and_one_is_mod, Nat.testBit_to_div_mod, Nat.shiftRight_eq_div_pow]
  have : Data / 2 ^ BitPn % 2 < 2 := Nat.mod_lt _ (by norm_num)
  split_ifs with h
  · simp only [decide_eq_true_eq] at h
    rw [h]
    rfl
  · simp only [decide_eq_true_eq] at h
    have h0 : Data / 2 ^ BitPn % 2 = 0 := by omega
    rw [h0]
    rfl

theorem testBit_byte_high (d i : Nat) (hd : d < 2 ^ 8) (hi : ¬ i < 8) :
    d.testBit i = false :=
  Nat.testBit_lt_two_pow (lt_of_lt_of_le hd (Nat.pow_le_pow_right (by norm_num) (by omega)))

/-- C27: the 8-bit register access primitives.  For every byte `d`, every bit position
`n < 8` and every mask byte `m`: `Bfx_GetBit_u8u8_u8` returns 1 on the result of
`Bfx_SetBit_u8u8` and 0 on the result of `Bfx_ClrBit_u8u8`, and both leave every bit other
than `n` as in `d`; `Bfx_SetBitMask_u8u8` yields `d OR m` and `Bfx_ClrBitMask_u8u8` yields
`d AND NOT m`, each is idempotent, and each leaves the bits where `m` is 0 as in `d`. -/
theorem C27_Bfx_8bit_primitives (d n m : Nat) (hd : d < 2 ^ 8) (hn : n < 8) (hm : m < 2 ^ 8) :
    Bfx_GetBit_u8u8_u8 (Bfx_SetBit_u8u8 d n) n = 1 ∧
    Bfx_GetBit_u8u8_u8 (Bfx_ClrBit_u8u8 d n) n = 0 ∧
    (∀ i, i ≠ n → (Bfx_SetBit_u8u8 d n).testBit i = d.testBit i ∧
      (Bfx_ClrBit_u8u8 d n).testBit i = d.testBit i) ∧
    Bfx_SetBitMask_u8u8 d m = d ||| m ∧
    Bfx_ClrBitMask_u8u8 d m = d &&& (m ^^^ 0xFF) ∧
    Bfx_SetBitMask_u8u8 (Bfx_SetBitMask_u8u8 d m) m = Bfx_SetBitMask_u8u8 d m ∧
    Bfx_ClrBitMask_u8u8 (Bfx_ClrBitMask_u8u8 d m) m = Bfx_ClrBitMask_u8u8 d m ∧
    (∀ i, m.testBit i = false → (Bfx_SetBitMask_u8u8 d m).testBit i = d.testBit i ∧
      (Bfx_ClrBitMask_u8u8 d m).testBit i = d.testBit i) := by
  have h32 : ∀ i, i < 8 → i < 32 := fun i h => by omega
  refine ⟨?_, ?_, ?_, ?_, ?_, ?_, ?_, ?_⟩
  · rw [Bfx_GetBit_u8_eq, testBit_SetBit_u8]
    simp [hn]
  · rw [Bfx_GetBit_u8_eq, testBit_ClrBit_u8]
    simp [hn, h32 n hn]
  · intro i hi
    rw [testBit_SetBit_u8, testBit_ClrBit_u8]
    by_cases h8 : i < 8
    · simp [h8, h32 i h8, Ne.symm hi]
    · simp [h8, testBit_byte_high d i hd h8]
  · apply Nat.eq_of_testBit_eq
    intro i
    rw [testBit_SetBitMask_u8, Nat.testBit_or]
    by_cases h8 : i < 8
    · simp [h8]
    · simp [h8, testBit_byte_high d i hd h8, testBit_byte_high m i hm h8]
  · apply Nat.eq_of_testBit_eq
    intro i
    have hff : (0xFF : Nat) = 2 ^ 8 - 1 := rfl
    rw [testBit_ClrBitMask_u8, Nat.testBit_and, Nat.testBit_xor, hff,
      Nat.testBit_two_pow_sub_one]
    by_cases h8 : i < 8
    · simp [h8, h32 i h8]
    · simp [h8, testBit_byte_high d i hd h8, testBit_byte_high m i hm h8]
  · apply Nat.eq_of_testBit_eq
    intro i
    simp only [testBit_SetBitMask_u8]
    cases decide (i < 8) <;> cases d.testBit i <;> cases m.testBit i <;> rfl
  · apply Nat.eq_of_testBit_eq
    intro i
    simp only [testBit_ClrBitMask_u8]
    cases decide (i < 8) <;> cases d.testBit i <;> cases m.testBit i <;>
      cases decide (i < 32) <;> rfl
  · intro i hi
    rw [testBit_SetBitMask_u8, testBit_ClrBitMask_u8, hi]
    by_cases h8 : i < 8
    · simp [h8, h32 i h8]
    · simp [h8, testBit_byte_high d i hd h8]

/-- C27 at the byte 0xA5 with bit position 3 and mask 0x3C. -/
theorem C27_witness :
    Bfx_GetBit_u8u8_u8 (Bfx_SetBit_u8u8 0xA5 3) 3 = 1 ∧
    Bfx_GetBit_u8u8_u8 (Bfx_ClrBit_u8u8 0xA5 3) 3 = 0 ∧
    Bfx_SetBitMask_u8u8 0xA5 0x3C = 0xBD ∧
    Bfx_ClrBitMask_u8u8 0xA5 0x3C = 0x81 :=
  have h := C27_Bfx_8bit_primitives 0xA5 3 0x3C (by decide) (by decide) (by decide)
  ⟨h.1, h.2.1, h.2.2.2.1.trans (by decide), h.2.2.2.2.1.trans (by decide)⟩

/-! ## Crc.h -/

theorem Crc8_bit_lt (poly c : Nat) : Crc8_bit poly c < 2 ^ 8 := by
  unfold Crc8_bit
  split_ifs <;> exact Nat.mod_lt _ (by norm_num)

theorem crc8_reference_step_lt (poly reg : Nat) (bit : Bool) (hp : poly < 2 ^ 8) :
    crc8_reference_step poly reg bit < 2 ^ 8 := by
  unfold crc8_reference_step
  split_ifs
  · exact Nat.xor_lt_two_pow (Nat.mod_lt _ (by norm_num)) hp
  · exact Nat.mod_lt _ (by norm_num)

theorem and_0x80_ne_zero_iff (x : Nat) : x &&& 0x80 ≠ 0 ↔ x.testBit 7 = true := by
  have h : (0x80 : Nat) = 2 ^ 7 := rfl
  rw [h, Nat.and_two_pow]
  cases x.testBit 7 <;> simp

/-- One round of the loop of the code on `s XOR t` is one step of the reference register
on `s` with the top bit of `t` as message bit, XORed with the rest of `t` moved up. -/
theorem Crc8_bit_xor (poly s t : Nat) (hp : poly < 2 ^ 8) :
    Crc8_bit poly (s ^^^ t) =
      crc8_reference_step poly s (t.testBit 7) ^^^ ((t <<< 1) % 2 ^ 8) := by
  have hpi : ∀ i, ¬ i < 8 → poly.testBit i = false := fun i hi =>
    Nat.testBit_lt_two_pow (lt_of_lt_of_le hp (Nat.pow_le_pow_right (by norm_num) (by omega)))
  unfold Crc8_bit crc8_reference_step
  simp only [and_0x80_ne_zero_iff, Nat.testBit_xor]
  apply Nat.eq_of_testBit_eq
  intro i
  have hi : ¬ i < 8 → poly.testBit i = false := hpi i
  cases s.testBit 7 <;> cases t.testBit 7 <;>
    simp only [Bool.xor_false, Bool.xor_true, Bool.not_false, Bool.not_true, bne_self_eq_false,
      Bool.false_eq_true, if_false, if_true, Nat.testBit_mod_two_pow, Nat.testBit_shiftLeft,
      Nat.testBit_xor, Bool.bne_true, Bool.bne_false, Bool.true_bne, Bool.false_bne] <;>
    by_cases h8 : i < 8 <;>
    simp only [h8, hi, decide_True, decide_False, Bool.true_and, Bool.false_and,
      Bool.xor_false, not_false_eq_true] <;>
    cases s.testBit (i - 1) <;> cases t.testBit (i - 1) <;> cases poly.testBit i <;>
    cases decide (i ≥ 1) <;> rfl

theorem Crc8_rounds (poly : Nat) (hp : poly < 2 ^ 8) :
    ∀ (n s t : Nat),
      Nat.iterate (Crc8_bit poly) n (s ^^^ t) =
        (Crc8_pending_bits n t).foldl (crc8_reference_step poly) s ^^^ Crc8_pending_rest n t := by
  intro n
  induction n with
  | zero => intro s t; rfl
  | succ n ih =>
    intro s t
    rw [Function.iterate_succ_apply, Crc8_bit_xor poly s t hp, ih]
    rfl

theorem Crc8_pending_bits_eight (byte : Nat) :
    Crc8_pending_bits 8 (byte % 2 ^ 8) = crc_msg_bits byte := by
  simp only [Crc8_pending_bits, crc_msg_bits, Nat.testBit_mod_two_pow, Nat.testBit_shiftLeft]
  simp

theorem Crc8_pending_rest_eight (t : Nat) : Crc8_pending_rest 8 t = 0 := by
  simp only [Crc8_pending_rest, Nat.shiftLeft_eq]
  omega

theorem xor_mod_byte (reg byte : Nat) (hr : reg < 2 ^ 8) :
    (reg ^^^ byte) % 2 ^ 8 = reg ^^^ (byte % 2 ^ 8) := by
  apply Nat.eq_of_testBit_eq
  intro i
  rw [Nat.testBit_mod_two_pow, Nat.testBit_xor, Nat.testBit_xor, Nat.testBit_mod_two_pow]
  by_cases hi : i < 8
  · simp [hi]
  · have : reg.testBit i = false :=
      Nat.testBit_lt_two_pow (lt_of_lt_of_le hr (Nat.pow_le_pow_right (by norm_num) (by omega)))
    simp [hi, this]

/-- The byte step of the code is the reference register fed with the eight bits of the
byte, most significant first. -/
theorem Crc8_byte_eq (poly reg byte : Nat) (hp : poly < 2 ^ 8) (hr : reg < 2 ^ 8) :
    Crc8_byte poly reg byte = (crc_msg_bits byte).foldl (crc8_reference_step poly) reg := by
  unfold Crc8_byte
  rw [xor_mod_byte reg byte hr, Crc8_rounds poly hp, Crc8_pending_bits_eight,
    Crc8_pending_rest_eight, Nat.xor_zero]

theorem Crc8_byte_lt (poly reg byte : Nat) : Crc8_byte poly reg byte < 2 ^ 8 := by
  unfold Crc8_byte
  exact Crc8_bit_lt poly _

theorem Crc8_foldl_lt (poly : Nat) :
    ∀ (data : List Nat) (reg : Nat), reg < 2 ^ 8 → data.foldl (Crc8_byte poly) reg < 2 ^ 8 := by
  intro data
  induction data with
  | nil => intro reg hr; exact hr
  | cons b bs ih => intro reg _; exact ih _ (Crc8_byte_lt poly reg b)

theorem Crc8_foldl_eq (poly : Nat) (hp : poly < 2 ^ 8) :
    ∀ (data : List Nat) (reg : Nat), reg < 2 ^ 8 →
      data.foldl (Crc8_byte poly) reg =
        data.foldl (fun reg byte => (crc_msg_bits byte).foldl (crc8_reference_step poly) reg)
          reg := by
  intro data
  induction data with
  | nil => intro reg _; rfl
  | cons b bs ih =>
    intro reg hr
    rw [List.foldl_cons, List.foldl_cons, ih _ (Crc8_byte_lt poly reg b),
      Crc8_byte_eq poly reg b hp hr]

theorem xor_0xFF_ne (x : Nat) : x ^^^ 0xFF ≠ x := by
  intro h
  have h2 := congrArg (fun y => y.testBit 0) h
  simp only [Nat.testBit_xor] at h2
  have h3 : Nat.testBit 0xFF 0 = true := by decide
  rw [h3] at h2
  cases hx : x.testBit 0 <;> rw [hx] at h2 <;> exact absurd h2 (by decide)

theorem xor_0xFF_mod (x : Nat) (hx : x < 2 ^ 8) : (x ^^^ 0xFF) % 2 ^ 8 = x ^^^ 0xFF :=
  Nat.mod_eq_of_lt (Nat.xor_lt_two_pow hx (by norm_num))

/-- C28: `Crc_CalculateCRC8` computes the SAE J1850 CRC-8.  For every byte sequence and
every start value, the result of a first call is the reference CRC of width 8, not
reflected, with polynomial 0x1D, initial value 0xFF and final XOR 0xFF; the start value
is ignored; the check string "123456789" gives 0x4B and the empty sequence gives 0x00. -/
theorem C28_CRC8_is_SAE_J1850 (data : List Nat) (Crc_StartValue8 : Nat) :
    Crc_CalculateCRC8 data Crc_StartValue8 true = crc8_reference 0x1D 0xFF 0xFF data ∧
    Crc_CalculateCRC8 crc_check_message Crc_StartValue8 true = 0x4B ∧
    Crc_CalculateCRC8 [] Crc_StartValue8 true = 0x00 := by
  refine ⟨?_, ?_, ?_⟩
  · unfold Crc_CalculateCRC8 crc8_reference
    simp only [if_true]
    rw [xor_0xFF_mod _ (Crc8_foldl_lt _ _ _ (by norm_num)),
      Crc8_foldl_eq _ (by norm_num) _ _ (by norm_num)]
  · exact (show Crc_CalculateCRC8 crc_check_message 0 true = 0x4B by decide)
  · exact (show Crc_CalculateCRC8 [] 0 true = 0x00 by decide)

/-- Chaining `Crc_CalculateCRC8` works when the start value of the subsequent call is the
previous result XORed with 0xFF. -/
theorem Crc_CalculateCRC8_chain (a b : List Nat) (start : Nat) :
    Crc_CalculateCRC8 b (Crc_CalculateCRC8 a start true ^^^ 0xFF) false =
      Crc_CalculateCRC8 (a ++ b) start true := by
  unfold Crc_CalculateCRC8
  simp only [if_true, Bool.false_eq_true, if_false, List.foldl_append]
  have h := Crc8_foldl_lt 0x1D a 0xFF (by norm_num)
  rw [xor_0xFF_mod _ h, Nat.xor_assoc, Nat.xor_self, Nat.xor_zero]

/-- C29: chained calls of `Crc_CalculateCRC8`.  With the check string split as "1234"
and "56789", the subsequent call started from the result of the first call returns 0xA4
and not the CRC 0x4B of the whole string; and for every sequence `a`, a subsequent call on
the empty sequence returns the complement of the CRC of `a`, not the CRC of `a`. -/
theorem C29_CRC8_chained_call_differs :
    Crc_CalculateCRC8 [0x31, 0x32, 0x33, 0x34] 0 true = 0xAB ∧
    Crc_CalculateCRC8 [0x35, 0x36, 0x37, 0x38, 0x39]
      (Crc_CalculateCRC8 [0x31, 0x32, 0x33, 0x34] 0 true) false = 0xA4 ∧
    Crc_CalculateCRC8 ([0x31, 0x32, 0x33, 0x34] ++ [0x35, 0x36, 0x37, 0x38, 0x39]) 0 true
      = 0x4B ∧
    ∀ (a : List Nat) (start : Nat),
      Crc_CalculateCRC8 [] (Crc_CalculateCRC8 a start true) false =
        Crc_CalculateCRC8 (a ++ []) start true ^^^ 0xFF ∧
      Crc_CalculateCRC8 [] (Crc_CalculateCRC8 a start true) false ≠
        Crc_CalculateCRC8 (a ++ []) start true := by
  refine ⟨by decide, by decide, by decide, fun a start => ?_⟩
  have h : Crc_CalculateCRC8 [] (Crc_CalculateCRC8 a start true) false =
      Crc_CalculateCRC8 (a ++ []) start true ^^^ 0xFF := by
    rw [List.append_nil]
    have hlt : Crc_CalculateCRC8 a start true < 2 ^ 8 := Nat.mod_lt _ (by norm_num)
    generalize Crc_CalculateCRC8 a start true = R at hlt ⊢
    unfold Crc_CalculateCRC8
    simp only [Bool.false_eq_true, if_false, List.foldl_nil]
    exact xor_0xFF_mod R hlt
  exact ⟨h, by rw [h]; exact xor_0xFF_ne _⟩

/-- C30: `Crc_CalculateCRC8H2F` returns the register without the final XOR.  For every byte
sequence the result of a first call is the reference CRC with polynomial 0x2F, initial
value 0xFF and final XOR 0x00, which is the complement of the CRC with final XOR 0xFF and
never equal to it; the check string "123456789" gives 0x20 where the CRC is 0xDF, and the
four bytes 00 00 00 00 give 0xED where the CRC is 0x12. -/
theorem C30_CRC8H2F_without_final_xor :
    Crc_CalculateCRC8H2F crc_check_message 0 true = 0x20 ∧
    crc8_reference 0x2F 0xFF 0xFF crc_check_message = 0xDF ∧
    Crc_CalculateCRC8H2F [0, 0, 0, 0] 0 true = 0xED ∧
    crc8_reference 0x2F 0xFF 0xFF [0, 0, 0, 0] = 0x12 ∧
    ∀ (data : List Nat) (start : Nat),
      Crc_CalculateCRC8H2F data start true = crc8_reference 0x2F 0xFF 0x00 data ∧
      Crc_CalculateCRC8H2F data start true = crc8_reference 0x2F 0xFF 0xFF data ^^^ 0xFF ∧
      Crc_CalculateCRC8H2F data start true ≠ crc8_reference 0x2F 0xFF 0xFF data := by
  refine ⟨by decide, by decide, by decide, by decide, fun data start => ?_⟩
  have h0 : Crc_CalculateCRC8H2F data start true = crc8_reference 0x2F 0xFF 0x00 data := by
    unfold Crc_CalculateCRC8H2F crc8_reference
    simp only [if_true]
    rw [Crc8_foldl_eq _ (by norm_num) _ _ (by norm_num), Nat.xor_zero]
  have h1 : Crc_CalculateCRC8H2F data start true =
      crc8_reference 0x2F 0xFF 0xFF data ^^^ 0xFF := by
    rw [h0]
    unfold crc8_reference
    rw [Nat.xor_zero, Nat.xor_assoc, Nat.xor_self, Nat.xor_zero]
  refine ⟨h0, h1, ?_⟩
  rw [h1]
  exact xor_0xFF_ne _

/-! ## Crc.h : the 16-bit service -/

theorem Crc16_bit_lt (poly c : Nat) : Crc16_bit poly c < 2 ^ 16 := by
  unfold Crc16_bit
  split_ifs <;> exact Nat.mod_lt _ (by norm_num)

theorem crc16_reference_step_lt (poly reg : Nat) (bit : Bool) (hp : poly < 2 ^ 16) :
    crc16_reference_step poly reg bit < 2 ^ 16 := by
  unfold crc16_reference_step
  split_ifs
  · exact Nat.xor_lt_two_pow (Nat.mod_lt _ (by norm_num)) hp
  · exact Nat.mod_lt _ (by norm_num)

theorem and_0x8000_ne_zero_iff (x : Nat) : x &&& 0x8000 ≠ 0 ↔ x.testBit 15 = true := by
  have h : (0x8000 : Nat) = 2 ^ 15 := rfl
  rw [h, Nat.and_two_pow]
  cases x.testBit 15 <;> simp

/-- One round of the loop of `Crc_CalculateCRC16` on `s XOR t` is one step of the reference register
on `s` with the top bit of `t` as message bit, XORed with the rest of `t` moved up. -/
theorem Crc16_bit_xor (poly s t : Nat) (hp : poly < 2 ^ 16) :
    Crc16_bit poly (s ^^^ t) =
      crc16_reference_step poly s (t.testBit 15) ^^^ ((t <<< 1) % 2 ^ 16) := by
  have hpi : ∀ i, ¬ i < 16 → poly.testBit i = false := fun i hi =>
    Nat.testBit_lt_two_pow (lt_of_lt_of_le hp (Nat.pow_le_pow_right (by norm_num) (by omega)))
  unfold Crc16_bit crc16_reference_step
  simp only [and_0x8000_ne_zero_iff, Nat.testBit_xor]
  apply Nat.eq_of_testBit_eq
  intro i
  have hi : ¬ i < 16 → poly.testBit i = false := hpi i
  cases s.testBit 15 <;> cases t.testBit 15 <;>
    simp only [Bool.xor_false, Bool.xor_true, Bool.not_false, Bool.not_true, bne_self_eq_false,
      Bool.false_eq_true, if_false, if_true, Nat.testBit_mod_two_pow, Nat.testBit_shiftLeft,
      Nat.testBit_xor, Bool.bne_true, Bool.bne_false, Bool.true_bne, Bool.false_bne] <;>
    by_cases h16 : i < 16 <;>
    simp only [h16, hi, decide_True, decide_False, Bool.true_and, Bool.false_and,
      Bool.xor_false, not_false_eq_true] <;>
    cases s.testBit (i - 1) <;> cases t.testBit (i - 1) <;> cases poly.testBit i <;>
    cases decide (i ≥ 1) <;> rfl

theorem Crc16_rounds (poly : Nat) (hp : poly < 2 ^ 16) :
    ∀ (n s t : Nat),
      Nat.iterate (Crc16_bit poly) n (s ^^^ t) =
        (Crc16_pending_bits n t).foldl (crc16_reference_step poly) s ^^^ Crc16_pending_rest n t := by
  intro n
  induction n with
  | zero => intro s t; rfl
  | succ n ih =>
    intro s t
    rw [Function.iterate_succ_apply, Crc16_bit_xor poly s t hp, ih]
    rfl

theorem Crc16_pending_bits_eight (byte : Nat) :
    Crc16_pending_bits 8 ((byte % 2 ^ 8) <<< 8) = crc_msg_bits byte := by
  simp only [Crc16_pending_bits, crc_msg_bits, Nat.testBit_mod_two_pow, Nat.testBit_shiftLeft]
  simp

theorem Crc16_pending_rest_eight (byte : Nat) :
    Crc16_pending_rest 8 ((byte % 2 ^ 8) <<< 8) = 0 := by
  have hb : byte % 2 ^ 8 < 2 ^ 8 := Nat.mod_lt _ (by norm_num)
  simp only [Crc16_pending_rest, Nat.shiftLeft_eq]
  omega

theorem xor_shifted_byte_mod (reg byte : Nat) (hr : reg < 2 ^ 16) :
    (reg ^^^ (byte <<< 8)) % 2 ^ 16 = reg ^^^ ((byte % 2 ^ 8) <<< 8) := by
  apply Nat.eq_of_testBit_eq
  intro i
  simp only [Nat.testBit_mod_two_pow, Nat.testBit_xor, Nat.testBit_shiftLeft]
  by_cases hi : i < 16
  · by_cases h8 : i ≥ 8
    · have : i - 8 < 8 := by omega
      simp [hi, h8, this]
    · simp [hi, h8]
  · have : reg.testBit i = false :=
      Nat.testBit_lt_two_pow (lt_of_lt_of_le hr (Nat.pow_le_pow_right (by norm_num) (by omega)))
    have h2 : ¬ i - 8 < 8 := by omega
    simp [hi, this, h2]

/-- The byte step of `Crc_CalculateCRC16` is the reference register fed with the eight bits of the
byte, most significant first. -/
theorem Crc16_byte_eq (poly reg byte : Nat) (hp : poly < 2 ^ 16) (hr : reg < 2 ^ 16) :
    Crc16_byte poly reg byte = (crc_msg_bits byte).foldl (crc16_reference_step poly) reg := by
  unfold Crc16_byte
  rw [xor_shifted_byte_mod reg byte hr, Crc16_rounds poly hp, Crc16_pending_bits_eight,
    Crc16_pending_rest_eight, Nat.xor_zero]

theorem Crc16_byte_lt (poly reg byte : Nat) : Crc16_byte poly reg byte < 2 ^ 16 := by
  unfold Crc16_byte
  exact Crc16_bit_lt poly _

theorem Crc16_foldl_lt (poly : Nat) :
    ∀ (data : List Nat) (reg : Nat), reg < 2 ^ 16 → data.foldl (Crc16_byte poly) reg < 2 ^ 16 := by
  intro data
  induction data with
  | nil => intro reg hr; exact hr
  | cons b bs ih => intro reg _; exact ih _ (Crc16_byte_lt poly reg b)

theorem Crc16_foldl_eq (poly : Nat) (hp : poly < 2 ^ 16) :
    ∀ (data : List Nat) (reg : Nat), reg < 2 ^ 16 →
      data.foldl (Crc16_byte poly) reg =
        data.foldl (fun reg byte => (crc_msg_bits byte).foldl (crc16_reference_step poly) reg)
          reg := by
  intro data
  induction data with
  | nil => intro reg _; rfl
  | cons b bs ih =>
    intro reg hr
    rw [List.foldl_cons, List.foldl_cons, ih _ (Crc16_byte_lt poly reg b),
      Crc16_byte_eq poly reg b hp hr]

/-- C31: `Crc_CalculateCRC16` computes CRC-16/CCITT-FALSE and chains.  For every byte
sequence the result of a first call is the reference CRC of width 16, not reflected, with
polynomial 0x1021, initial value 0xFFFF and final XOR 0; the check string "123456789" gives
0x29B1; and for all byte sequences `a` and `b`, a call on `b` that is not a first call and
starts from the result of a first call on `a` returns the result of one first call on
`a ++ b`. -/
theorem C31_CRC16_is_CCITT_FALSE_and_chains (a b : List Nat) (start : Nat) :
    Crc_CalculateCRC16 a start true = crc16_reference 0x1021 0xFFFF 0x0000 a ∧
    Crc_CalculateCRC16 crc_check_message start true = 0x29B1 ∧
    Crc_CalculateCRC16 b (Crc_CalculateCRC16 a start true) false =
      Crc_CalculateCRC16 (a ++ b) start true := by
  refine ⟨?_, ?_, ?_⟩
  · unfold Crc_CalculateCRC16 crc16_reference
    simp only [if_true]
    rw [Crc16_foldl_eq _ (by norm_num) _ _ (by norm_num), Nat.xor_zero]
  · exact (show Crc_CalculateCRC16 crc_check_message 0 true = 0x29B1 by decide)
  · unfold Crc_CalculateCRC16
    simp only [if_true, Bool.false_eq_true, if_false, List.foldl_append]

/-! ## Bfx_8bits.h : loops with and without an exit -/

theorem while_loop_mono {σ : Type} (cond : σ → Bool) (body : σ → σ) :
    ∀ (fuel k : Nat) (s r : σ), while_loop cond body fuel s = some r →
      while_loop cond body (fuel + k) s = some r := by
  intro fuel
  induction fuel with
  | zero =>
    intro k s r h
    simp only [while_loop] at h
    split_ifs at h with hc
    cases k with
    | zero => simp only [while_loop, hc]; simpa using h
    | succ k => simp only [Nat.zero_add, while_loop, hc]; simpa using h
  | succ n ih =>
    intro k s r h
    rw [Nat.add_right_comm]
    simp only [while_loop] at h ⊢
    split_ifs at h ⊢ with hc
    · exact ih k _ _ h
    · exact h

/-- A loop whose condition holds on every state of an invariant set closed under the body
never ends: it has no result for any number of runs of the body. -/
theorem while_loop_none {σ : Type} (cond : σ → Bool) (body : σ → σ) (inv : σ → Prop)
    (hinv : ∀ s, inv s → cond s = true ∧ inv (body s)) :
    ∀ (fuel : Nat) (s : σ), inv s → while_loop cond body fuel s = none := by
  intro fuel
  induction fuel with
  | zero =>
    intro s hs
    simp only [while_loop, (hinv s hs).1, if_true]
  | succ n ih =>
    intro s hs
    simp only [while_loop, (hinv s hs).1, if_true]
    exact ih _ (hinv s hs).2

theorem bit_count_u8_le (Data : Nat) : bit_count_u8 Data ≤ 8 := by
  unfold bit_count_u8
  exact le_trans (List.length_filter_le _ _) (by simp)

theorem TstParityEven_table : ∀ d, d < 256 → ∀ fuel, fuel < 9 →
    (bit_count_u8 d ≤ fuel →
      Bfx_TstParityEven_u8_u8 fuel d = some (bit_count_u8 d % 2 == 0)) ∧
    (fuel < bit_count_u8 d → Bfx_TstParityEven_u8_u8 fuel d = none) := by
  decide

theorem TstParityEven_mono (fuel k Data : Nat) (r : Bool)
    (h : Bfx_TstParityEven_u8_u8 fuel Data = some r) :
    Bfx_TstParityEven_u8_u8 (fuel + k) Data = some r := by
  unfold Bfx_TstParityEven_u8_u8 at h ⊢
  simp only [Option.map_eq_some'] at h ⊢
  obtain ⟨a, ha, hr⟩ := h
  exact ⟨a, while_loop_mono _ _ _ _ _ _ ha, hr⟩

/-- C36: `Bfx_TstParityEven_u8_u8` returns TRUE exactly when the number of 1 bits of `Data`
is even, for every unsigned 8-bit `Data`, and its loop ends after as many runs of the body
as `Data` has 1 bits: with room for at least that many runs the call returns the parity,
with room for fewer it has not ended.  For 0 it returns TRUE without running the body. -/
theorem C36_TstParityEven (Data fuel : Nat) (hD : Data < 2 ^ 8) :
    (bit_count_u8 Data ≤ fuel →
      Bfx_TstParityEven_u8_u8 fuel Data = some (bit_count_u8 Data % 2 == 0)) ∧
    (fuel < bit_count_u8 Data → Bfx_TstParityEven_u8_u8 fuel Data = none) ∧
    Bfx_TstParityEven_u8_u8 0 0 = some true := by
  refine ⟨?_, ?_, by decide⟩
  · intro h
    rcases Nat.lt_or_ge fuel 9 with hf | hf
    · exact (TstParityEven_table Data hD fuel hf).1 h
    · have h8 := (TstParityEven_table Data hD 8 (by decide)).1 (bit_count_u8_le Data)
      have := TstParityEven_mono 8 (fuel - 8) Data _ h8
      rwa [Nat.add_sub_cancel' (by omega)] at this
  · intro h
    have := bit_count_u8_le Data
    exact (TstParityEven_table Data hD fuel (by omega)).2 h

/-- C36 at the byte 0xF1, which has five 1 bits: the call returns FALSE after five runs of
the loop body and has not ended after four. -/
theorem C36_witness :
    bit_count_u8 0xF1 = 5 ∧
    Bfx_TstParityEven_u8_u8 5 0xF1 = some false ∧
    Bfx_TstParityEven_u8_u8 4 0xF1 = none :=
  have h := C36_TstParityEven 0xF1 5 (by decide)
  have h4 := C36_TstParityEven 0xF1 4 (by decide)
  ⟨by decide, (h.1 (by decide)).trans (by decide), h4.2.1 (by decide)⟩

theorem CountLeadingSigns_mono (fuel k : Nat) (Data : Int) (r : Nat)
    (h : Bfx_CountLeadingSigns_s8 fuel Data = some r) :
    Bfx_CountLeadingSigns_s8 (fuel + k) Data = some r := by
  unfold Bfx_CountLeadingSigns_s8 at h ⊢
  simp only [Option.map_eq_some'] at h ⊢
  obtain ⟨a, ha, hr⟩ := h
  refine ⟨a, ?_, hr⟩
  split_ifs at ha ⊢
  · exact while_loop_mono _ _ _ _ _ _ ha
  · exact while_loop_mono _ _ _ _ _ _ ha

theorem CountLeadingSigns_table : ∀ d : Int, -128 ≤ d → d ≤ 127 →
    d = 0 ∨ d = -1 ∨ Bfx_CountLeadingSigns_s8 8 d = some (redundant_sign_bits_s8 d) := by
  decide

/-- For every signed 8-bit value other than 0 and -1, `Bfx_CountLeadingSigns_s8` ends within
eight runs of its loop and returns the number of redundant sign bits. -/
theorem CountLeadingSigns_other (Data : Int) (fuel : Nat) (h1 : -128 ≤ Data) (h2 : Data ≤ 127)
    (h0 : Data ≠ 0) (hm : Data ≠ -1) (hf : 8 ≤ fuel) :
    Bfx_CountLeadingSigns_s8 fuel Data = some (redundant_sign_bits_s8 Data) := by
  rcases CountLeadingSigns_table Data h1 h2 with h | h | h
  · exact absurd h h0
  · exact absurd h hm
  · have := CountLeadingSigns_mono 8 (fuel - 8) Data _ h
    rwa [Nat.add_sub_cancel' hf] at this

/-- C35: `Bfx_CountLeadingSigns_s8` does not end on 0 and on -1.  Both values have seven
redundant sign bits, but for either of them the call has no result however many times the
loop body runs: no bit of 0 stops the first loop and no bit of -1 stops the second, and
`Mask` stays 0 once it is shifted out.  On 1, -2 and 0x40 the call returns 6, 6 and 0. -/
theorem C35_CountLeadingSigns_no_result_on_0_and_minus_1 :
    redundant_sign_bits_s8 0 = 7 ∧ redundant_sign_bits_s8 (-1) = 7 ∧
    (∀ fuel, Bfx_CountLeadingSigns_s8 fuel 0 = none) ∧
    (∀ fuel, Bfx_CountLeadingSigns_s8 fuel (-1) = none) ∧
    Bfx_CountLeadingSigns_s8 8 1 = some 6 ∧
    Bfx_CountLeadingSigns_s8 8 (-2) = some 6 ∧
    Bfx_CountLeadingSigns_s8 8 0x40 = some 0 := by
  refine ⟨by decide, by decide, fun fuel => ?_, fun fuel => ?_, by decide, by decide, by decide⟩
  · unfold Bfx_CountLeadingSigns_s8
    simp only [ge_iff_le, le_refl, if_true]
    rw [while_loop_none _ _ (fun _ => True) (fun s _ => ⟨by
      have : int_bits 0 = 0 := by decide
      simp [this], trivial⟩) fuel _ trivial]
    rfl
  · unfold Bfx_CountLeadingSigns_s8
    have hneg : ¬ ((-1 : Int) ≥ 0) := by decide
    simp only [hneg, if_false]
    rw [while_loop_none _ _ (fun st => st.2 < 2 ^ 32) (fun s hs => ⟨by
      have : int_bits (-1) = 2 ^ 32 - 1 := by decide
      rw [this, decide_eq_true_eq, Nat.and_comm, Nat.and_pow_two_sub_one_eq_mod]
      exact Nat.mod_eq_of_lt hs, by
      show s.2 >>> 1 < 2 ^ 32
      rw [Nat.shiftRight_eq_div_pow]
      exact lt_of_le_of_lt (Nat.div_le_self _ _) hs⟩) fuel _ (by norm_num)]
    rfl

theorem ShiftBitSat_u8_mono (fuel k : Nat) (ShiftCnt : Int) (Data r : Nat)
    (h : Bfx_ShiftBitSat_u8s8_u8 fuel ShiftCnt Data = some r) :
    Bfx_ShiftBitSat_u8s8_u8 (fuel + k) ShiftCnt Data = some r := by
  unfold Bfx_ShiftBitSat_u8s8_u8 at h ⊢
  simp only [Option.map_eq_some'] at h ⊢
  obtain ⟨a, ha, hr⟩ := h
  exact ⟨a, while_loop_mono _ _ _ _ _ _ ha, hr⟩

theorem ShiftBitSat_u8_table : ∀ d, d < 256 → ∀ n : Int, -7 ≤ n → n ≤ 7 →
    d = 0 ∨ Bfx_ShiftBitSat_u8s8_u8 8 n d =
      some (if n ≥ 0 then min (d * 2 ^ n.toNat) 255 else d / 2 ^ (-n).toNat) := by
  decide

/-- For every unsigned 8-bit value other than 0 and every shift count in -7..7,
`Bfx_ShiftBitSat_u8s8_u8` ends within eight runs of its loop and returns the saturated left
shift or the right shift. -/
theorem ShiftBitSat_u8_nonzero (Data fuel : Nat) (ShiftCnt : Int) (hD : Data < 2 ^ 8)
    (h0 : Data ≠ 0) (h1 : -7 ≤ ShiftCnt) (h2 : ShiftCnt ≤ 7) (hf : 8 ≤ fuel) :
    Bfx_ShiftBitSat_u8s8_u8 fuel ShiftCnt Data =
      some (if ShiftCnt ≥ 0 then min (Data * 2 ^ ShiftCnt.toNat) 255
        else Data / 2 ^ (-ShiftCnt).toNat) := by
  rcases ShiftBitSat_u8_table Data hD ShiftCnt h1 h2 with h | h
  · exact absurd h h0
  · have := ShiftBitSat_u8_mono 8 (fuel - 8) ShiftCnt Data _ h
    rwa [Nat.add_sub_cancel' hf] at this

/-- C34: `Bfx_ShiftBitSat_u8s8_u8` does not end on `Data` = 0.  For every shift count the
call has no result however many times the loop body runs: the loop that looks for the
leading one bit finds none, and `Mask` stays 0 once it is shifted out. -/
theorem C34_ShiftBitSat_u8_no_result_on_0 (fuel : Nat) (ShiftCnt : Int) :
    Bfx_ShiftBitSat_u8s8_u8 fuel ShiftCnt 0 = none := by
  unfold Bfx_ShiftBitSat_u8s8_u8
  simp only []
  rw [while_loop_none _ _ (fun _ => True) (fun s _ => ⟨by simp, trivial⟩) fuel _ trivial]
  rfl

theorem ShiftBitSat_s8_left_table : ∀ d : Int, -128 ≤ d → d ≤ 127 → ∀ n : Int, 0 ≤ n → n ≤ 7 →
    (n ≤ 1 ∨ (-128 ≤ d * 2 ^ n.toNat ∧ d * 2 ^ n.toNat ≤ 127)) →
      Bfx_ShiftBitSat_s8s8_s8 n d = clamp_s8 (d * 2 ^ n.toNat) := by
  decide

/-- C32: `Bfx_ShiftBitSat_s8s8_s8` misses overflows of a left shift.  The value 64 shifted
left by 2 gives 0 where the clamped product 256 is 127, and the value -65 shifted left by 2
gives -4 where the clamped product -260 is -128: the saturation test only compares the sign
of the 8 bits kept with the sign of the operand. -/
theorem C32_ShiftBitSat_s8_left_overflow_missed :
    Bfx_ShiftBitSat_s8s8_s8 2 64 = 0 ∧ clamp_s8 (64 * 2 ^ 2) = 127 ∧
    Bfx_ShiftBitSat_s8s8_s8 2 (-65) = -4 ∧ clamp_s8 (-65 * 2 ^ 2) = -128 := by
  decide

theorem ShiftBitSat_s8_right_table : ∀ d : Int, -128 ≤ d → d ≤ 127 →
    ∀ n : Int, -7 ≤ n → n ≤ -1 →
      d = 0 ∨ Bfx_ShiftBitSat_s8s8_s8 n d = Int.fdiv d (2 ^ (-n).toNat) := by
  decide

theorem ShiftBitSat_s8_right_zero_table : ∀ n : Int, -7 ≤ n → n ≤ -1 →
    Bfx_ShiftBitSat_s8s8_s8 n 0 = -(2 ^ (8 + n).toNat) := by
  decide

/-- C33: `Bfx_ShiftBitSat_s8s8_s8` fills a right-shifted 0 with ones.  The value 0 shifted by
-1 gives -128 and shifted by -7 gives -2, where the quotient rounded down is 0: the branch
that ORs the mask bits in is taken for every `Data` that is not greater than 0. -/
theorem C33_ShiftBitSat_s8_right_shift_of_zero :
    Bfx_ShiftBitSat_s8s8_s8 (-1) 0 = -128 ∧ Int.fdiv 0 (2 ^ 1) = 0 ∧
    Bfx_ShiftBitSat_s8s8_s8 (-7) 0 = -2 ∧ Int.fdiv 0 (2 ^ 7) = 0 := by
  decide

/-! ## Mcu_Arch_DistributePllClock : the returned status -/

/-- C37: `Mcu_Arch_DistributePllClock` returns `E_OK` (0) if and only if CR bit 25 (PLLRDY)
and PLLCFGR bit 28 (PLLREN) are both 1, which is exactly when it writes the mux; otherwise it
returns `E_NOT_OK` (1), also when PLLRDY is 1 and PLLREN is 0, where the stored status is
nevertheless set to Locked. -/
theorem C37_DistributePllClock_returnValue (s : Mcu_Hw) :
    E_OK = 0 ∧ E_NOT_OK = 1 ∧
    ((Mcu_Arch_DistributePllClock s).1 = E_OK ↔
      (s.Rcc.CR.testBit 25 = true ∧ s.Rcc.PLLCFGR.testBit 28 = true)) ∧
    ((Mcu_Arch_DistributePllClock s).1 = E_OK ↔ Mcu_Arch_DistributePllClock_writes s ≠ []) ∧
    ((Mcu_Arch_DistributePllClock s).1 ≠ E_OK → (Mcu_Arch_DistributePllClock s).1 = E_NOT_OK) ∧
    (s.Rcc.CR.testBit 25 = true → s.Rcc.PLLCFGR.testBit 28 = false →
      (Mcu_Arch_DistributePllClock s).1 = E_NOT_OK ∧
      (Mcu_Arch_DistributePllClock s).2.PllStatus = MCU_PLL_LOCKED) := by
  unfold Mcu_Arch_DistributePllClock_writes Mcu_Arch_DistributePllClock
  simp only [Bfx_GetBit_eq_one_iff, RCC_CR_PLLRDY, RCC_PLLCFGR_PLLREN]
  by_cases h1 : s.Rcc.CR.testBit 25 = true <;> by_cases h2 : s.Rcc.PLLCFGR.testBit 28 = true <;>
    simp [h1, h2, Mcu_Hw.ClrBitMask, Mcu_Hw.SetBitMask, Mcu_Hw.rmw]

/-- C37 on the state with HSE ready, whose CR bit 25 is 0: the call returns `E_NOT_OK`;
and on the same state with CR bit 25 set and PLLCFGR bit 28 clear: the call returns
`E_NOT_OK` and stores Locked. -/
theorem C37_witness :
    (Mcu_Arch_DistributePllClock hw_hse_ready).1 = E_NOT_OK ∧
    ((Mcu_Arch_DistributePllClock
        { hw_reset with Rcc := { rcc_reset with CR := 0x03000500 } }).1 = E_NOT_OK ∧
      (Mcu_Arch_DistributePllClock
        { hw_reset with Rcc := { rcc_reset with CR := 0x03000500 } }).2.PllStatus
        = MCU_PLL_LOCKED) :=
  ⟨(C37_DistributePllClock_returnValue hw_hse_ready).2.2.2.2.1
      (fun h => absurd ((C37_DistributePllClock_returnValue hw_hse_ready).2.2.1.1 h).1
        (by decide)),
    (C37_DistributePllClock_returnValue
      { hw_reset with Rcc := { rcc_reset with CR := 0x03000500 } }).2.2.2.2.2
      (by decide) (by decide)⟩

/-! ## Mcu_Arch_Init and the oscillator part of Mcu_Arch_InitClock -/

/-- `Mcu_Arch_Init` and the oscillator part of `Mcu_Arch_InitClock` do the same when the state
field that `Mcu_Arch_Init` reads for the requested oscillator holds the value of `HSIState`,
the field that `Mcu_Arch_InitClock` reads for HSI48, LSE and LSI. -/
theorem Init_eq_InitClock_Osc (s : Mcu_Hw) (cfg : Mcu_ConfigType)
    (h48 : cfg.ClockConfig.OscConfig.OscillatorType = MCU_OSCILLATORTYPE_HSI48 →
      cfg.ClockConfig.OscConfig.HSI48State = cfg.ClockConfig.OscConfig.HSIState)
    (hls : (cfg.ClockConfig.OscConfig.OscillatorType = MCU_OSCILLATORTYPE_LSE ∨
        cfg.ClockConfig.OscConfig.OscillatorType = MCU_OSCILLATORTYPE_LSI) →
      cfg.ClockConfig.OscConfig.LSEState = cfg.ClockConfig.OscConfig.HSIState) :
    Mcu_Arch_Init s cfg = (Mcu_Arch_InitClock_Osc s cfg.ClockConfig).2 := by
  unfold Mcu_Arch_Init Mcu_Arch_InitClock_Osc
  simp only []
  split_ifs <;> simp_all

/-- Under the same condition the oscillator registers after `Mcu_Arch_InitClock` (CR outside
bit 24, ICSCR, BDCR and CSR) are those after `Mcu_Arch_Init`. -/
theorem InitClock_oscillator_registers_eq_Init (s : Mcu_Hw) (cfg : Mcu_ConfigType)
    (h48 : cfg.ClockConfig.OscConfig.OscillatorType = MCU_OSCILLATORTYPE_HSI48 →
      cfg.ClockConfig.OscConfig.HSI48State = cfg.ClockConfig.OscConfig.HSIState)
    (hls : (cfg.ClockConfig.OscConfig.OscillatorType = MCU_OSCILLATORTYPE_LSE ∨
        cfg.ClockConfig.OscConfig.OscillatorType = MCU_OSCILLATORTYPE_LSI) →
      cfg.ClockConfig.OscConfig.LSEState = cfg.ClockConfig.OscConfig.HSIState) :
    (Mcu_Arch_InitClock s cfg.ClockConfig).2.Rcc.CR &&& not_u32 (1 <<< RCC_CR_PLLON) =
      (Mcu_Arch_Init s cfg).Rcc.CR &&& not_u32 (1 <<< RCC_CR_PLLON) ∧
    (Mcu_Arch_InitClock s cfg.ClockConfig).2.Rcc.ICSCR = (Mcu_Arch_Init s cfg).Rcc.ICSCR ∧
    (Mcu_Arch_InitClock s cfg.ClockConfig).2.Rcc.BDCR = (Mcu_Arch_Init s cfg).Rcc.BDCR ∧
    (Mcu_Arch_InitClock s cfg.ClockConfig).2.Rcc.CSR = (Mcu_Arch_Init s cfg).Rcc.CSR := by
  obtain ⟨h1, h2, h3⟩ := InitClock_BDCR_CSR_ICSCR s cfg.ClockConfig
  rw [Init_eq_InitClock_Osc s cfg h48 hls, h1, h2, h3]
  exact ⟨InitClock_CR_and s cfg.ClockConfig _ (by decide) (by decide), rfl, rfl, rfl⟩

/-- C38: `Mcu_Arch_Init` and `Mcu_Arch_InitClock` do not apply the same oscillator request.
From the reset state, for the HSI48 request with `HSI48State` On, CR outside bit 24 is
0x400500 after `Mcu_Arch_Init` and 0x500 after `Mcu_Arch_InitClock`; for the LSE request with
`LSEState` On, BDCR is 1 after `Mcu_Arch_Init` and 0 after `Mcu_Arch_InitClock`. -/
theorem C38_Init_and_InitClock_differ :
    (Mcu_Arch_Init hw_reset (config_of request_hsi48_on)).Rcc.CR
      &&& not_u32 (1 <<< RCC_CR_PLLON) = 0x400500 ∧
    (Mcu_Arch_InitClock hw_reset request_hsi48_on).2.Rcc.CR
      &&& not_u32 (1 <<< RCC_CR_PLLON) = 0x500 ∧
    (Mcu_Arch_Init hw_reset (config_of (request_lse MCU_LSE_ON))).Rcc.BDCR = 1 ∧
    (Mcu_Arch_InitClock hw_reset (request_lse MCU_LSE_ON)).2.Rcc.BDCR = 0 := by
  decide

/-! ## The hardware ready flags -/

theorem Init_ready_flags (s : Mcu_Hw) (cfg : Mcu_ConfigType)
    (h : ¬ (cfg.ClockConfig.OscConfig.OscillatorType = MCU_OSCILLATORTYPE_HSI ∧
      cfg.ClockConfig.OscConfig.HSIState = MCU_HSI_ON)) :
    ready_flags (Mcu_Arch_Init s cfg).Rcc = ready_flags s.Rcc := by
  unfold Mcu_Arch_Init ready_flags
  simp only [RCC_CR_HSIRDY, RCC_CR_HSERDY, RCC_CR_HSI48RDY, RCC_CR_PLLRDY, RCC_CSR_LSIRDY,
    RCC_BDCR_LSERDY, RCC_CR_HSEON, RCC_CR_HSEBYP, RCC_CR_HSION, RCC_CR_HSI48ON, RCC_BDCR_LSEON,
    RCC_BDCR_LSEBYP, RCC_CSR_LSION]
  split_ifs <;> simp_all [testBit_SetBit, testBit_ClrBit]

theorem InitClock_Osc_ready_flags (s : Mcu_Hw) (c : Mcu_ClkConfigType)
    (h : ¬ (c.OscConfig.OscillatorType = MCU_OSCILLATORTYPE_HSI ∧
      c.OscConfig.HSIState = MCU_HSI_ON)) :
    ready_flags (Mcu_Arch_InitClock_Osc s c).2.Rcc = ready_flags s.Rcc := by
  unfold Mcu_Arch_InitClock_Osc ready_flags
  simp only [RCC_CR_HSIRDY, RCC_CR_HSERDY, RCC_CR_HSI48RDY, RCC_CR_PLLRDY, RCC_CSR_LSIRDY,
    RCC_BDCR_LSERDY, RCC_CR_HSEON, RCC_CR_HSEBYP, RCC_CR_HSION, RCC_CR_HSI48ON, RCC_BDCR_LSEON,
    RCC_BDCR_LSEBYP, RCC_CSR_LSION]
  split_ifs <;> simp_all [testBit_SetBit, testBit_ClrBit]

theorem InitClock_ready_flags_of_Osc (s : Mcu_Hw) (c : Mcu_ClkConfigType) :
    ready_flags (Mcu_Arch_InitClock s c).2.Rcc =
      ready_flags (Mcu_Arch_InitClock_Osc s c).2.Rcc := by
  obtain ⟨h1, h2, _⟩ := InitClock_BDCR_CSR_ICSCR s c
  unfold ready_flags
  rw [h1, h2, InitClock_CR_testBit s c _ (by decide) (by decide),
    InitClock_CR_testBit s c _ (by decide) (by decide),
    InitClock_CR_testBit s c _ (by decide) (by decide),
    InitClock_CR_testBit s c _ (by decide) (by decide)]

/-- Every request other than HSI On leaves the six ready flags as found, in `Mcu_Arch_Init`
and in `Mcu_Arch_InitClock`; `Mcu_Arch_DistributePllClock` and `Mcu_Arch_GetPllStatus` always
do. -/
theorem ready_flags_kept (s : Mcu_Hw) (cfg : Mcu_ConfigType)
    (h : ¬ (cfg.ClockConfig.OscConfig.OscillatorType = MCU_OSCILLATORTYPE_HSI ∧
      cfg.ClockConfig.OscConfig.HSIState = MCU_HSI_ON)) :
    ready_flags (Mcu_Arch_Init s cfg).Rcc = ready_flags s.Rcc ∧
    ready_flags (Mcu_Arch_InitClock s cfg.ClockConfig).2.Rcc = ready_flags s.Rcc ∧
    ready_flags (Mcu_Arch_DistributePllClock s).2.Rcc = ready_flags s.Rcc ∧
    ready_flags (Mcu_Arch_GetPllStatus s).2.Rcc = ready_flags s.Rcc := by
  refine ⟨Init_ready_flags s cfg h, ?_, ?_, ?_⟩
  · rw [InitClock_ready_flags_of_Osc, InitClock_Osc_ready_flags s cfg.ClockConfig h]
  · unfold Mcu_Arch_DistributePllClock ready_flags
    simp only []
    split_ifs <;> simp
  · rw [GetPllStatus_Rcc]

/-- C39: an HSI On request writes the ready flag HSIRDY.  On a state whose CR bit 10 is 0,
the request with divider `MCU_HSI_DIV1` and the calibration value 68, which is inside
0..127, leaves CR bit 10 at 1 after `Mcu_Arch_Init` and after `Mcu_Arch_InitClock`: bit 2 of
the calibration value, moved up by 8, lands on CR bit 10. -/
theorem C39_HSIRDY_written_by_trim :
    MCU_HSI_DIV1 ∈ MCU_HSI_DIVS ∧
    Validate_ValueInRange 68 MCU_HSICALIBRATION_MIN_VALUE MCU_HSICALIBRATION_MAX_VALUE = E_OK ∧
    hw_hsi_off.Rcc.CR.testBit RCC_CR_HSIRDY = false ∧
    (Mcu_Arch_Init hw_hsi_off (config_of (request_hsi_on MCU_HSI_DIV1 68))).Rcc.CR.testBit
      RCC_CR_HSIRDY = true ∧
    (Mcu_Arch_InitClock hw_hsi_off (request_hsi_on MCU_HSI_DIV1 68)).2.Rcc.CR.testBit
      RCC_CR_HSIRDY = true := by
  decide

/-! ## Mcu_Arch_InitClock : the CFGR bits outside the programmed fields -/

theorem AHB_enum_unprogrammed_bits : ∀ v ∈ MCU_AHB_DIVS, v &&& CFGR_unprogrammed_bits = 0 := by
  decide

theorem APB1_enum_unprogrammed_bits :
    ∀ v ∈ MCU_APB1_DIVS, v &&& CFGR_unprogrammed_bits = 0 := by
  decide

/-- C40 (counterexample): the AHB value 0xD08 lies between `MCU_AHB_DIV128` and
`MCU_AHB_DIV512` and is accepted by the range validation; from the reset state,
`Mcu_Arch_InitClock` then sets CFGR bit 3, which is outside the three fields, and the value
read by `Get_SysClk` goes from 0 to 1. -/
theorem C40_counterexample :
    Validate_ValueInRange 0xD08 MCU_AHB_DIV128 MCU_AHB_DIV512 = E_OK ∧
    hw_reset.Rcc.CFGR.testBit 3 = false ∧
    (Mcu_Arch_InitClock hw_reset (request_ahb 0xD08)).2.Rcc.CFGR.testBit 3 = true ∧
    Get_SysClk hw_reset = 0 ∧
    Get_SysClk (Mcu_Arch_InitClock hw_reset (request_ahb 0xD08)).2 = 1 := by
  decide

/-- C40 (amended): for every machine state and every request whose AHB and APB1 values are
encodings or rejected by the range validation, `Mcu_Arch_InitClock` changes CFGR only inside
the mux-select field (mask 0x07), the AHB divider field (mask 0xF00) and the APB1 divider
field (mask 0x7000): every other bit of the 32-bit word is unchanged, in particular the
current-source readback in bits 5:3, so `Get_SysClk` reads the same value. -/
theorem C40_CFGR_changed_only_in_fields (s : Mcu_Hw) (c : Mcu_ClkConfigType)
    (hA : AHB_enum_or_rejected c.ClkConfig.AHBClockDivider)
    (hB : APB1_enum_or_rejected c.ClkConfig.APB1ClockDivider) :
    (Mcu_Arch_InitClock s c).2.Rcc.CFGR &&& CFGR_unprogrammed_bits =
      s.Rcc.CFGR &&& CFGR_unprogrammed_bits ∧
    (∀ i, i < 32 → (0x7F07 : Nat).testBit i = false →
      (Mcu_Arch_InitClock s c).2.Rcc.CFGR.testBit i = s.Rcc.CFGR.testBit i) ∧
    Get_SysClk (Mcu_Arch_InitClock s c).2 = Get_SysClk s := by
  have hk : (Mcu_Arch_InitClock s c).2.Rcc.CFGR &&& CFGR_unprogrammed_bits =
      s.Rcc.CFGR &&& CFGR_unprogrammed_bits := by
    rw [InitClock_CFGR]
    unfold Clk_CFGR
    simp only []
    rw [ite_clr_set_frame, ite_clr_set_frame, ite_clr_set_frame]
    · intro hf
      have h4 := SysClockSource_ready_le _ _ ((applySettingFlag_eq _ _).1 hf)
      exact ⟨by decide, and_eq_zero_of_lt_two_pow _ _ 3 (by omega) (by decide)⟩
    · intro hv
      rcases hA with h | h
      · exact ⟨by decide, AHB_enum_unprogrammed_bits _ h⟩
      · exact absurd hv h
    · intro hv
      rcases hB with h | h
      · exact ⟨by decide, APB1_enum_unprogrammed_bits _ h⟩
      · exact absurd hv h
  refine ⟨hk, fun i hi hm => ?_, InitClock_Get_SysClk s c hA hB⟩
  apply testBit_eq_of_and_mask_eq _ _ _ _ hk
  unfold CFGR_unprogrammed_bits
  rw [testBit_not_u32]
  have : (MCU_SYSCLKSOURCE_MASK ||| MCU_AHB_DIV_MASK ||| MCU_APB1_DIV_MASK) = 0x7F07 := by
    decide
  rw [this, hm]
  simp [hi]

/-- C40 (amended) on the state with HSE ready and the request that selects HSE with the
bus dividers `MCU_AHB_DIV1` and `MCU_APB1_DIV1`. -/
theorem C40_witness :
    (Mcu_Arch_InitClock hw_hse_ready request_hse_sysclk).2.Rcc.CFGR &&& CFGR_unprogrammed_bits =
      hw_hse_ready.Rcc.CFGR &&& CFGR_unprogrammed_bits ∧
    Get_SysClk (Mcu_Arch_InitClock hw_hse_ready request_hse_sysclk).2 =
      Get_SysClk hw_hse_ready :=
  have h := C40_CFGR_changed_only_in_fields hw_hse_ready request_hse_sysclk
    (Or.inl (by decide)) (Or.inl (by decide))
  ⟨h.1, h.2.2⟩
